import Mathlib

/-!
RPL ICMPv6 control messages (`core/net/rplof-fuzzy logic/rpl-icmp6.c`)

A shallow embedding of the DIO / DAO codec and of the DAO route-learning
logic of `rpl-icmp6.c`, followed by theorems about it.

Conventions of the embedding:

* machine integers are `Nat`; a store into an `unsigned char` cell reduces
  modulo 256, a store into a `uint8_t` variable likewise;
* the ICMP payload area `UIP_ICMP_PAYLOAD` is a memory `Nat → Nat` (index to
  byte); it is larger than any one message, so bytes at and past the body
  length exist and hold whatever an earlier packet left there;
* a `NULL` dereference and a `memcpy` past the end of a local are faults
  (`Except.error`);
* loops run on fuel that the entry points choose large enough; running out of
  fuel is a fault of its own, never a result;
* headers that are not part of the source file (`rpl-private.h`, `rpl.h`,
  `uip.h`) contribute constants and macros: these are fields of `rpl_private`;
  the statistics macro `RPL_STAT` is taken as enabled, and the integer fields
  of the structures have the widths of the Contiki headers (`flags` of a metric
  entry is a `uint8_t`).
-/

namespace RplIcmp6

/-! ## Bytes and memory -/

/-- An IPv6 address (`uip_ipaddr_t`): its 16 bytes. -/
abbrev uip_ipaddr_t := List Nat

/-- The payload memory: index to byte. -/
abbrev Buffer := Nat → Nat

/-- The store `buffer[pos] = v` into an `unsigned char` cell. -/
def put (buffer : Buffer) (pos v : Nat) : Buffer :=
  fun i => if i = pos then v % 256 else buffer i

/-- The call `memcpy(buffer + pos, src, n)` from an address-like byte list. -/
def memcpy_to (buffer : Buffer) (pos : Nat) (src : List Nat) (n : Nat) : Buffer :=
  fun i => if pos ≤ i ∧ i < pos + n then src.getD (i - pos) 0 % 256 else buffer i

/-- The call `memset(buffer + pos, 0, n)`. -/
def memset0 (buffer : Buffer) (pos n : Nat) : Buffer :=
  fun i => if pos ≤ i ∧ i < pos + n then 0 else buffer i

/-- The call `memcpy(dst, buffer + pos, n)` into a 16-byte local `dst`: the
first `n` bytes are replaced, the rest of the 16 bytes of `dst` is kept. -/
def memcpy_from (dst : List Nat) (buffer : Buffer) (pos n : Nat) : List Nat :=
  (List.range n).map (fun k => buffer (pos + k)) ++ (dst.drop n).take (16 - n)

/-- The first `n` bytes of the payload memory, as handed to the transport. -/
def payload (buffer : Buffer) (n : Nat) : List Nat :=
  (List.range n).map buffer

/-- Source lines 109-114. -/
def get32 (buffer : Buffer) (pos : Nat) : Nat :=
  ((buffer pos <<< 24 ||| buffer (pos + 1) <<< 16 |||
    buffer (pos + 2) <<< 8 ||| buffer (pos + 3))) % 2 ^ 32

/-- Source lines 116-124. -/
def set32 (buffer : Buffer) (pos value : Nat) : Buffer :=
  let buffer := put buffer pos (value >>> 24)
  let buffer := put buffer (pos + 1) ((value >>> 16) &&& 0xffff)
  let buffer := put buffer (pos + 2) ((value >>> 8) &&& 0xff)
  put buffer (pos + 3) (value &&& 0xff)

/-- Source lines 126-130. -/
def get16 (buffer : Buffer) (pos : Nat) : Nat :=
  (buffer pos <<< 8 ||| buffer (pos + 1)) % 2 ^ 16

/-- Source lines 132-137. -/
def set16 (buffer : Buffer) (pos value : Nat) : Buffer :=
  let buffer := put buffer pos (value >>> 8)
  put buffer (pos + 1) (value &&& 0xff)

/-! ## Constants of the source file (lines 69-72) -/

def RPL_DIO_GROUNDED : Nat := 0x80
def RPL_DIO_MOP_SHIFT : Nat := 3
def RPL_DIO_MOP_MASK : Nat := 0x3c
def RPL_DIO_PREFERENCE_MASK : Nat := 0x07

/-! ## Data model -/

/-- One metric-container entry (`rpl_metric_container_t`); `obj` is the value
held in the union `obj`, `next` is the position in the enclosing list. -/
structure rpl_metric_container where
  type : Nat
  flags : Nat
  aggr : Nat
  prec : Nat
  length : Nat
  obj : Nat
deriving DecidableEq, Repr

/-- Prefix record (`rpl_prefix_t`); `prefix_addr` is the C field `prefix`. -/
structure rpl_prefix_t where
  prefix_addr : uip_ipaddr_t
  lifetime : Nat
  length : Nat
  flags : Nat
deriving DecidableEq, Repr

/-- The decoded DIO (`rpl_dio_t`), with the fields `dio_input` assigns. -/
structure rpl_dio where
  reception_time : Nat
  instance_id : Nat
  version : Nat
  rank : Nat
  grounded : Nat
  mop : Nat
  preference : Nat
  dtsn : Nat
  dag_id : uip_ipaddr_t
  dag_intdoubl : Nat
  dag_intmin : Nat
  dag_redund : Nat
  dag_max_rankinc : Nat
  dag_min_hoprankinc : Nat
  ocp : Nat
  default_lifetime : Nat
  lifetime_unit : Nat
  destination_prefix : rpl_prefix_t
  prefix_info : rpl_prefix_t
  dio_delay : Nat
  next_dio_time : Nat
  next_dio_delay : Nat
  mcs : List rpl_metric_container
deriving DecidableEq, Repr

/-- A candidate parent (`rpl_parent_t`), as far as this file reads or writes it. -/
structure rpl_parent where
  addr : uip_ipaddr_t
  rank : Nat
  updated : Nat
deriving DecidableEq, Repr

/-- A DAG (`rpl_dag_t`), as far as this file reads or writes it. `ocp` is
`dag->of->ocp`; `preferred_parent` is an index into `parents`, `none` for the
null pointer. -/
structure rpl_dag where
  instance_id : Nat
  version : Nat
  rank : Nat
  grounded : Nat
  mop : Nat
  preference : Nat
  dtsn_out : Nat
  dag_id : uip_ipaddr_t
  dio_intdoubl : Nat
  dio_intmin : Nat
  dio_redundancy : Nat
  max_rankinc : Nat
  min_hoprankinc : Nat
  ocp : Nat
  default_lifetime : Nat
  lifetime_unit : Nat
  prefix_info : rpl_prefix_t
  mcs : List rpl_metric_container
  parents : List rpl_parent
  preferred_parent : Option Nat
deriving DecidableEq, Repr

/-- A route-table entry (`uip_ds6_route_t` with its `state`). -/
structure uip_ds6_route where
  ipaddr : uip_ipaddr_t
  length : Nat
  nexthop : uip_ipaddr_t
  lifetime : Nat
  saved_lifetime : Nat
  learned_from : Nat
deriving DecidableEq, Repr

/-- One call of `uip_icmp6_send(dest, type, code, len)`, with the `len` payload
bytes the buffer held at the time of the call. -/
structure icmp6_msg where
  dest : uip_ipaddr_t
  type : Nat
  code : Nat
  len : Nat
  body : List Nat
deriving DecidableEq, Repr

/-- The counters of `rpl_stats` that this file increments. -/
structure rpl_statistics where
  malformed_msgs : Nat
  mem_overflows : Nat
deriving DecidableEq, Repr

/-- Modelled from the spec: the metric-container pool (`lib/memb.h` is not part
of the source): a bounded free-list of `num` blocks, `used` of them handed
out. -/
structure memb where
  num : Nat
  used : Nat
deriving DecidableEq, Repr

/-- Modelled from the spec: `memb_alloc` hands out a block, or fails (the null
pointer, here `none`) when no block is free. -/
def memb_alloc (m : memb) : Option memb :=
  if m.used < m.num then some { m with used := m.used + 1 } else none

/-- Modelled from the spec: `memb_free` returns one block to the pool. -/
def memb_free (m : memb) : memb :=
  { m with used := m.used - 1 }

/-- The constants and macros that `rpl-icmp6.c` takes from headers outside the
source file. -/
structure rpl_private where
  RPL_DIO_SUBOPT_PAD1 : Nat
  RPL_DIO_SUBOPT_DAG_METRIC_CONTAINER : Nat
  RPL_DIO_SUBOPT_ROUTE_INFO : Nat
  RPL_DIO_SUBOPT_DAG_CONF : Nat
  RPL_DIO_SUBOPT_TARGET : Nat
  RPL_DIO_SUBOPT_TRANSIT : Nat
  RPL_DIO_SUBOPT_PREFIX_INFO : Nat
  RPL_DAG_MC_ENERGY : Nat
  RPL_DAG_MC_THROUGHPUT : Nat
  RPL_DAG_MC_ETX : Nat
  RPL_DAG_MC_LQL : Nat
  RPL_DAG_MC_HOPCOUNT : Nat
  RPL_DAG_MC_LATENCY : Nat
  DEFAULT_DIO_INTERVAL_DOUBLINGS : Nat
  DEFAULT_DIO_INTERVAL_MIN : Nat
  DEFAULT_DIO_REDUNDANCY : Nat
  RPL_DAO_K_FLAG : Nat
  RPL_DAO_D_FLAG : Nat
  ZERO_LIFETIME : Nat
  DAO_EXPIRATION_TIMEOUT : Nat
  INFINITE_RANK : Nat
  RPL_ROUTE_FROM_UNICAST_DAO : Nat
  RPL_ROUTE_FROM_MULTICAST_DAO : Nat
  RPL_ROUTE_FROM_INTERNAL : Nat
  ICMP6_RPL : Nat
  RPL_CODE_DIS : Nat
  RPL_CODE_DIO_MSG : Nat
  RPL_CODE_DAO : Nat
  RPL_CODE_DAO_ACK : Nat
  UIP_DS6_ROUTE_NB : Nat
  linklocal_rplnodes_mcast : uip_ipaddr_t
  uip_is_addr_mcast : uip_ipaddr_t → Bool
  DAG_RANK : Nat → rpl_dag → Nat
  RPL_LIFETIME : rpl_dag → Nat → Nat

/-- The objective function of a DAG (`dag->of`): the hook that recomputes the
metric values before a DIO is serialised. -/
structure rpl_of where
  update_metric_container : rpl_dag → rpl_dag

/-- The state this file shares with its collaborators. -/
structure rpl_node where
  dag_table : List rpl_dag
  routing_table : List uip_ds6_route
  mc_memb : memb
  rpl_stats : rpl_statistics
  dao_sequence : Nat
  dio_delay : Nat
  next_dio_time : Nat
  next_dio_delay : Nat
  sent : List icmp6_msg
  processed_dio : List (uip_ipaddr_t × rpl_dio)
deriving DecidableEq, Repr

/-- What can go wrong below the level of the protocol. -/
inductive Fault where
  | null_dereference
  | stack_overflow
  | out_of_fuel
deriving DecidableEq, Repr

/-! ## DIO input (source lines 195-433) -/

/-- How the suboption loop of `dio_input` is left: by running to the end of the
body, or through one of the `return` statements inside it. -/
inductive scan_exit where
  | finished
  | returned
deriving DecidableEq, Repr

/-- Source lines 318-359: the `while` loop over the entries of a metric
container, from cursor `j` up to `limit = i + len - 2`. The block that
`memb_alloc` returns is written without a test for the null pointer. For a type
outside the `switch` the union `obj` is not assigned; the model shows it as 0. -/
def dio_mc_loop (c : rpl_private) (buffer : Buffer) (limit : Nat) :
    Nat → Nat → rpl_dio → rpl_node → Except Fault (rpl_dio × rpl_node)
  | 0, _, _, _ => .error .out_of_fuel
  | fuel + 1, j, dio, node =>
    if j < limit then
      match memb_alloc node.mc_memb with
      | none => .error .null_dereference
      | some pool =>
        let type := buffer j
        let flags := (buffer (j + 1) <<< 1) % 256
        let flags := flags ||| (buffer (j + 2) >>> 7)
        let aggr := (buffer (j + 2) >>> 4) &&& 0x3
        let prec := buffer (j + 2) &&& 0xf
        let length := buffer (j + 3)
        let j := j + 4
        let mc : rpl_metric_container :=
          { type := type, flags := flags, aggr := aggr, prec := prec,
            length := length, obj := 0 }
        let node := { node with mc_memb := pool }
        if type = c.RPL_DAG_MC_ENERGY then
          dio_mc_loop c buffer limit fuel (j + 2)
            { dio with mcs := dio.mcs ++ [{ mc with obj := get16 buffer j }] } node
        else if type = c.RPL_DAG_MC_THROUGHPUT then
          dio_mc_loop c buffer limit fuel (j + 2)
            { dio with mcs := dio.mcs ++ [{ mc with obj := get16 buffer j }] } node
        else if type = c.RPL_DAG_MC_ETX then
          dio_mc_loop c buffer limit fuel (j + 2)
            { dio with mcs := dio.mcs ++ [{ mc with obj := get16 buffer j }] } node
        else if type = c.RPL_DAG_MC_LQL then
          dio_mc_loop c buffer limit fuel (j + 2)
            { dio with mcs := dio.mcs ++ [{ mc with obj := get16 buffer j }] } node
        else if type = c.RPL_DAG_MC_HOPCOUNT then
          dio_mc_loop c buffer limit fuel (j + 2)
            { dio with mcs := dio.mcs ++ [{ mc with obj := get16 buffer j }] } node
        else if type = c.RPL_DAG_MC_LATENCY then
          dio_mc_loop c buffer limit fuel (j + 4)
            { dio with mcs := dio.mcs ++ [{ mc with obj := get32 buffer j }] } node
        else
          dio_mc_loop c buffer limit fuel j
            { dio with mcs := dio.mcs ++ [mc] } node
    else .ok (dio, node)

/-- Source lines 280-286: the total length `len` of the suboption at `i`. -/
def subopt_len (c : rpl_private) (buffer : Buffer) (i : Nat) : Nat :=
  if buffer i = c.RPL_DIO_SUBOPT_PAD1 then 1 else 2 + buffer (i + 1)

/-- Source lines 296-428: the body of the suboption loop for the suboption at
`i`, of total length `len`. -/
def dio_subopt (c : rpl_private) (buffer : Buffer) (i len : Nat) (dio : rpl_dio)
    (node : rpl_node) : Except Fault (scan_exit × rpl_dio × rpl_node) :=
  let subopt_type := buffer i
  let malformed : rpl_node :=
    { node with rpl_stats :=
        { node.rpl_stats with malformed_msgs := node.rpl_stats.malformed_msgs + 1 } }
  if subopt_type = c.RPL_DIO_SUBOPT_DAG_METRIC_CONTAINER then
    let j := i + 2
    let dio := { dio with dio_delay := get32 buffer j }
    let j := j + 4
    let dio := { dio with next_dio_time := get32 buffer j }
    let j := j + 4
    let dio := { dio with next_dio_delay := get32 buffer j }
    let j := j + 4
    match dio_mc_loop c buffer (i + len - 2) (len + 1) j dio node with
    | .error e => .error e
    | .ok (dio, node) => .ok (.finished, dio, node)
  else if subopt_type = c.RPL_DIO_SUBOPT_ROUTE_INFO then
    if len < 9 then .ok (.returned, dio, malformed)
    else
      let dio := { dio with destination_prefix :=
        { dio.destination_prefix with
            length := buffer (i + 2), flags := buffer (i + 3),
            lifetime := get32 buffer (i + 4) } }
      if (dio.destination_prefix.length + 7) / 8 + 8 ≤ len ∧
          dio.destination_prefix.length ≤ 128 then
        .ok (.finished,
          { dio with destination_prefix :=
              { dio.destination_prefix with
                  prefix_addr := memcpy_from dio.destination_prefix.prefix_addr buffer
                    (i + 8) ((dio.destination_prefix.length + 7) / 8) } },
          node)
      else .ok (.returned, dio, malformed)
  else if subopt_type = c.RPL_DIO_SUBOPT_DAG_CONF then
    if len ≠ 16 then .ok (.returned, dio, malformed)
    else
      .ok (.finished,
        { dio with
            dag_intdoubl := buffer (i + 3)
            dag_intmin := buffer (i + 4)
            dag_redund := buffer (i + 5)
            dag_max_rankinc := (buffer (i + 6) <<< 8 ||| buffer (i + 7)) % 2 ^ 16
            dag_min_hoprankinc := (buffer (i + 8) <<< 8 ||| buffer (i + 9)) % 2 ^ 16
            ocp := (buffer (i + 10) <<< 8 ||| buffer (i + 11)) % 2 ^ 16
            default_lifetime := buffer (i + 13)
            lifetime_unit := (buffer (i + 14) <<< 8 ||| buffer (i + 15)) % 2 ^ 16 },
        node)
  else if subopt_type = c.RPL_DIO_SUBOPT_PREFIX_INFO then
    if len ≠ 32 then .ok (.returned, dio, malformed)
    else
      .ok (.finished,
        { dio with prefix_info :=
            { length := buffer (i + 2)
              flags := buffer (i + 3)
              lifetime := get32 buffer (i + 8)
              prefix_addr := memcpy_from dio.prefix_info.prefix_addr buffer (i + 16) 16 } },
        node)
  else .ok (.finished, dio, node)

/-- Source lines 279-430: the `for` loop over the suboptions, from cursor `i`. -/
def dio_subopts (c : rpl_private) (buffer : Buffer) (buffer_length : Nat) :
    Nat → Nat → rpl_dio → rpl_node → Except Fault (scan_exit × rpl_dio × rpl_node)
  | 0, _, _, _ => .error .out_of_fuel
  | fuel + 1, i, dio, node =>
    if i < buffer_length then
      let len := subopt_len c buffer i
      match dio_subopt c buffer i len dio node with
      | .error e => .error e
      | .ok (.returned, dio, node) => .ok (.returned, dio, node)
      | .ok (.finished, dio, node) => dio_subopts c buffer buffer_length fuel (i + len) dio node
    else .ok (.finished, dio, node)

/-- Source lines 906-915: every entry of the list goes back to the pool. -/
def clear_dio_mc (dio : rpl_dio) (pool : memb) : memb :=
  dio.mcs.foldl (fun m _ => memb_free m) pool

/-- Source lines 214-276: the locals set before the suboption loop. `stack` is
what the uninitialised local `dio` holds on entry, `clock_time` the value the
clock returns. -/
def dio_base (c : rpl_private) (buffer : Buffer) (stack : rpl_dio) (clock_time : Nat) :
    rpl_dio :=
  { stack with
      reception_time := clock_time
      dag_intdoubl := c.DEFAULT_DIO_INTERVAL_DOUBLINGS
      dag_intmin := c.DEFAULT_DIO_INTERVAL_MIN
      dag_redund := c.DEFAULT_DIO_REDUNDANCY
      instance_id := buffer 0
      version := buffer 1
      rank := (buffer 2 <<< 8 ||| buffer 3) % 2 ^ 16
      grounded := buffer 4 &&& RPL_DIO_GROUNDED
      mop := (buffer 4 &&& RPL_DIO_MOP_MASK) >>> RPL_DIO_MOP_SHIFT
      preference := buffer 4 &&& RPL_DIO_PREFERENCE_MASK
      mcs := []
      dtsn := buffer 5
      dag_id := memcpy_from stack.dag_id buffer 8 16 }

/-- Source lines 195-433. `body_len` is `uip_len - uip_l2_l3_icmp_hdr_len`
before it is stored into the `uint8_t buffer_length`; `srcipaddr` is
`UIP_IP_BUF->srcipaddr`. The neighbour-cache update of lines 229-245 touches
no state kept here. A `return` inside the loop leaves before
`rpl_process_dio` and `clear_dio_mc`. -/
def dio_input (c : rpl_private) (node : rpl_node) (srcipaddr : uip_ipaddr_t)
    (buffer : Buffer) (body_len : Nat) (stack : rpl_dio) (clock_time : Nat) :
    Except Fault rpl_node :=
  let buffer_length := body_len % 256
  let dio := dio_base c buffer stack clock_time
  match dio_subopts c buffer buffer_length (buffer_length + 1) 24 dio node with
  | .error e => .error e
  | .ok (.returned, _, node) => .ok node
  | .ok (.finished, dio, node) =>
    .ok { node with
            processed_dio := node.processed_dio ++ [(srcipaddr, dio)]
            mc_memb := clear_dio_mc dio node.mc_memb }

/-! ## DIO output (source lines 438-609) -/

/-- Source lines 508-541: one entry of the metric list, written at `pos`. -/
def mc_output (c : rpl_private) (mc : rpl_metric_container) (buffer : Buffer)
    (pos : Nat) : Buffer × Nat :=
  let buffer := put buffer pos mc.type
  let buffer := put buffer (pos + 1) (mc.flags >>> 1)
  let buffer := put buffer (pos + 2) ((mc.flags &&& 1) <<< 7)
  let buffer := put buffer (pos + 2) (buffer (pos + 2) ||| ((mc.aggr <<< 4) ||| mc.prec))
  let buffer := put buffer (pos + 3) mc.length
  let pos := pos + 4
  if mc.type = c.RPL_DAG_MC_ENERGY then (set16 buffer pos mc.obj, pos + 2)
  else if mc.type = c.RPL_DAG_MC_THROUGHPUT then (set16 buffer pos mc.obj, pos + 2)
  else if mc.type = c.RPL_DAG_MC_ETX then (set16 buffer pos mc.obj, pos + 2)
  else if mc.type = c.RPL_DAG_MC_LQL then (set16 buffer pos mc.obj, pos + 2)
  else if mc.type = c.RPL_DAG_MC_HOPCOUNT then (set16 buffer pos mc.obj, pos + 2)
  else if mc.type = c.RPL_DAG_MC_LATENCY then (set32 buffer pos mc.obj, pos + 4)
  else (buffer, pos)

/-- Source line 507: the `for` loop over the metric list. -/
def mcs_output (c : rpl_private) :
    List rpl_metric_container → Buffer → Nat → Buffer × Nat
  | [], buffer, pos => (buffer, pos)
  | mc :: rest, buffer, pos =>
    let r := mc_output c mc buffer pos
    mcs_output c rest r.1 r.2

/-- Source lines 461-484: the base object, with the pre-increment of
`dag->dtsn_out`. -/
def dio_output_base (dag : rpl_dag) (buffer : Buffer) : rpl_dag × Buffer × Nat :=
  let buffer := put buffer 0 dag.instance_id
  let buffer := put buffer 1 dag.version
  let buffer := put buffer 2 (dag.rank >>> 8)
  let buffer := put buffer 3 (dag.rank &&& 0xff)
  let buffer := put buffer 4 0
  let buffer :=
    if dag.grounded ≠ 0 then put buffer 4 (buffer 4 ||| RPL_DIO_GROUNDED) else buffer
  let buffer := put buffer 4 (dag.mop <<< RPL_DIO_MOP_SHIFT)
  let dag := { dag with dtsn_out := (dag.dtsn_out + 1) % 256 }
  let buffer := put buffer 5 dag.dtsn_out
  let buffer := put buffer 6 0
  let buffer := put buffer 7 0
  let buffer := memcpy_to buffer 8 dag.dag_id 16
  (dag, buffer, 24)

/-- Source lines 486-549: the metric-container suboption, present when the
metric list is not empty. -/
def dio_output_mc (c : rpl_private) (of : rpl_of) (node : rpl_node) (dag : rpl_dag)
    (buffer : Buffer) (pos : Nat) : rpl_dag × Buffer × Nat :=
  if dag.mcs.length ≠ 0 then
    let dag := of.update_metric_container dag
    let buffer := put buffer pos c.RPL_DIO_SUBOPT_DAG_METRIC_CONTAINER
    let buffer := put buffer (pos + 1) (6 * dag.mcs.length + 12 + 2)
    let pos := pos + 2
    let buffer := set32 buffer pos node.dio_delay
    let pos := pos + 4
    let buffer := set32 buffer pos node.next_dio_time
    let pos := pos + 4
    let buffer := set32 buffer pos node.next_dio_delay
    let pos := pos + 4
    let r := mcs_output c dag.mcs buffer pos
    (dag, r.1, r.2)
  else (dag, buffer, pos)

/-- Source lines 551-569: the DAG configuration suboption. -/
def dio_output_conf (c : rpl_private) (dag : rpl_dag) (buffer : Buffer) (pos : Nat) :
    Buffer × Nat :=
  let buffer := put buffer pos c.RPL_DIO_SUBOPT_DAG_CONF
  let buffer := put buffer (pos + 1) 14
  let buffer := put buffer (pos + 2) 0
  let buffer := put buffer (pos + 3) dag.dio_intdoubl
  let buffer := put buffer (pos + 4) dag.dio_intmin
  let buffer := put buffer (pos + 5) dag.dio_redundancy
  let buffer := put buffer (pos + 6) (dag.max_rankinc >>> 8)
  let buffer := put buffer (pos + 7) (dag.max_rankinc &&& 0xff)
  let buffer := put buffer (pos + 8) (dag.min_hoprankinc >>> 8)
  let buffer := put buffer (pos + 9) (dag.min_hoprankinc &&& 0xff)
  let buffer := put buffer (pos + 10) (dag.ocp >>> 8)
  let buffer := put buffer (pos + 11) (dag.ocp &&& 0xff)
  let buffer := put buffer (pos + 12) 0
  let buffer := put buffer (pos + 13) dag.default_lifetime
  let buffer := put buffer (pos + 14) (dag.lifetime_unit >>> 8)
  let buffer := put buffer (pos + 15) (dag.lifetime_unit &&& 0xff)
  (buffer, pos + 16)

/-- Source lines 571-591: the prefix information suboption, present when a
prefix is configured. -/
def dio_output_prefix_info (c : rpl_private) (dag : rpl_dag) (buffer : Buffer)
    (pos : Nat) : Buffer × Nat :=
  if dag.prefix_info.length > 0 then
    let buffer := put buffer pos c.RPL_DIO_SUBOPT_PREFIX_INFO
    let buffer := put buffer (pos + 1) 30
    let buffer := put buffer (pos + 2) dag.prefix_info.length
    let buffer := put buffer (pos + 3) dag.prefix_info.flags
    let buffer := set32 buffer (pos + 4) dag.prefix_info.lifetime
    let buffer := set32 buffer (pos + 8) dag.prefix_info.lifetime
    let buffer := memset0 buffer (pos + 12) 4
    let buffer := memcpy_to buffer (pos + 16) dag.prefix_info.prefix_addr 16
    (buffer, pos + 32)
  else (buffer, pos)

/-- Source lines 449-591: everything `dio_output` writes: the DAG after the
call, the payload memory, and the final write cursor `pos`. -/
def dio_output_body (c : rpl_private) (of : rpl_of) (node : rpl_node) (dag : rpl_dag)
    (buffer : Buffer) : rpl_dag × Buffer × Nat :=
  let b := dio_output_base dag buffer
  let m := dio_output_mc c of node b.1 b.2.1 b.2.2
  let k := dio_output_conf c m.1 m.2.1 m.2.2
  let p := dio_output_prefix_info c m.1 k.1 k.2
  (m.1, p.1, p.2)

/-- Source lines 449-609. `uc_addr` is `none` for the null pointer. The result
is the node (with the message appended to `sent`), the DAG after the call and
the payload memory. -/
def dio_output (c : rpl_private) (of : rpl_of) (node : rpl_node) (dag : rpl_dag)
    (uc_addr : Option uip_ipaddr_t) (buffer : Buffer) : rpl_node × rpl_dag × Buffer :=
  let r := dio_output_body c of node dag buffer
  let dest := match uc_addr with
    | none => c.linklocal_rplnodes_mcast
    | some a => a
  let msg : icmp6_msg :=
    { dest := dest, type := c.ICMP6_RPL, code := c.RPL_CODE_DIO_MSG, len := r.2.2,
      body := payload r.2.1 r.2.2 }
  ({ node with sent := node.sent ++ [msg] }, r.1, r.2.1)

/-! ## DAO input (source lines 611-758) and DAO-ACK output (863-880) -/

/-- The position of the first element that satisfies `p`. -/
def find_index {α : Type} (p : α → Bool) : List α → Option Nat
  | [] => none
  | a :: l => if p a then some 0 else (find_index p l).map (· + 1)

/-- Modelled from the spec: `get_graph(instance_id)` (`rpl_get_dag` is not part
of the source): the graph of this node that runs the given instance, as an
index into the DAG table, `none` for the null pointer. -/
def rpl_get_dag (node : rpl_node) (instance_id : Nat) : Option Nat :=
  find_index (fun d => d.instance_id = instance_id) node.dag_table

/-- Modelled from the spec: `lookup_route(prefix)` (`uip_ds6_route_lookup` is
not part of the source): the route table is keyed by destination prefix; the
result is an index into the table, `none` for the null pointer. -/
def uip_ds6_route_lookup (table : List uip_ds6_route) (addr : uip_ipaddr_t) : Option Nat :=
  find_index (fun r => r.ipaddr = addr) table

/-- Modelled from the spec: `find_parent(graph, address)` (`rpl_find_parent` is
not part of the source), as an index into the parents of the graph. -/
def rpl_find_parent (dag : rpl_dag) (addr : uip_ipaddr_t) : Option Nat :=
  find_index (fun p => p.addr = addr) dag.parents

/-- Modelled from the spec: `upsert_route(prefix, prefix_length, next_hop)`
(`rpl_add_route` is not part of the source): the entry for the prefix is
updated in place when there is one, allocated when the table has room, and
the call fails (`none`) when it has not. A new entry starts with the default
lifetime of the graph and no saved lifetime. -/
def rpl_add_route (c : rpl_private) (table : List uip_ds6_route) (dag : rpl_dag)
    (addr : uip_ipaddr_t) (prefix_len : Nat) (next_hop : uip_ipaddr_t) :
    Option (List uip_ds6_route × Nat) :=
  match uip_ds6_route_lookup table addr with
  | some k =>
    match table.get? k with
    | some r => some (table.set k { r with nexthop := next_hop }, k)
    | none => none
  | none =>
    if table.length < c.UIP_DS6_ROUTE_NB then
      let r : uip_ds6_route :=
        { ipaddr := addr, length := prefix_len, nexthop := next_hop,
          lifetime := c.RPL_LIFETIME dag dag.default_lifetime,
          saved_lifetime := 0, learned_from := c.RPL_ROUTE_FROM_INTERNAL }
      some (table ++ [r], table.length)
    else none

/-- The locals of `dao_input` that the parse of lines 649-699 sets: the decoded
DAO. `prefix_addr` is the local `prefix`. -/
structure dao_msg where
  instance_id : Nat
  flags : Nat
  sequence : Nat
  prefixlen : Nat
  prefix_addr : uip_ipaddr_t
  lifetime : Nat
deriving DecidableEq, Repr

/-- Source lines 675-699: the `for` loop over the suboptions of a DAO. The
`memcpy` of line 689 copies `(prefixlen + 7) / 8` bytes into the 16-byte local
`prefix`: more than 16 is a write past its end. -/
def dao_subopts (c : rpl_private) (buffer : Buffer) (buffer_length : Nat) :
    Nat → Nat → dao_msg → Except Fault dao_msg
  | 0, _, _ => .error .out_of_fuel
  | fuel + 1, i, d =>
    if i < buffer_length then
      let subopt_type := buffer i
      let len := subopt_len c buffer i
      if subopt_type = c.RPL_DIO_SUBOPT_TARGET then
        let prefixlen := buffer (i + 3)
        if (prefixlen + 7) / 8 > 16 then .error .stack_overflow
        else
          dao_subopts c buffer buffer_length fuel (i + len)
            { d with
                prefixlen := prefixlen
                prefix_addr := memcpy_from (List.replicate 16 0) buffer (i + 4)
                  ((prefixlen + 7) / 8) }
      else if subopt_type = c.RPL_DIO_SUBOPT_TRANSIT then
        dao_subopts c buffer buffer_length fuel (i + len) { d with lifetime := buffer (i + 5) }
      else dao_subopts c buffer buffer_length fuel (i + len) d
    else .ok d

/-- Source lines 634-699: the parse of a DAO. The result is `none` when no DAG
runs the instance (the `return` of line 656), else the index of the DAG and the
decoded DAO. `stack` is what the uninitialised local `prefix` holds on entry. -/
def dao_parse (c : rpl_private) (node : rpl_node) (buffer : Buffer) (body_len : Nat)
    (stack : uip_ipaddr_t) : Except Fault (Option (Nat × dao_msg)) :=
  let buffer_length := body_len % 256
  let instance_id := buffer 0
  match rpl_get_dag node instance_id with
  | none => .ok none
  | some k =>
    match node.dag_table.get? k with
    | none => .ok none
    | some dag =>
      let flags := buffer 1
      let sequence := buffer 3
      let pos := if flags &&& c.RPL_DAO_D_FLAG ≠ 0 then 4 + 16 else 4
      let d : dao_msg :=
        { instance_id := instance_id, flags := flags, sequence := sequence,
          prefixlen := 0, prefix_addr := stack, lifetime := dag.default_lifetime }
      match dao_subopts c buffer buffer_length (buffer_length + 1) pos d with
      | .error e => .error e
      | .ok d => .ok (some (k, d))

/-- Source lines 863-880. -/
def dao_ack_output (c : rpl_private) (node : rpl_node) (dag : rpl_dag)
    (dest : uip_ipaddr_t) (sequence : Nat) (buffer : Buffer) : rpl_node × Buffer :=
  let buffer := put buffer 0 dag.instance_id
  let buffer := put buffer 1 0
  let buffer := put buffer 2 sequence
  let buffer := put buffer 3 0
  let msg : icmp6_msg :=
    { dest := dest, type := c.ICMP6_RPL, code := c.RPL_CODE_DAO_ACK, len := 4,
      body := payload buffer 4 }
  ({ node with sent := node.sent ++ [msg] }, buffer)

/-- Source lines 706-757: what `dao_input` does with the decoded DAO `d` of the
DAG at index `k` of the DAG table. -/
def dao_route (c : rpl_private) (node : rpl_node) (dao_sender_addr : uip_ipaddr_t)
    (buffer : Buffer) (buffer_length : Nat) (k : Nat) (dag : rpl_dag) (d : dao_msg) :
    Except Fault (rpl_node × Buffer) :=
  let rep := uip_ds6_route_lookup node.routing_table d.prefix_addr
  if d.lifetime = c.ZERO_LIFETIME then
    match rep with
    | none => .ok (node, buffer)
    | some r =>
      match node.routing_table.get? r with
      | none => .ok (node, buffer)
      | some e =>
        if e.saved_lifetime = 0 then
          let e : uip_ds6_route :=
            { e with saved_lifetime := e.lifetime, lifetime := c.DAO_EXPIRATION_TIMEOUT }
          .ok ({ node with routing_table := node.routing_table.set r e }, buffer)
        else .ok (node, buffer)
  else
    let learned_from :=
      if c.uip_is_addr_mcast dao_sender_addr then c.RPL_ROUTE_FROM_MULTICAST_DAO
      else c.RPL_ROUTE_FROM_UNICAST_DAO
    let loop : Option (Nat × rpl_parent) :=
      if learned_from = c.RPL_ROUTE_FROM_UNICAST_DAO then
        match rpl_find_parent dag dao_sender_addr with
        | none => none
        | some p =>
          match dag.parents.get? p with
          | none => none
          | some par =>
            if c.DAG_RANK par.rank dag < c.DAG_RANK dag.rank dag then some (p, par) else none
      else none
    match loop with
    | some (p, par) =>
      let par : rpl_parent := { par with rank := c.INFINITE_RANK, updated := 1 }
      let dag : rpl_dag := { dag with parents := dag.parents.set p par }
      .ok ({ node with dag_table := node.dag_table.set k dag }, buffer)
    | none =>
      let added : Option (List uip_ds6_route × Nat) :=
        match rep with
        | some r => some (node.routing_table, r)
        | none => rpl_add_route c node.routing_table dag d.prefix_addr d.prefixlen
                    dao_sender_addr
      match added with
      | none =>
        .ok ({ node with rpl_stats :=
                { node.rpl_stats with mem_overflows := node.rpl_stats.mem_overflows + 1 } },
             buffer)
      | some (table, r) =>
        match table.get? r with
        | none => .error .null_dereference
        | some e =>
          let e : uip_ds6_route :=
            { e with lifetime := c.RPL_LIFETIME dag d.lifetime, learned_from := learned_from }
          let node : rpl_node := { node with routing_table := table.set r e }
          if learned_from = c.RPL_ROUTE_FROM_UNICAST_DAO then
            match dag.preferred_parent with
            | some pp =>
              match dag.parents.get? pp with
              | none => .error .null_dereference
              | some par =>
                let msg : icmp6_msg :=
                  { dest := par.addr, type := c.ICMP6_RPL, code := c.RPL_CODE_DAO,
                    len := buffer_length, body := payload buffer buffer_length }
                .ok ({ node with sent := node.sent ++ [msg] }, buffer)
            | none =>
              if d.flags &&& c.RPL_DAO_K_FLAG ≠ 0 then
                .ok (dao_ack_output c node dag dao_sender_addr (d.sequence % 256) buffer)
              else .ok (node, buffer)
          else .ok (node, buffer)

/-- Source lines 611-758. `body_len` is `uip_len - uip_l2_l3_icmp_hdr_len`
before it is stored into the `uint8_t buffer_length`; `srcipaddr` is
`UIP_IP_BUF->srcipaddr`; `stack` is the initial content of the local `prefix`. -/
def dao_input (c : rpl_private) (node : rpl_node) (srcipaddr : uip_ipaddr_t)
    (buffer : Buffer) (body_len : Nat) (stack : uip_ipaddr_t) :
    Except Fault (rpl_node × Buffer) :=
  match dao_parse c node buffer body_len stack with
  | .error e => .error e
  | .ok none => .ok (node, buffer)
  | .ok (some (k, d)) =>
    match node.dag_table.get? k with
    | none => .ok (node, buffer)
    | some dag => dao_route c node srcipaddr buffer (body_len % 256) k dag d

/-! ## A concrete set of header values

The numbers of RFC 6550 and of the Contiki headers, used where a statement is
evaluated on a concrete input. -/

/-- The header constants and macros with the values of the Contiki RPL headers. -/
def contiki : rpl_private where
  RPL_DIO_SUBOPT_PAD1 := 0
  RPL_DIO_SUBOPT_DAG_METRIC_CONTAINER := 2
  RPL_DIO_SUBOPT_ROUTE_INFO := 3
  RPL_DIO_SUBOPT_DAG_CONF := 4
  RPL_DIO_SUBOPT_TARGET := 5
  RPL_DIO_SUBOPT_TRANSIT := 6
  RPL_DIO_SUBOPT_PREFIX_INFO := 8
  RPL_DAG_MC_ENERGY := 2
  RPL_DAG_MC_THROUGHPUT := 4
  RPL_DAG_MC_ETX := 7
  RPL_DAG_MC_LQL := 6
  RPL_DAG_MC_HOPCOUNT := 3
  RPL_DAG_MC_LATENCY := 5
  DEFAULT_DIO_INTERVAL_DOUBLINGS := 8
  DEFAULT_DIO_INTERVAL_MIN := 12
  DEFAULT_DIO_REDUNDANCY := 10
  RPL_DAO_K_FLAG := 0x80
  RPL_DAO_D_FLAG := 0x40
  ZERO_LIFETIME := 0
  DAO_EXPIRATION_TIMEOUT := 60
  INFINITE_RANK := 0xffff
  RPL_ROUTE_FROM_UNICAST_DAO := 1
  RPL_ROUTE_FROM_MULTICAST_DAO := 2
  RPL_ROUTE_FROM_INTERNAL := 0
  ICMP6_RPL := 155
  RPL_CODE_DIS := 0
  RPL_CODE_DIO_MSG := 1
  RPL_CODE_DAO := 2
  RPL_CODE_DAO_ACK := 3
  UIP_DS6_ROUTE_NB := 4
  linklocal_rplnodes_mcast := [0xff, 0x02, 0, 0, 0, 0, 0, 0, 0, 0, 0, 0, 0, 0, 0, 0x1a]
  uip_is_addr_mcast := fun a => a.head? == some 0xff
  DAG_RANK := fun rank dag => rank / dag.min_hoprankinc
  RPL_LIFETIME := fun dag lifetime => dag.lifetime_unit * lifetime

/-- The objective function that leaves the metric values as they are. -/
def of_keep : rpl_of where
  update_metric_container := fun dag => dag

/-- A node with no DAG, no route, an idle pool of six blocks and nothing sent. -/
def node0 : rpl_node where
  dag_table := []
  routing_table := []
  mc_memb := { num := 6, used := 0 }
  rpl_stats := { malformed_msgs := 0, mem_overflows := 0 }
  dao_sequence := 0
  dio_delay := 0
  next_dio_time := 0
  next_dio_delay := 0
  sent := []
  processed_dio := []

/-- An all-zero prefix record. -/
def prefix0 : rpl_prefix_t where
  prefix_addr := List.replicate 16 0
  lifetime := 0
  length := 0
  flags := 0

/-- An all-zero local `dio`. -/
def dio0 : rpl_dio where
  reception_time := 0
  instance_id := 0
  version := 0
  rank := 0
  grounded := 0
  mop := 0
  preference := 0
  dtsn := 0
  dag_id := List.replicate 16 0
  dag_intdoubl := 0
  dag_intmin := 0
  dag_redund := 0
  dag_max_rankinc := 0
  dag_min_hoprankinc := 0
  ocp := 0
  default_lifetime := 0
  lifetime_unit := 0
  destination_prefix := prefix0
  prefix_info := prefix0
  dio_delay := 0
  next_dio_time := 0
  next_dio_delay := 0
  mcs := []

/-- A DAG with the default timer configuration, no prefix, no metric and no
parent. -/
def dag0 : rpl_dag where
  instance_id := 30
  version := 1
  rank := 512
  grounded := 0
  mop := 2
  preference := 0
  dtsn_out := 7
  dag_id := [0xaa, 0xaa, 0, 0, 0, 0, 0, 0, 0, 0, 0, 0, 0, 0, 0, 1]
  dio_intdoubl := 8
  dio_intmin := 12
  dio_redundancy := 10
  max_rankinc := 768
  min_hoprankinc := 256
  ocp := 1
  default_lifetime := 255
  lifetime_unit := 65535
  prefix_info := prefix0
  mcs := []
  parents := []
  preferred_parent := none

/-- The memory that holds the given bytes from index 0 on, and 0 after them. -/
def of_bytes (bytes : List Nat) : Buffer :=
  fun i => bytes.getD i 0

/-- The all-zero payload memory. -/
def zeros : Buffer :=
  fun _ => 0

/-! ## Predicates and auxiliary functions used in the statements -/

/-- The number of bytes `mc_output` writes for one entry. -/
def mc_size (c : rpl_private) (mc : rpl_metric_container) : Nat :=
  if mc.type = c.RPL_DAG_MC_ENERGY then 6
  else if mc.type = c.RPL_DAG_MC_THROUGHPUT then 6
  else if mc.type = c.RPL_DAG_MC_ETX then 6
  else if mc.type = c.RPL_DAG_MC_LQL then 6
  else if mc.type = c.RPL_DAG_MC_HOPCOUNT then 6
  else if mc.type = c.RPL_DAG_MC_LATENCY then 8
  else 4

/-- The number of bytes `mcs_output` writes for a list of entries. -/
def mcs_size (c : rpl_private) : List rpl_metric_container → Nat
  | [] => 0
  | mc :: rest => mc_size c mc + mcs_size c rest

/-- The receiver's payload memory `rx` holds the `len` bytes sent from `tx`. -/
def delivered (tx : Buffer) (len : Nat) (rx : Buffer) : Prop :=
  ∀ i, i < len → rx i = tx i

/-- The base fields of a decoded DIO equal those of the DAG that was encoded
(`grounded` as a truth value). -/
def base_fields_agree (dio : rpl_dio) (dag : rpl_dag) : Prop :=
  dio.instance_id = dag.instance_id ∧ dio.version = dag.version ∧ dio.rank = dag.rank ∧
  (dio.grounded ≠ 0 ↔ dag.grounded ≠ 0) ∧ dio.mop = dag.mop ∧
  dio.preference = dag.preference ∧ dio.dtsn = dag.dtsn_out ∧ dio.dag_id = dag.dag_id

instance (dio : rpl_dio) (dag : rpl_dag) : Decidable (base_fields_agree dio dag) := by
  unfold base_fields_agree
  infer_instance

/-- The DAG `dag0` with a preference of 3. -/
def dag_pref3 : rpl_dag := { dag0 with preference := 3 }

/-- The entry type is one of the six that the `switch` statements handle. -/
def mc_supported (c : rpl_private) (mc : rpl_metric_container) : Prop :=
  mc.type = c.RPL_DAG_MC_ENERGY ∨ mc.type = c.RPL_DAG_MC_THROUGHPUT ∨
  mc.type = c.RPL_DAG_MC_ETX ∨ mc.type = c.RPL_DAG_MC_LQL ∨
  mc.type = c.RPL_DAG_MC_HOPCOUNT ∨ mc.type = c.RPL_DAG_MC_LATENCY

instance (c : rpl_private) (mc : rpl_metric_container) : Decidable (mc_supported c mc) := by
  unfold mc_supported
  infer_instance

/-- The entry fits its C types: the type is a byte, the value has the width
that `mc_output` writes for the type (32 bits when 8 bytes are written, 16 bits
otherwise). -/
def mc_in_range (c : rpl_private) (mc : rpl_metric_container) : Prop :=
  mc.type < 256 ∧ (if mc_size c mc = 8 then mc.obj < 4294967296 else mc.obj < 65536)

instance (c : rpl_private) (mc : rpl_metric_container) : Decidable (mc_in_range c mc) := by
  unfold mc_in_range
  infer_instance

/-- The third byte of an encoded entry (source lines 510-511). -/
def mc_packed (mc : rpl_metric_container) : Nat :=
  ((((mc.flags &&& 1) <<< 7) % 256) ||| ((mc.aggr <<< 4) ||| mc.prec)) % 256

/-- The entry that `dio_input` builds from the bytes `mc_output` writes for `mc`. -/
def mc_wire (mc : rpl_metric_container) : rpl_metric_container :=
  { type := mc.type
    flags := ((((mc.flags >>> 1) % 256) <<< 1) % 256) ||| (mc_packed mc >>> 7)
    aggr := (mc_packed mc >>> 4) &&& 0x3
    prec := mc_packed mc &&& 0xf
    length := mc.length % 256
    obj := mc.obj }

/-- The four header bytes of an entry, as `mc_output` writes them at `p`. -/
def mc_head (e : rpl_metric_container) (b : Buffer) (p : Nat) : Buffer :=
  let b := put b p e.type
  let b := put b (p + 1) (e.flags >>> 1)
  let b := put b (p + 2) ((e.flags &&& 1) <<< 7)
  let b := put b (p + 2) (b (p + 2) ||| ((e.aggr <<< 4) ||| e.prec))
  put b (p + 3) e.length

/-- The pool after `n` more blocks are handed out. -/
def memb_take (m : memb) (n : Nat) : memb :=
  { m with used := m.used + n }

/-- The `case` labels of the suboption `switch` of `dio_input` are distinct, as
the C compiler requires. -/
def labels_distinct (c : rpl_private) : Prop :=
  c.RPL_DIO_SUBOPT_DAG_METRIC_CONTAINER ≠ c.RPL_DIO_SUBOPT_ROUTE_INFO ∧
  c.RPL_DIO_SUBOPT_DAG_METRIC_CONTAINER ≠ c.RPL_DIO_SUBOPT_DAG_CONF ∧
  c.RPL_DIO_SUBOPT_DAG_METRIC_CONTAINER ≠ c.RPL_DIO_SUBOPT_PREFIX_INFO ∧
  c.RPL_DIO_SUBOPT_ROUTE_INFO ≠ c.RPL_DIO_SUBOPT_DAG_CONF ∧
  c.RPL_DIO_SUBOPT_ROUTE_INFO ≠ c.RPL_DIO_SUBOPT_PREFIX_INFO ∧
  c.RPL_DIO_SUBOPT_DAG_CONF ≠ c.RPL_DIO_SUBOPT_PREFIX_INFO

instance (c : rpl_private) : Decidable (labels_distinct c) := by
  unfold labels_distinct
  infer_instance

/-- The suboption types that `dio_output` writes are bytes and differ from the
one-byte pad type. -/
def emitted_types_ok (c : rpl_private) : Prop :=
  c.RPL_DIO_SUBOPT_DAG_METRIC_CONTAINER < 256 ∧ c.RPL_DIO_SUBOPT_DAG_CONF < 256 ∧
  c.RPL_DIO_SUBOPT_PREFIX_INFO < 256 ∧
  c.RPL_DIO_SUBOPT_DAG_METRIC_CONTAINER ≠ c.RPL_DIO_SUBOPT_PAD1 ∧
  c.RPL_DIO_SUBOPT_DAG_CONF ≠ c.RPL_DIO_SUBOPT_PAD1 ∧
  c.RPL_DIO_SUBOPT_PREFIX_INFO ≠ c.RPL_DIO_SUBOPT_PAD1

instance (c : rpl_private) : Decidable (emitted_types_ok c) := by
  unfold emitted_types_ok
  infer_instance

/-- The DAG configuration suboption, as `dio_input` reads it at `i`. -/
def dio_conf_read (b : Buffer) (i : Nat) (dio : rpl_dio) : rpl_dio :=
  { dio with
      dag_intdoubl := b (i + 3)
      dag_intmin := b (i + 4)
      dag_redund := b (i + 5)
      dag_max_rankinc := (b (i + 6) <<< 8 ||| b (i + 7)) % 2 ^ 16
      dag_min_hoprankinc := (b (i + 8) <<< 8 ||| b (i + 9)) % 2 ^ 16
      ocp := (b (i + 10) <<< 8 ||| b (i + 11)) % 2 ^ 16
      default_lifetime := b (i + 13)
      lifetime_unit := (b (i + 14) <<< 8 ||| b (i + 15)) % 2 ^ 16 }

/-- The prefix information suboption, as `dio_input` reads it at `i`. -/
def dio_prefix_info_read (b : Buffer) (i : Nat) (dio : rpl_dio) : rpl_dio :=
  { dio with prefix_info :=
      { length := b (i + 2)
        flags := b (i + 3)
        lifetime := get32 b (i + 8)
        prefix_addr := memcpy_from dio.prefix_info.prefix_addr b (i + 16) 16 } }

/-- The `case` label of the 32-bit metric differs from the labels of the
16-bit metrics of the same `switch`. -/
def latency_distinct (c : rpl_private) : Prop :=
  c.RPL_DAG_MC_LATENCY ≠ c.RPL_DAG_MC_ENERGY ∧ c.RPL_DAG_MC_LATENCY ≠ c.RPL_DAG_MC_THROUGHPUT ∧
  c.RPL_DAG_MC_LATENCY ≠ c.RPL_DAG_MC_ETX ∧ c.RPL_DAG_MC_LATENCY ≠ c.RPL_DAG_MC_LQL ∧
  c.RPL_DAG_MC_LATENCY ≠ c.RPL_DAG_MC_HOPCOUNT

instance (c : rpl_private) : Decidable (latency_distinct c) := by
  unfold latency_distinct
  infer_instance

/-- The number of Latency entries of a metric list. -/
def latency_count (c : rpl_private) (l : List rpl_metric_container) : Nat :=
  l.countP (fun e => e.type = c.RPL_DAG_MC_LATENCY)

/-- An entry of the given type and value, all other fields zero. -/
def mc_entry (type obj : Nat) : rpl_metric_container :=
  { type := type, flags := 0, aggr := 0, prec := 0, length := 0, obj := obj }

/-- The DAG `dag0` with three Latency entries (type 5) followed by one ETX
entry (type 7). -/
def dag_three_latencies : rpl_dag :=
  { dag0 with mcs := [mc_entry 5 70000, mc_entry 5 1, mc_entry 5 2, mc_entry 7 0] }

/-- The DAG `dag0` with two Latency entries; the low bytes of the second value
are 8 and 3. -/
def dag_two_latencies : rpl_dag :=
  { dag0 with mcs := [mc_entry 5 1, mc_entry 5 2051] }

/-- The DAG `dag0` with a single ETX entry. -/
def dag_one_etx : rpl_dag :=
  { dag0 with mcs := [mc_entry 7 300] }

/-- The DAG `dag0` with an ETX, a Latency and an Energy entry. -/
def dag_one_latency : rpl_dag :=
  { dag0 with mcs := [mc_entry 7 300, mc_entry 5 70000, mc_entry 2 5] }

/-- The sender address used in the concrete runs. -/
def sender_addr : uip_ipaddr_t :=
  [0xfe, 0x80, 0, 0, 0, 0, 0, 0, 0, 0, 0, 0, 0, 0, 0, 2]

/-- The type and value of each entry of each DIO handed to `rpl_process_dio`,
`none` for a fault. -/
def handed_metrics (r : Except Fault rpl_node) : Option (List (List (Nat × Nat))) :=
  match r with
  | .ok node => some (node.processed_dio.map (fun p => p.2.mcs.map (fun e => (e.type, e.obj))))
  | .error _ => none

/-- The body that `dio_output` writes for `dag` into zeroed memory, decoded by
`dio_input` on an idle node. -/
def dio_loopback (c : rpl_private) (dag : rpl_dag) : Except Fault rpl_node :=
  dio_input c node0 sender_addr (dio_output_body c of_keep node0 dag zeros).2.1
    (dio_output_body c of_keep node0 dag zeros).2.2 dio0 0

/-- A target prefix used in the concrete runs: `2001:db8::1`. -/
def target_addr : uip_ipaddr_t :=
  [0x20, 0x01, 0x0d, 0xb8, 0, 0, 0, 0, 0, 0, 0, 0, 0, 0, 0, 1]

/-- The body of a DAO for instance 30 with sequence number 9, the given flags
byte, the target `2001:db8::1/128` and the given transit lifetime. -/
def dao_bytes (flags lifetime : Nat) : List Nat :=
  [30, flags, 0, 9, 5, 18, 0, 128] ++ target_addr ++ [6, 4, 0, 0, 0, lifetime]

/-- A route to `2001:db8::1/128` with lifetime 1000 that is not about to
expire. -/
def route0 : uip_ds6_route where
  ipaddr := target_addr
  length := 128
  nexthop := sender_addr
  lifetime := 1000
  saved_lifetime := 0
  learned_from := 1

/-- A node that runs the DAG `dag0` and has no route. -/
def node_dag0 : rpl_node :=
  { node0 with dag_table := [dag0] }

/-- A node that runs the DAG `dag0` and holds the route `route0`. -/
def node_route0 : rpl_node :=
  { node0 with dag_table := [dag0], routing_table := [route0] }

/-- A node whose DAG has rank 512 and knows the sender as a parent of rank 256. -/
def node_parent : rpl_node :=
  { node0 with
      dag_table := [{ dag0 with parents := [{ addr := sender_addr, rank := 256, updated := 0 }] }] }

/-- The DAO that `dao_bytes flags lifetime` decodes to. -/
def dao_decoded (flags lifetime : Nat) : dao_msg where
  instance_id := 30
  flags := flags
  sequence := 9
  prefixlen := 128
  prefix_addr := target_addr
  lifetime := lifetime

/-- The suboption scan of `dio_input`, at cursor `i` with locals `dio` and node
state `node`, gets to cursor `j` with `dio1` and `node1` by processing whole
suboptions, none of which leaves the loop. -/
inductive dio_reaches (c : rpl_private) (buffer : Buffer) (buffer_length : Nat) :
    Nat → rpl_dio → rpl_node → Nat → rpl_dio → rpl_node → Prop where
  | here (i : Nat) (dio : rpl_dio) (node : rpl_node) :
      dio_reaches c buffer buffer_length i dio node i dio node
  | next (i : Nat) (dio : rpl_dio) (node : rpl_node) (dio1 : rpl_dio) (node1 : rpl_node)
      (j : Nat) (dio2 : rpl_dio) (node2 : rpl_node) :
      i < buffer_length →
      dio_subopt c buffer i (subopt_len c buffer i) dio node = .ok (.finished, dio1, node1) →
      dio_reaches c buffer buffer_length (i + subopt_len c buffer i) dio1 node1 j dio2 node2 →
      dio_reaches c buffer buffer_length i dio node j dio2 node2

/-- The suboption at `i` breaks a length rule of `dio_input`: a route
information suboption of total length below 9 or with a prefix length above
128, a DAG configuration suboption of total length other than 16, a prefix
information suboption of total length other than 32. -/
def dio_subopt_malformed (c : rpl_private) (buffer : Buffer) (i : Nat) : Prop :=
  (buffer i = c.RPL_DIO_SUBOPT_ROUTE_INFO ∧
    (subopt_len c buffer i < 9 ∨ 128 < buffer (i + 2))) ∨
  (buffer i = c.RPL_DIO_SUBOPT_DAG_CONF ∧ subopt_len c buffer i ≠ 16) ∨
  (buffer i = c.RPL_DIO_SUBOPT_PREFIX_INFO ∧ subopt_len c buffer i ≠ 32)

instance (c : rpl_private) (buffer : Buffer) (i : Nat) :
    Decidable (dio_subopt_malformed c buffer i) := by
  unfold dio_subopt_malformed
  infer_instance

/-- The node after `RPL_STAT(rpl_stats.malformed_msgs++)`. -/
def malformed_bump (node : rpl_node) : rpl_node :=
  { node with rpl_stats :=
      { node.rpl_stats with malformed_msgs := node.rpl_stats.malformed_msgs + 1 } }

/-- The number of calls of `rpl_process_dio` recorded in a result, `none` for a
fault. -/
def handed_count (r : Except Fault rpl_node) : Option Nat :=
  match r with
  | .ok node => some node.processed_dio.length
  | .error _ => none

/-- The fault of a result, `none` when there is none. -/
def fault_of {α : Type} (r : Except Fault α) : Option Fault :=
  match r with
  | .ok _ => none
  | .error e => some e

/-- A DIO body whose only suboption is a route information suboption with a
length byte of 3, that is a total length of 5. -/
def dio_short_route_info : List Nat :=
  [30, 1, 2, 0, 16, 8, 0, 0] ++ dag0.dag_id ++ [3, 3, 64, 0, 0]

/-- The DAG `dag0` with six ETX entries and one Latency entry. -/
def dag_seven_entries : rpl_dag :=
  { dag0 with mcs := [mc_entry 7 1, mc_entry 7 2, mc_entry 7 3, mc_entry 7 4, mc_entry 7 5,
      mc_entry 7 6, mc_entry 5 7] }

/-- A base object followed by one byte: the type of a DAG configuration
suboption, whose length byte and payload lie past the 25 bytes of the body. The
memory after the body holds `tail`. -/
def dio_cut_short (tail : List Nat) : Buffer :=
  of_bytes ([30, 1, 2, 0, 16, 8, 0, 0] ++ dag0.dag_id ++ [4] ++ tail)

/-- A DAO header followed by one byte: the type of a transit suboption, whose
lifetime byte lies past the 5 bytes of the body. The memory after the body
holds `tail`. -/
def dao_cut_short (tail : List Nat) : Buffer :=
  of_bytes ([30, 0, 0, 9, 6] ++ tail)

/-! ## DAO output (source lines 89-107 and 760-836), DIS, DAO-ACK input and the dispatcher -/

/-- One slot of the address list of the interface (`uip_ds6_if.addr_list[i]`). -/
structure uip_ds6_addr where
  isused : Nat
  state : Nat
  ipaddr : uip_ipaddr_t
deriving DecidableEq, Repr

/-- The constants and macros of `uip-ds6.h` and `uip.h` that `get_global_addr`
uses and that are not part of the source file. -/
structure uip_ds6_private where
  ADDR_TENTATIVE : Nat
  ADDR_PREFERRED : Nat
  uip_is_addr_link_local : uip_ipaddr_t → Bool

/-- Source lines 90-107: the first address in use, tentative or preferred, that
is not link-local; `none` for the return value 0. -/
def get_global_addr (u : uip_ds6_private) : List uip_ds6_addr → Option uip_ipaddr_t
  | [] => none
  | a :: rest =>
    if a.isused ≠ 0 ∧ (a.state = u.ADDR_TENTATIVE ∨ a.state = u.ADDR_PREFERRED) then
      if ¬ u.uip_is_addr_link_local a.ipaddr then some a.ipaddr
      else get_global_addr u rest
    else get_global_addr u rest

/-- Modelled from the spec: `get_graph(ANY)` (`rpl_get_dag(RPL_ANY_INSTANCE)`,
not part of the source): the first graph of the node, as an index into the DAG
table, `none` for the null pointer. -/
def rpl_get_dag_any (node : rpl_node) : Option Nat :=
  match node.dag_table with
  | [] => none
  | _ :: _ => some 0

/-- Source lines 776-784 and 817-821: the DAG a DAO is sent for and the
destination of the DAO. The parent `n` is `none` for the null pointer, else the
index of its DAG (`n->dag`) and its index among the parents of that DAG. The
result is `none` when the node has joined no DAG (a parent reference that names
no DAG or no parent is treated alike). -/
def dao_output_target (c : rpl_private) (node : rpl_node) (n : Option (Nat × Nat)) :
    Option (rpl_dag × uip_ipaddr_t) :=
  match n with
  | none =>
    match rpl_get_dag_any node with
    | none => none
    | some k =>
      match node.dag_table.get? k with
      | none => none
      | some dag => some (dag, c.linklocal_rplnodes_mcast)
  | some (k, p) =>
    match node.dag_table.get? k with
    | none => none
    | some dag =>
      match dag.parents.get? p with
      | none => none
      | some par => some (dag, par.addr)

/-- Source lines 786-815: the bytes of a DAO for `dag` with sequence number
`sequence`, target `addr` and the given lifetime, and the final write cursor. -/
def dao_output_body (c : rpl_private) (dao_ack : Bool) (dag : rpl_dag) (sequence : Nat)
    (addr : uip_ipaddr_t) (lifetime : Nat) (buffer : Buffer) : Buffer × Nat :=
  let buffer := put buffer 0 dag.instance_id
  let buffer := put buffer 1 (if dao_ack then c.RPL_DAO_K_FLAG else 0)
  let buffer := put buffer 2 0
  let buffer := put buffer 3 (sequence &&& 0xff)
  let prefixlen := (16 * 8) % 256
  let buffer := put buffer 4 c.RPL_DIO_SUBOPT_TARGET
  let buffer := put buffer 5 (2 + (prefixlen + 7) / 8)
  let buffer := put buffer 6 0
  let buffer := put buffer 7 prefixlen
  let buffer := memcpy_to buffer 8 addr ((prefixlen + 7) / 8)
  let pos := 8 + (prefixlen + 7) / 8
  let buffer := put buffer pos c.RPL_DIO_SUBOPT_TRANSIT
  let buffer := put buffer (pos + 1) 4
  let buffer := put buffer (pos + 2) 0
  let buffer := put buffer (pos + 3) 0
  let buffer := put buffer (pos + 4) 0
  let buffer := put buffer (pos + 5) lifetime
  (buffer, pos + 6)

/-- Source lines 760-836. `dao_ack` is the compile-time switch
`RPL_CONF_DAO_ACK`; `addr_list` is the address list of the interface. The
result is the node and the payload memory after the call. -/
def dao_output (c : rpl_private) (u : uip_ds6_private) (dao_ack : Bool)
    (addr_list : List uip_ds6_addr) (node : rpl_node) (n : Option (Nat × Nat))
    (lifetime : Nat) (buffer : Buffer) : rpl_node × Buffer :=
  match get_global_addr u addr_list with
  | none => (node, buffer)
  | some addr =>
    match dao_output_target c node n with
    | none => (node, buffer)
    | some (dag, dest) =>
      let node : rpl_node := { node with dao_sequence := (node.dao_sequence + 1) % 256 }
      let r := dao_output_body c dao_ack dag node.dao_sequence addr lifetime buffer
      let msg : icmp6_msg :=
        { dest := dest, type := c.ICMP6_RPL, code := c.RPL_CODE_DAO, len := r.2,
          body := payload r.1 r.2 }
      ({ node with sent := node.sent ++ [msg] }, r.1)

/-- What the dispatcher works on: the node, the payload memory, the global
`uip_len`, and the calls of `rpl_reset_dio_timer(dag, 0)` made so far (by index
of the DAG). -/
structure uip_state where
  node : rpl_node
  buffer : Buffer
  uip_len : Nat
  dio_timer_resets : List Nat

/-- What a received packet and the environment supply to the handlers: the code
of the ICMP header, source and destination address, the length of the headers
in front of the payload, the clock, and the initial content of the
uninitialised locals `dio` and `prefix`. -/
structure uip_packet where
  icode : Nat
  srcipaddr : uip_ipaddr_t
  destipaddr : uip_ipaddr_t
  uip_l2_l3_icmp_hdr_len : Nat
  clock_time : Nat
  stack_dio : rpl_dio
  stack_addr : uip_ipaddr_t

/-- Source lines 164-191. -/
def dis_output (c : rpl_private) (node : rpl_node) (addr : Option uip_ipaddr_t)
    (buffer : Buffer) : rpl_node × Buffer :=
  let buffer := put buffer 1 0
  let buffer := put buffer 0 0
  let dest := match addr with
    | none => c.linklocal_rplnodes_mcast
    | some a => a
  let msg : icmp6_msg :=
    { dest := dest, type := c.ICMP6_RPL, code := c.RPL_CODE_DIS, len := 2,
      body := payload buffer 2 }
  ({ node with sent := node.sent ++ [msg] }, buffer)

/-- Source lines 139-162. A multicast DIS resets the DIO timer of the DAG, a
unicast DIS is answered with a unicast DIO. -/
def dis_input (c : rpl_private) (of : rpl_of) (pkt : uip_packet) (st : uip_state) :
    uip_state :=
  match rpl_get_dag_any st.node with
  | none => st
  | some k =>
    match st.node.dag_table.get? k with
    | none => st
    | some dag =>
      if c.uip_is_addr_mcast pkt.destipaddr then
        { st with dio_timer_resets := st.dio_timer_resets ++ [k] }
      else
        let r := dio_output c of st.node dag (some pkt.srcipaddr) st.buffer
        let node : rpl_node := { r.1 with dag_table := r.1.dag_table.set k r.2.1 }
        { st with node := node, buffer := r.2.2 }

/-- Source lines 838-861: the bytes are read into locals and printed; no state
is written. -/
def dao_ack_input (st : uip_state) : uip_state :=
  st

/-- Source lines 247, 644 and 848: what the assignment
`buffer_length = uip_len - uip_l2_l3_icmp_hdr_len` leaves in the `uint8_t
buffer_length` of a handler. The difference is taken in `int`, so it is
negative when `uip_len` is below the header length, and the store keeps it
modulo 256. `RPL_CONF_ADJUST_LLH_LEN` is taken as not set. -/
def buffer_length (uip_len hdr_len : Nat) : Nat :=
  (((uip_len : Int) - (hdr_len : Int)) % 256).toNat

/-- Source lines 882-904. Each handler computes its body length from the
globals `uip_len` and `uip_l2_l3_icmp_hdr_len` (`buffer_length`). A fault inside
a handler ends the run; otherwise `uip_len` is set to 0 after the handler. -/
def uip_rpl_input (c : rpl_private) (of : rpl_of) (pkt : uip_packet) (st : uip_state) :
    Except Fault uip_state :=
  let body_len := buffer_length st.uip_len pkt.uip_l2_l3_icmp_hdr_len
  let handled : Except Fault uip_state :=
    if pkt.icode = c.RPL_CODE_DIO_MSG then
      match dio_input c st.node pkt.srcipaddr st.buffer body_len pkt.stack_dio
        pkt.clock_time with
      | .error e => .error e
      | .ok node => .ok { st with node := node }
    else if pkt.icode = c.RPL_CODE_DIS then
      .ok (dis_input c of pkt st)
    else if pkt.icode = c.RPL_CODE_DAO then
      match dao_input c st.node pkt.srcipaddr st.buffer body_len pkt.stack_addr with
      | .error e => .error e
      | .ok r => .ok { st with node := r.1, buffer := r.2 }
    else if pkt.icode = c.RPL_CODE_DAO_ACK then
      .ok (dao_ack_input st)
    else .ok st
  match handled with
  | .error e => .error e
  | .ok st => .ok { st with uip_len := 0 }

/-- The offsets at which a scan that starts at `i` and advances by the total
length of each suboption (source lines 279-286) finds a suboption header before
`len`, and the cursor at which it stops. -/
def tlv_scan (c : rpl_private) (buffer : Buffer) (len : Nat) : Nat → Nat → List Nat × Nat
  | 0, i => ([], i)
  | fuel + 1, i =>
    if i < len then
      let r := tlv_scan c buffer len fuel (i + subopt_len c buffer i)
      (i :: r.1, r.2)
    else ([], i)

/-- The address list of an interface with a link-local address and the global
address `2001:db8::1`. -/
def addr_list0 : List uip_ds6_addr :=
  [{ isused := 1, state := 1, ipaddr := sender_addr },
   { isused := 1, state := 1, ipaddr := target_addr }]

/-- The address constants of the Contiki headers: tentative 0, preferred 1,
link-local addresses start with `fe80`. -/
def contiki_ds6 : uip_ds6_private where
  ADDR_TENTATIVE := 0
  ADDR_PREFERRED := 1
  uip_is_addr_link_local := fun a => a.take 2 == [0xfe, 0x80]

/-- The suboption types of a DAO are bytes, differ from the pad type and from
each other (they label the cases of one `switch`), and the flags byte that
`dao_output` writes does not hold the DODAGID bit. -/
def dao_types_ok (c : rpl_private) : Prop :=
  c.RPL_DIO_SUBOPT_TARGET < 256 ∧ c.RPL_DIO_SUBOPT_TRANSIT < 256 ∧
  c.RPL_DIO_SUBOPT_TARGET ≠ c.RPL_DIO_SUBOPT_PAD1 ∧
  c.RPL_DIO_SUBOPT_TRANSIT ≠ c.RPL_DIO_SUBOPT_PAD1 ∧
  c.RPL_DIO_SUBOPT_TRANSIT ≠ c.RPL_DIO_SUBOPT_TARGET ∧
  (c.RPL_DAO_K_FLAG % 256) &&& c.RPL_DAO_D_FLAG = 0

instance (c : rpl_private) : Decidable (dao_types_ok c) := by
  unfold dao_types_ok
  infer_instance

/-- The offset at which `dio_output` writes the DAG configuration suboption:
right after the base object when the metric list of `dag` is empty, and after
the metric-container suboption (2 header bytes, 12 timing bytes and the
entries of the list as the objective function left it in `dag1`) otherwise. -/
def dio_conf_offset (c : rpl_private) (dag dag1 : rpl_dag) : Nat :=
  if dag.mcs = [] then 24 else 24 + (2 + 12 + mcs_size c dag1.mcs)

/-- A DIO body for `dag0` whose metric-container suboption holds the three timing
fields and one Latency entry within its declared length (length byte 20),
followed by `tail`. -/
def dio_one_metric (tail : List Nat) : List Nat :=
  [30, 1, 2, 0, 16, 8, 0, 0] ++ dag0.dag_id ++
    [2, 20, 0, 0, 0, 1, 0, 0, 0, 2, 0, 0, 0, 3, 5, 0, 0, 4, 0, 0, 0, 9] ++ tail

/-- The number of blocks of the metric-container pool in use after a run,
`none` for a fault. -/
def pool_used (r : Except Fault rpl_node) : Option Nat :=
  match r with
  | .ok node => some node.mc_memb.used
  | .error _ => none

/-- A DIO body for `dag0` with a metric-container suboption of total length 6
(length byte 4), then the bytes `ins`, then a DAG configuration suboption. -/
def dio_short_metric (ins : List Nat) : List Nat :=
  [30, 1, 2, 0, 16, 8, 0, 0] ++ dag0.dag_id ++ [2, 4, 0, 0, 0, 1] ++ ins ++
    [4, 14, 0, 8, 12, 10, 0, 3, 1, 0, 0, 1, 0, 255, 255, 255]

/-- The DIO handed to `rpl_process_dio` in a run that hands over exactly one,
`none` otherwise. -/
def handed_dio (r : Except Fault rpl_node) : Option rpl_dio :=
  match r with
  | .ok node =>
    match node.processed_dio with
    | [x] => some x.2
    | _ => none
  | .error _ => none

/-- A received packet from `sender_addr` to the all-RPL-nodes group with ICMP
code `icode`, 48 bytes of headers in front of the payload, and zeroed
locals. -/
def packet0 (icode : Nat) : uip_packet where
  icode := icode
  srcipaddr := sender_addr
  destipaddr := contiki.linklocal_rplnodes_mcast
  uip_l2_l3_icmp_hdr_len := 48
  clock_time := 0
  stack_dio := dio0
  stack_addr := []

/-- The state of the dispatcher on entry: `node` holds a packet whose payload
memory is `buffer` and whose body has `body_len` bytes after 48 bytes of
headers. -/
def state0 (node : rpl_node) (buffer : Buffer) (body_len : Nat) : uip_state where
  node := node
  buffer := buffer
  uip_len := 48 + body_len
  dio_timer_resets := []

/-- A second neighbour address: `fe80::1`. -/
def parent_addr : uip_ipaddr_t :=
  [0xfe, 0x80, 0, 0, 0, 0, 0, 0, 0, 0, 0, 0, 0, 0, 0, 1]

/-- A node that runs `dag0` with `fe80::1` as preferred parent (of rank 256)
and has no route. -/
def node_preferred : rpl_node :=
  { node0 with
      dag_table := [{ dag0 with parents := [{ addr := parent_addr, rank := 256, updated := 0 }]
                                preferred_parent := some 0 }] }

/-- A node that runs `dag0` and holds a route to `2001:db8::1/128` through
`fe80::1`. -/
def node_route_parent : rpl_node :=
  { node0 with dag_table := [dag0]
               routing_table := [{ route0 with nexthop := parent_addr }] }

/-- The first message of the send log as (destination, code, length), `none`
for a fault or when the log does not hold exactly one message. -/
def sent_one (r : Except Fault (rpl_node × Buffer)) : Option (uip_ipaddr_t × Nat × Nat) :=
  match r with
  | .ok x =>
    match x.1.sent with
    | [m] => some (m.dest, m.code, m.len)
    | _ => none
  | .error _ => none

/-- The value `dao_input` computes for `learned_from` (source lines 720-721). -/
def dao_learned_from (c : rpl_private) (dao_sender_addr : uip_ipaddr_t) : Nat :=
  if c.uip_is_addr_mcast dao_sender_addr then c.RPL_ROUTE_FROM_MULTICAST_DAO
  else c.RPL_ROUTE_FROM_UNICAST_DAO

/-- The loop check of source lines 723-733 does not fire: the check is not made
(the DAO is not learned as a unicast DAO), or the sender is no parent of the
DAG, or its rank is not lower than the rank of the DAG. -/
def dao_no_loop (c : rpl_private) (dag : rpl_dag) (dao_sender_addr : uip_ipaddr_t) : Prop :=
  dao_learned_from c dao_sender_addr = c.RPL_ROUTE_FROM_UNICAST_DAO →
    ∀ p par, rpl_find_parent dag dao_sender_addr = some p → dag.parents.get? p = some par →
      ¬ c.DAG_RANK par.rank dag < c.DAG_RANK dag.rank dag

/-- An ETX entry with flags `0xa5`, aggregation mode 3, precedence 15, declared
length 200 and value 300. -/
def mc_sample : rpl_metric_container :=
  { type := 7, flags := 0xa5, aggr := 3, prec := 15, length := 200, obj := 300 }

/-- A node that runs `dag0` and holds two routes: one to `2001:db8::2/128`, and
one to `2001:db8::1/128` that is about to expire (lifetime 60, saved lifetime
1000). -/
def node_route_pending : rpl_node :=
  { node0 with
      dag_table := [dag0]
      routing_table :=
        [{ route0 with ipaddr := [0x20, 0x01, 0x0d, 0xb8, 0, 0, 0, 0, 0, 0, 0, 0, 0, 0, 0, 2]
                       nexthop := parent_addr },
         { route0 with lifetime := 60, saved_lifetime := 1000 }] }

/-- The fields that the DAG configuration suboption carries fit their C types
(bytes, and 16 bits for the rank increases, the objective code point and the
lifetime unit). -/
def dag_conf_in_range (dag : rpl_dag) : Prop :=
  dag.dio_intdoubl < 256 ∧ dag.dio_intmin < 256 ∧ dag.dio_redundancy < 256 ∧
  dag.max_rankinc < 65536 ∧ dag.min_hoprankinc < 65536 ∧ dag.ocp < 65536 ∧
  dag.default_lifetime < 256 ∧ dag.lifetime_unit < 65536

instance (dag : rpl_dag) : Decidable (dag_conf_in_range dag) := by
  unfold dag_conf_in_range
  infer_instance

/-- A prefix record fits its C types: length and flags are bytes, the lifetime
has 32 bits, the prefix is 16 bytes. -/
def prefix_in_range (p : rpl_prefix_t) : Prop :=
  p.length < 256 ∧ p.flags < 256 ∧ p.lifetime < 4294967296 ∧
  p.prefix_addr.length = 16 ∧ ∀ x ∈ p.prefix_addr, x < 256

instance (p : rpl_prefix_t) : Decidable (prefix_in_range p) := by
  unfold prefix_in_range
  infer_instance

/-- The DAG configuration of a decoded DIO equals that of the DAG. -/
def dag_conf_agree (dio : rpl_dio) (dag : rpl_dag) : Prop :=
  dio.dag_intdoubl = dag.dio_intdoubl ∧ dio.dag_intmin = dag.dio_intmin ∧
  dio.dag_redund = dag.dio_redundancy ∧ dio.dag_max_rankinc = dag.max_rankinc ∧
  dio.dag_min_hoprankinc = dag.min_hoprankinc ∧ dio.ocp = dag.ocp ∧
  dio.default_lifetime = dag.default_lifetime ∧ dio.lifetime_unit = dag.lifetime_unit

instance (dio : rpl_dio) (dag : rpl_dag) : Decidable (dag_conf_agree dio dag) := by
  unfold dag_conf_agree
  infer_instance

/-- The DAG `dag0` with the prefix `2001:db8::/64` configured (flags `0x40`,
lifetime 86400). -/
def dag_prefixed : rpl_dag :=
  { dag0 with
      prefix_info :=
        { prefix_addr := [0x20, 0x01, 0x0d, 0xb8, 0, 0, 0, 0, 0, 0, 0, 0, 0, 0, 0, 0]
          lifetime := 86400
          length := 64
          flags := 0x40 } }

/-- The `n` bytes of the payload memory from `pos` on. -/
def bytes_at (buffer : Buffer) (pos n : Nat) : List Nat :=
  (List.range n).map (fun k => buffer (pos + k))

/-- A DIO body of 40 bytes for `dag0`: the base object and a DAG configuration
suboption with interval doublings 3, interval minimum 4 and redundancy 5. -/
def dio_conf_345 : List Nat :=
  [30, 1, 2, 0, 16, 8, 0, 0] ++ dag0.dag_id ++
    [4, 14, 0, 3, 4, 5, 0, 3, 1, 0, 0, 1, 0, 255, 255, 255]

/-- The timer configuration of the DIOs handed to `rpl_process_dio` in a run of
the dispatcher, `none` for a fault. -/
def handed_conf (r : Except Fault uip_state) : Option (List (Nat × Nat × Nat)) :=
  match r with
  | .ok st =>
    some (st.node.processed_dio.map
      (fun x => (x.2.dag_intdoubl, x.2.dag_intmin, x.2.dag_redund)))
  | .error _ => none

/-! ## Theorems -/

theorem shl_or_eq_add (x y k : Nat) (hy : y < 2 ^ k) : x <<< k ||| y = x * 2 ^ k + y := by
  rw [Nat.shiftLeft_eq, Nat.mul_comm x (2 ^ k)]
  exact (Nat.mul_add_lt_is_or hy x).symm

theorem and_ff (x : Nat) : x &&& 0xff = x % 256 :=
  Nat.and_pow_two_sub_one_eq_mod x 8

theorem and_ffff (x : Nat) : x &&& 0xffff = x % 65536 :=
  Nat.and_pow_two_sub_one_eq_mod x 16

theorem be16 (a b : Nat) (hb : b < 256) : a <<< 8 ||| b = a * 256 + b := by
  simpa using shl_or_eq_add a b 8 (by simpa using hb)

theorem be32 (a b c d : Nat) (hb : b < 256) (hc : c < 256) (hd : d < 256) :
    a <<< 24 ||| b <<< 16 ||| c <<< 8 ||| d = a * 16777216 + b * 65536 + c * 256 + d := by
  have h1 : a <<< 24 ||| b <<< 16 = (a * 256 + b) <<< 16 := by
    rw [← be16 a b hb]
    apply Nat.eq_of_testBit_eq
    intro i
    simp only [Nat.testBit_or, Nat.testBit_shiftLeft]
    by_cases h16 : 16 ≤ i
    · by_cases h24 : 24 ≤ i
      · have e : i - 16 - 8 = i - 24 := by omega
        have g : 8 ≤ i - 16 := by omega
        simp [h16, h24, g, e]
      · have g : ¬ 8 ≤ i - 16 := by omega
        simp [h16, h24, g]
    · have h24 : ¬ 24 ≤ i := by omega
      simp [h16, h24]
  have h2 : (a * 256 + b) <<< 16 ||| c <<< 8 = ((a * 256 + b) * 256 + c) <<< 8 := by
    rw [← be16 (a * 256 + b) c hc]
    apply Nat.eq_of_testBit_eq
    intro i
    simp only [Nat.testBit_or, Nat.testBit_shiftLeft]
    by_cases h8 : 8 ≤ i
    · by_cases h16 : 16 ≤ i
      · have e : i - 8 - 8 = i - 16 := by omega
        have g : 8 ≤ i - 8 := by omega
        simp [h8, h16, g, e]
      · have g : ¬ 8 ≤ i - 8 := by omega
        simp [h8, h16, g]
    · have h16 : ¬ 16 ≤ i := by omega
      simp [h8, h16]
  rw [h1, h2, be16 _ d hd]
  ring

theorem put_ne (b : Buffer) (p v i : Nat) (h : i ≠ p) : put b p v i = b i := by
  simp [put, h]

theorem set16_out (b : Buffer) (p v i : Nat) (h : i < p ∨ p + 2 ≤ i) : set16 b p v i = b i := by
  have h0 : i ≠ p := by omega
  have h1 : i ≠ p + 1 := by omega
  simp [set16, put, h0, h1]

theorem set32_out (b : Buffer) (p v i : Nat) (h : i < p ∨ p + 4 ≤ i) : set32 b p v i = b i := by
  have h0 : i ≠ p := by omega
  have h1 : i ≠ p + 1 := by omega
  have h2 : i ≠ p + 2 := by omega
  have h3 : i ≠ p + 3 := by omega
  simp [set32, put, h0, h1, h2, h3]

theorem get16_set16 (b : Buffer) (p v : Nat) (hv : v < 65536) : get16 (set16 b p v) p = v := by
  have e : get16 (set16 b p v) p = (((v >>> 8) % 256) <<< 8 ||| (v &&& 0xff) % 256) % 2 ^ 16 := by
    simp [get16, set16, put]
  rw [e, be16 _ _ (Nat.mod_lt _ (by norm_num)), and_ff, Nat.shiftRight_eq_div_pow]
  omega

theorem get32_set32 (b : Buffer) (p v : Nat) (hv : v < 4294967296) :
    get32 (set32 b p v) p = v := by
  have e : get32 (set32 b p v) p =
      (((v >>> 24) % 256) <<< 24 ||| (((v >>> 16) &&& 0xffff) % 256) <<< 16 |||
        (((v >>> 8) &&& 0xff) % 256) <<< 8 ||| (v &&& 0xff) % 256) % 2 ^ 32 := by
    simp [get32, set32, put]
  rw [e, be32 _ _ _ _ (Nat.mod_lt _ (by norm_num)) (Nat.mod_lt _ (by norm_num))
    (Nat.mod_lt _ (by norm_num)), and_ff, and_ff, and_ffff]
  simp only [Nat.shiftRight_eq_div_pow]
  omega

theorem mc_output_pos (c : rpl_private) (e : rpl_metric_container) (b : Buffer) (p : Nat) :
    (mc_output c e b p).2 = p + mc_size c e := by
  unfold mc_output mc_size
  split_ifs <;> simp

theorem mc_output_out (c : rpl_private) (e : rpl_metric_container) (b : Buffer) (p i : Nat)
    (h : i < p ∨ p + mc_size c e ≤ i) : (mc_output c e b p).1 i = b i := by
  have h0 : i ≠ p := by unfold mc_size at h; split_ifs at h <;> omega
  have h1 : i ≠ p + 1 := by unfold mc_size at h; split_ifs at h <;> omega
  have h2 : i ≠ p + 2 := by unfold mc_size at h; split_ifs at h <;> omega
  have h3 : i ≠ p + 3 := by unfold mc_size at h; split_ifs at h <;> omega
  unfold mc_output
  unfold mc_size at h
  split_ifs at h ⊢ <;> simp only [] <;>
    first
      | (rw [set16_out _ _ _ _ (by omega)]; simp [put, h0, h1, h2, h3])
      | (rw [set32_out _ _ _ _ (by omega)]; simp [put, h0, h1, h2, h3])
      | simp [put, h0, h1, h2, h3]

theorem mcs_output_pos (c : rpl_private) (l : List rpl_metric_container) :
    ∀ (b : Buffer) (p : Nat), (mcs_output c l b p).2 = p + mcs_size c l := by
  induction l with
  | nil => intro b p; simp [mcs_output, mcs_size]
  | cons e rest ih =>
    intro b p
    simp only [mcs_output, mcs_size, ih, mc_output_pos]
    omega

theorem mcs_output_out (c : rpl_private) (l : List rpl_metric_container) :
    ∀ (b : Buffer) (p i : Nat), i < p ∨ p + mcs_size c l ≤ i →
      (mcs_output c l b p).1 i = b i := by
  induction l with
  | nil => intro b p i _; simp [mcs_output]
  | cons e rest ih =>
    intro b p i h
    simp only [mcs_output, mcs_size] at h ⊢
    rw [ih _ _ _ (by rw [mc_output_pos]; omega), mc_output_out _ _ _ _ _ (by omega)]

theorem dio_output_mc_out (c : rpl_private) (of : rpl_of) (node : rpl_node) (dag : rpl_dag)
    (b : Buffer) (p i : Nat) (h : i < p) : (dio_output_mc c of node dag b p).2.1 i = b i := by
  unfold dio_output_mc
  split_ifs with hl
  · simp only []
    rw [mcs_output_out _ _ _ _ _ (by omega), set32_out _ _ _ _ (by omega),
      set32_out _ _ _ _ (by omega), set32_out _ _ _ _ (by omega),
      put_ne _ _ _ _ (by omega), put_ne _ _ _ _ (by omega)]
  · rfl

theorem dio_output_mc_pos (c : rpl_private) (of : rpl_of) (node : rpl_node) (dag : rpl_dag)
    (b : Buffer) (p : Nat) : p ≤ (dio_output_mc c of node dag b p).2.2 := by
  unfold dio_output_mc
  split_ifs with hl
  · simp only [mcs_output_pos]; omega
  · exact Nat.le_refl _

theorem dio_output_conf_out (c : rpl_private) (dag : rpl_dag) (b : Buffer) (p i : Nat)
    (h : i < p) : (dio_output_conf c dag b p).1 i = b i := by
  unfold dio_output_conf
  simp only []
  repeat rw [put_ne _ _ _ _ (by omega)]

theorem dio_output_conf_pos (c : rpl_private) (dag : rpl_dag) (b : Buffer) (p : Nat) :
    (dio_output_conf c dag b p).2 = p + 16 := rfl

theorem dio_output_prefix_info_out (c : rpl_private) (dag : rpl_dag) (b : Buffer) (p i : Nat)
    (h : i < p) : (dio_output_prefix_info c dag b p).1 i = b i := by
  unfold dio_output_prefix_info
  split_ifs with hl
  · have h1 : ¬ (p + 16 ≤ i ∧ i < p + 16 + 16) := by omega
    have h2 : ¬ (p + 12 ≤ i ∧ i < p + 12 + 4) := by omega
    simp only [memcpy_to, memset0, h1, h2, if_false]
    rw [set32_out _ _ _ _ (by omega), set32_out _ _ _ _ (by omega)]
    repeat rw [put_ne _ _ _ _ (by omega)]
  · rfl

theorem dio_output_prefix_info_pos (c : rpl_private) (dag : rpl_dag) (b : Buffer) (p : Nat) :
    p ≤ (dio_output_prefix_info c dag b p).2 := by
  unfold dio_output_prefix_info
  split_ifs <;> simp

theorem dio_output_body_pos (c : rpl_private) (of : rpl_of) (node : rpl_node) (dag : rpl_dag)
    (b : Buffer) : 40 ≤ (dio_output_body c of node dag b).2.2 := by
  have h1 := dio_output_mc_pos c of node (dio_output_base dag b).1 (dio_output_base dag b).2.1
    (dio_output_base dag b).2.2
  have h3 : (dio_output_base dag b).2.2 = 24 := rfl
  unfold dio_output_body
  simp only []
  refine Nat.le_trans ?_ (dio_output_prefix_info_pos _ _ _ _)
  rw [dio_output_conf_pos]
  omega

theorem dio_output_body_base (c : rpl_private) (of : rpl_of) (node : rpl_node) (dag : rpl_dag)
    (b : Buffer) (i : Nat) (h : i < 24) :
    (dio_output_body c of node dag b).2.1 i = (dio_output_base dag b).2.1 i := by
  have h3 : (dio_output_base dag b).2.2 = 24 := rfl
  have h1 := dio_output_mc_pos c of node (dio_output_base dag b).1 (dio_output_base dag b).2.1
    (dio_output_base dag b).2.2
  unfold dio_output_body
  simp only []
  rw [dio_output_prefix_info_out _ _ _ _ _ (by rw [dio_output_conf_pos]; omega),
    dio_output_conf_out _ _ _ _ _ (by omega), dio_output_mc_out _ _ _ _ _ _ _ (by omega)]

theorem mop_byte (m : Nat) (h : m < 8) :
    (((m <<< RPL_DIO_MOP_SHIFT) % 256) &&& RPL_DIO_MOP_MASK) >>> RPL_DIO_MOP_SHIFT = m ∧
    ((m <<< RPL_DIO_MOP_SHIFT) % 256) &&& RPL_DIO_PREFERENCE_MASK = 0 := by
  interval_cases m <;> decide

theorem mc_size_ge (c : rpl_private) (e : rpl_metric_container) (h : mc_supported c e) :
    6 ≤ mc_size c e := by
  unfold mc_size
  unfold mc_supported at h
  split_ifs <;> omega

theorem mc_size_le (c : rpl_private) (e : rpl_metric_container) : mc_size c e ≤ 8 := by
  unfold mc_size
  split_ifs <;> omega

theorem get16_congr (b1 b2 : Buffer) (p : Nat) (h0 : b1 p = b2 p) (h1 : b1 (p + 1) = b2 (p + 1)) :
    get16 b1 p = get16 b2 p := by
  simp [get16, h0, h1]

theorem get32_congr (b1 b2 : Buffer) (p : Nat) (h0 : b1 p = b2 p) (h1 : b1 (p + 1) = b2 (p + 1))
    (h2 : b1 (p + 2) = b2 (p + 2)) (h3 : b1 (p + 3) = b2 (p + 3)) :
    get32 b1 p = get32 b2 p := by
  simp [get32, h0, h1, h2, h3]

theorem mc_output_eq (c : rpl_private) (e : rpl_metric_container) (b : Buffer) (p : Nat) :
    (mc_output c e b p).1 =
      if mc_size c e = 6 then set16 (mc_head e b p) (p + 4) e.obj
      else if mc_size c e = 8 then set32 (mc_head e b p) (p + 4) e.obj
      else mc_head e b p := by
  unfold mc_output mc_size mc_head
  split_ifs <;> first | rfl | omega

theorem mc_output_head (c : rpl_private) (e : rpl_metric_container) (b : Buffer) (p i : Nat)
    (h : i < p + 4) : (mc_output c e b p).1 i = mc_head e b p i := by
  rw [mc_output_eq]
  split_ifs
  · exact set16_out _ _ _ _ (by omega)
  · exact set32_out _ _ _ _ (by omega)
  · rfl

theorem mc_head_bytes (e : rpl_metric_container) (b : Buffer) (p : Nat) :
    mc_head e b p p = e.type % 256 ∧ mc_head e b p (p + 1) = (e.flags >>> 1) % 256 ∧
    mc_head e b p (p + 2) = mc_packed e ∧ mc_head e b p (p + 3) = e.length % 256 := by
  unfold mc_head mc_packed
  simp [put]

/-- One turn of the `while` loop of `dio_input` on the bytes of one entry. -/
theorem dio_mc_loop_entry (c : rpl_private) (rx b : Buffer) (limit fuel j : Nat)
    (dio : rpl_dio) (node : rpl_node) (pool : memb) (e : rpl_metric_container)
    (hj : j < limit) (halloc : memb_alloc node.mc_memb = some pool)
    (hs : mc_supported c e) (hr : mc_in_range c e)
    (hrx : ∀ i, j ≤ i → i < j + mc_size c e → rx i = (mc_output c e b j).1 i) :
    dio_mc_loop c rx limit (fuel + 1) j dio node =
      dio_mc_loop c rx limit fuel (j + mc_size c e)
        { dio with mcs := dio.mcs ++ [mc_wire e] } { node with mc_memb := pool } := by
  have hge := mc_size_ge c e hs
  have hb := mc_head_bytes e b j
  have h0 : rx j = e.type := by
    rw [hrx j (by omega) (by omega), mc_output_head _ _ _ _ _ (by omega), hb.1,
      Nat.mod_eq_of_lt hr.1]
  have h1 : rx (j + 1) = (e.flags >>> 1) % 256 := by
    rw [hrx (j + 1) (by omega) (by omega), mc_output_head _ _ _ _ _ (by omega), hb.2.1]
  have h2 : rx (j + 2) = mc_packed e := by
    rw [hrx (j + 2) (by omega) (by omega), mc_output_head _ _ _ _ _ (by omega), hb.2.2.1]
  have h3 : rx (j + 3) = e.length % 256 := by
    rw [hrx (j + 3) (by omega) (by omega), mc_output_head _ _ _ _ _ (by omega), hb.2.2.2]
  have hv16 : mc_size c e = 6 → get16 rx (j + 4) = e.obj := by
    intro h6
    have hobj : e.obj < 65536 := by
      have := hr.2
      rw [if_neg (by omega)] at this
      exact this
    rw [get16_congr rx (mc_output c e b j).1 (j + 4) (hrx _ (by omega) (by omega))
      (hrx _ (by omega) (by omega)), mc_output_eq, if_pos h6]
    exact get16_set16 _ _ _ hobj
  have hv32 : mc_size c e = 8 → get32 rx (j + 4) = e.obj := by
    intro h8
    have hobj : e.obj < 4294967296 := by
      have := hr.2
      rw [if_pos h8] at this
      exact this
    rw [get32_congr rx (mc_output c e b j).1 (j + 4) (hrx _ (by omega) (by omega))
      (hrx _ (by omega) (by omega)) (hrx _ (by omega) (by omega)) (hrx _ (by omega) (by omega)),
      mc_output_eq, if_neg (by omega), if_pos h8]
    exact get32_set32 _ _ _ hobj
  rw [dio_mc_loop]
  simp only [hj, if_true, halloc, h0, h1, h2, h3]
  unfold mc_size at hv16 hv32 hge ⊢
  unfold mc_wire
  split_ifs at hv16 hv32 hge ⊢ <;>
    first
      | omega
      | (rw [hv16 rfl])
      | (rw [hv32 rfl])

/-- The `while` loop of `dio_input` on the bytes `mcs_output` writes for a list
of entries: as long as the end of the written bytes lies less than 6 bytes past
the loop limit, every entry is read back, in order. -/
theorem dio_mc_loop_entries (c : rpl_private) (rx : Buffer) (limit : Nat)
    (l : List rpl_metric_container) :
    ∀ (b : Buffer) (fuel j : Nat) (dio : rpl_dio) (node : rpl_node),
      (∀ e ∈ l, mc_supported c e ∧ mc_in_range c e) →
      l.length < fuel →
      node.mc_memb.used + l.length ≤ node.mc_memb.num →
      (∀ i, j ≤ i → i < j + mcs_size c l → rx i = (mcs_output c l b j).1 i) →
      limit ≤ j + mcs_size c l → j + mcs_size c l < limit + 6 →
      dio_mc_loop c rx limit fuel j dio node =
        .ok ({ dio with mcs := dio.mcs ++ l.map mc_wire },
             { node with mc_memb := memb_take node.mc_memb l.length }) := by
  induction l with
  | nil =>
    intro b fuel j dio node _ hf _ _ hlo _
    obtain ⟨f, rfl⟩ : ∃ f, fuel = f + 1 := ⟨fuel - 1, by simp at hf; omega⟩
    simp only [mcs_size, Nat.add_zero] at hlo
    rw [dio_mc_loop, if_neg (by omega)]
    simp [memb_take]
  | cons e rest ih =>
    intro b fuel j dio node hs hf hpool hrx hlo hhi
    obtain ⟨f, rfl⟩ : ∃ f, fuel = f + 1 := ⟨fuel - 1, by simp at hf; omega⟩
    have hse := hs e (List.mem_cons_self _ _)
    have hge := mc_size_ge c e hse.1
    simp only [mcs_size] at hrx hlo hhi
    simp only [List.length_cons] at hf hpool
    have halloc : memb_alloc node.mc_memb = some (memb_take node.mc_memb 1) := by
      unfold memb_alloc memb_take
      rw [if_pos (by omega)]
    have hrx1 : ∀ i, j ≤ i → i < j + mc_size c e → rx i = (mc_output c e b j).1 i := by
      intro i h1 h2
      rw [hrx i h1 (by omega)]
      simp only [mcs_output]
      rw [mcs_output_out _ _ _ _ _ (by rw [mc_output_pos]; omega)]
    rw [dio_mc_loop_entry c rx b limit f j dio node _ e (by omega) halloc hse.1 hse.2 hrx1]
    rw [ih (mc_output c e b j).1 f (j + mc_size c e) _ _
      (fun x hx => hs x (List.mem_cons_of_mem _ hx)) (by omega)
      (by simp only [memb_take]; omega)
      (by
        intro i h1 h2
        rw [hrx i (by omega) (by omega)]
        simp only [mcs_output, mc_output_pos])
      (by omega) (by omega)]
    simp [memb_take, Nat.add_assoc, Nat.add_comm 1]

theorem dio_subopts_end (c : rpl_private) (b : Buffer) (len fuel i : Nat) (dio : rpl_dio)
    (node : rpl_node) (h : len ≤ i) :
    dio_subopts c b len (fuel + 1) i dio node = .ok (.finished, dio, node) := by
  rw [dio_subopts, if_neg (by omega)]

theorem dio_subopts_next (c : rpl_private) (b : Buffer) (len fuel i : Nat)
    (dio dio1 : rpl_dio) (node node1 : rpl_node) (h : i < len)
    (hs : dio_subopt c b i (subopt_len c b i) dio node = .ok (.finished, dio1, node1)) :
    dio_subopts c b len (fuel + 1) i dio node =
      dio_subopts c b len fuel (i + subopt_len c b i) dio1 node1 := by
  rw [dio_subopts, if_pos h]
  simp only [hs]

theorem dio_subopts_return (c : rpl_private) (b : Buffer) (len fuel i : Nat)
    (dio dio1 : rpl_dio) (node node1 : rpl_node) (h : i < len)
    (hs : dio_subopt c b i (subopt_len c b i) dio node = .ok (.returned, dio1, node1)) :
    dio_subopts c b len (fuel + 1) i dio node = .ok (.returned, dio1, node1) := by
  rw [dio_subopts, if_pos h]
  simp only [hs]

theorem dio_subopt_conf (c : rpl_private) (b : Buffer) (i : Nat) (dio : rpl_dio)
    (node : rpl_node) (hd : labels_distinct c) (he : emitted_types_ok c)
    (ht : b i = c.RPL_DIO_SUBOPT_DAG_CONF) (hl : b (i + 1) = 14) :
    subopt_len c b i = 16 ∧
    dio_subopt c b i 16 dio node = .ok (.finished, dio_conf_read b i dio, node) := by
  obtain ⟨h1, h2, h3, h4, h5, h6⟩ := hd
  obtain ⟨_, _, _, _, e5, _⟩ := he
  refine ⟨by simp [subopt_len, ht, hl, e5], ?_⟩
  unfold dio_subopt
  simp only [ht]
  rw [if_neg (Ne.symm h2), if_neg (Ne.symm h4)]
  simp [dio_conf_read]

theorem dio_subopt_prefix_info (c : rpl_private) (b : Buffer) (i : Nat) (dio : rpl_dio)
    (node : rpl_node) (hd : labels_distinct c) (he : emitted_types_ok c)
    (ht : b i = c.RPL_DIO_SUBOPT_PREFIX_INFO) (hl : b (i + 1) = 30) :
    subopt_len c b i = 32 ∧
    dio_subopt c b i 32 dio node = .ok (.finished, dio_prefix_info_read b i dio, node) := by
  obtain ⟨h1, h2, h3, h4, h5, h6⟩ := hd
  obtain ⟨_, _, _, _, _, e6⟩ := he
  refine ⟨by simp [subopt_len, ht, hl, e6], ?_⟩
  unfold dio_subopt
  simp only [ht]
  rw [if_neg (Ne.symm h3), if_neg (Ne.symm h5), if_neg (Ne.symm h6)]
  simp [dio_prefix_info_read]

theorem dio_subopt_mc (c : rpl_private) (b : Buffer) (i len : Nat) (dio : rpl_dio)
    (node : rpl_node) (ht : b i = c.RPL_DIO_SUBOPT_DAG_METRIC_CONTAINER) :
    dio_subopt c b i len dio node =
      match dio_mc_loop c b (i + len - 2) (len + 1) (i + 2 + 4 + 4 + 4)
        { dio with dio_delay := get32 b (i + 2), next_dio_time := get32 b (i + 2 + 4),
                   next_dio_delay := get32 b (i + 2 + 4 + 4) } node with
      | .error e => .error e
      | .ok (dio, node) => .ok (.finished, dio, node) := by
  unfold dio_subopt
  simp only [ht, if_true]

theorem mc_size_latency (c : rpl_private) (e : rpl_metric_container) (hc : latency_distinct c)
    (hs : mc_supported c e) :
    mc_size c e = if e.type = c.RPL_DAG_MC_LATENCY then 8 else 6 := by
  obtain ⟨h1, h2, h3, h4, h5⟩ := hc
  unfold mc_supported at hs
  unfold mc_size
  by_cases hl : e.type = c.RPL_DAG_MC_LATENCY
  · rw [hl, if_neg h1, if_neg h2, if_neg h3, if_neg h4, if_neg h5]
    simp
  · rw [if_neg hl]
    split_ifs <;> first | rfl | tauto

theorem mcs_size_latency (c : rpl_private) (hc : latency_distinct c)
    (l : List rpl_metric_container) (hs : ∀ e ∈ l, mc_supported c e) :
    mcs_size c l = 6 * l.length + 2 * latency_count c l := by
  induction l with
  | nil => simp [mcs_size, latency_count]
  | cons e rest ih =>
    have ih1 := ih (fun x hx => hs x (List.mem_cons_of_mem _ hx))
    have h1 := mc_size_latency c e hc (hs e (List.mem_cons_self _ _))
    unfold latency_count at ih1 ⊢
    simp only [mcs_size, List.length_cons, List.countP_cons, h1, ih1]
    by_cases hl : e.type = c.RPL_DAG_MC_LATENCY
    · simp [hl]; omega
    · simp [hl]; omega

theorem clear_take (m : memb) (l : List rpl_metric_container) (dio : rpl_dio)
    (h : dio.mcs.length = l.length) :
    clear_dio_mc dio (memb_take m l.length) = m := by
  unfold clear_dio_mc
  rw [← h]
  generalize dio.mcs = xs
  induction xs generalizing m with
  | nil => simp [memb_take]
  | cons x rest ih =>
    simp only [List.length_cons, List.foldl_cons]
    have e : memb_free (memb_take m (rest.length + 1)) = memb_take m rest.length := by
      simp [memb_free, memb_take]
    rw [e]
    exact ih m

theorem dio_subopts_tail (c : rpl_private) (rx : Buffer) (p len f : Nat) (dio : rpl_dio)
    (node : rpl_node) (hd : labels_distinct c) (he : emitted_types_ok c)
    (h0 : rx p = c.RPL_DIO_SUBOPT_DAG_CONF) (h1 : rx (p + 1) = 14)
    (hp : (rx (p + 16) = c.RPL_DIO_SUBOPT_PREFIX_INFO ∧ rx (p + 17) = 30 ∧ len = p + 48) ∨
      len = p + 16) :
    ∃ dio1, dio_subopts c rx len (f + 3) p dio node = .ok (.finished, dio1, node) ∧
      dio1.mcs = dio.mcs := by
  have hc := dio_subopt_conf c rx p dio node hd he h0 h1
  have hlt : p < len := by omega
  rw [dio_subopts_next c rx len (f + 2) p dio _ node node hlt (by rw [hc.1]; exact hc.2), hc.1]
  rcases hp with ⟨h2, h3, h4⟩ | h4
  · have hq := dio_subopt_prefix_info c rx (p + 16) (dio_conf_read rx p dio) node hd he h2 h3
    rw [dio_subopts_next c rx len (f + 1) (p + 16) _ _ node node (by omega)
      (by rw [hq.1]; exact hq.2), hq.1, dio_subopts_end _ _ _ _ _ _ _ (by omega)]
    exact ⟨_, rfl, rfl⟩
  · rw [dio_subopts_end _ _ _ _ _ _ _ (by omega)]
    exact ⟨_, rfl, rfl⟩

theorem dio_output_conf_bytes (c : rpl_private) (dag : rpl_dag) (b : Buffer) (p : Nat) :
    (dio_output_conf c dag b p).1 p = c.RPL_DIO_SUBOPT_DAG_CONF % 256 ∧
    (dio_output_conf c dag b p).1 (p + 1) = 14 := by
  unfold dio_output_conf
  simp [put]

theorem dio_output_prefix_info_bytes (c : rpl_private) (dag : rpl_dag) (b : Buffer) (p : Nat)
    (h : dag.prefix_info.length > 0) :
    (dio_output_prefix_info c dag b p).2 = p + 32 ∧
    (dio_output_prefix_info c dag b p).1 p = c.RPL_DIO_SUBOPT_PREFIX_INFO % 256 ∧
    (dio_output_prefix_info c dag b p).1 (p + 1) = 30 := by
  unfold dio_output_prefix_info
  rw [if_pos h]
  have a1 : ¬ (p + 16 ≤ p ∧ p < p + 16 + 16) := by omega
  have a2 : ¬ (p + 12 ≤ p ∧ p < p + 12 + 4) := by omega
  have a3 : ¬ (p + 16 ≤ p + 1 ∧ p + 1 < p + 16 + 16) := by omega
  have a4 : ¬ (p + 12 ≤ p + 1 ∧ p + 1 < p + 12 + 4) := by omega
  refine ⟨rfl, ?_, ?_⟩
  · simp only [memcpy_to, memset0, a1, a2, if_false]
    rw [set32_out _ _ _ _ (by omega), set32_out _ _ _ _ (by omega)]
    simp [put]
  · simp only [memcpy_to, memset0, a3, a4, if_false]
    rw [set32_out _ _ _ _ (by omega), set32_out _ _ _ _ (by omega)]
    simp [put]

/-- What follows the metric container in the body that `dio_output` writes. -/
theorem dio_output_body_tail (c : rpl_private) (of : rpl_of) (node : rpl_node) (dag : rpl_dag)
    (b : Buffer) :
    (dio_output_body c of node dag b).1 =
      (dio_output_mc c of node (dio_output_base dag b).1 (dio_output_base dag b).2.1 24).1 ∧
    (dio_output_body c of node dag b).2.1
      (dio_output_mc c of node (dio_output_base dag b).1 (dio_output_base dag b).2.1 24).2.2 =
        c.RPL_DIO_SUBOPT_DAG_CONF % 256 ∧
    (dio_output_body c of node dag b).2.1
      ((dio_output_mc c of node (dio_output_base dag b).1 (dio_output_base dag b).2.1 24).2.2 + 1)
        = 14 ∧
    (((dio_output_body c of node dag b).2.1
        ((dio_output_mc c of node (dio_output_base dag b).1 (dio_output_base dag b).2.1 24).2.2
          + 16) = c.RPL_DIO_SUBOPT_PREFIX_INFO % 256 ∧
      (dio_output_body c of node dag b).2.1
        ((dio_output_mc c of node (dio_output_base dag b).1 (dio_output_base dag b).2.1 24).2.2
          + 17) = 30 ∧
      (dio_output_body c of node dag b).2.2 =
        (dio_output_mc c of node (dio_output_base dag b).1 (dio_output_base dag b).2.1 24).2.2
          + 48) ∨
      (dio_output_body c of node dag b).2.2 =
        (dio_output_mc c of node (dio_output_base dag b).1 (dio_output_base dag b).2.1 24).2.2
          + 16) ∧
    ∀ i, i < (dio_output_mc c of node (dio_output_base dag b).1 (dio_output_base dag b).2.1
        24).2.2 →
      (dio_output_body c of node dag b).2.1 i =
        (dio_output_mc c of node (dio_output_base dag b).1 (dio_output_base dag b).2.1 24).2.1
          i := by
  unfold dio_output_body
  simp only []
  have e24 : (dio_output_base dag b).2.2 = 24 := rfl
  rw [e24]
  generalize dio_output_mc c of node (dio_output_base dag b).1 (dio_output_base dag b).2.1 24
    = m
  obtain ⟨dag2, b2, p⟩ := m
  simp only []
  have hk := dio_output_conf_bytes c dag2 b2 p
  have hkp : (dio_output_conf c dag2 b2 p).2 = p + 16 := rfl
  refine ⟨trivial, ?_, ?_, ?_, ?_⟩
  · rw [dio_output_prefix_info_out _ _ _ _ _ (by rw [hkp]; omega)]; exact hk.1
  · rw [dio_output_prefix_info_out _ _ _ _ _ (by rw [hkp]; omega)]; exact hk.2
  · by_cases hl : dag2.prefix_info.length > 0
    · left
      have hq := dio_output_prefix_info_bytes c dag2 (dio_output_conf c dag2 b2 p).1 (p + 16) hl
      rw [hkp]
      exact ⟨hq.2.1, hq.2.2, by rw [hq.1]⟩
    · right
      rw [hkp]
      unfold dio_output_prefix_info
      rw [if_neg hl]
  · intro i hi
    rw [dio_output_prefix_info_out _ _ _ _ _ (by rw [hkp]; omega),
      dio_output_conf_out _ _ _ _ _ hi]

theorem dio_output_mc_nonempty (c : rpl_private) (of : rpl_of) (node : rpl_node)
    (dag : rpl_dag) (b : Buffer) (h : dag.mcs ≠ []) :
    (dio_output_mc c of node dag b 24).1 = of.update_metric_container dag ∧
    (dio_output_mc c of node dag b 24).2.2 =
      38 + mcs_size c (of.update_metric_container dag).mcs ∧
    (dio_output_mc c of node dag b 24).2.1 24 =
      c.RPL_DIO_SUBOPT_DAG_METRIC_CONTAINER % 256 ∧
    (dio_output_mc c of node dag b 24).2.1 25 =
      (6 * (of.update_metric_container dag).mcs.length + 12 + 2) % 256 ∧
    ∃ b1 : Buffer, ∀ i, (dio_output_mc c of node dag b 24).2.1 i =
      (mcs_output c (of.update_metric_container dag).mcs b1 38).1 i := by
  have hl : dag.mcs.length ≠ 0 := by
    intro h0
    exact h (List.length_eq_zero.mp h0)
  unfold dio_output_mc
  rw [if_pos hl]
  simp only []
  refine ⟨trivial, ?_, ?_, ?_, ⟨_, fun i => rfl⟩⟩
  · rw [mcs_output_pos]
  · rw [mcs_output_out _ _ _ _ _ (by omega), set32_out _ _ _ _ (by omega),
      set32_out _ _ _ _ (by omega), set32_out _ _ _ _ (by omega)]
    simp [put]
  · rw [mcs_output_out _ _ _ _ _ (by omega), set32_out _ _ _ _ (by omega),
      set32_out _ _ _ _ (by omega), set32_out _ _ _ _ (by omega)]
    simp [put]

theorem dio_output_mc_empty (c : rpl_private) (of : rpl_of) (node : rpl_node)
    (dag : rpl_dag) (b : Buffer) (p : Nat) (h : dag.mcs = []) :
    dio_output_mc c of node dag b p = (dag, b, p) := by
  unfold dio_output_mc
  rw [if_neg (by simp [h])]

theorem mc_wire_key (l : List rpl_metric_container) :
    (l.map mc_wire).map (fun e => (e.type, e.obj)) = l.map (fun e => (e.type, e.obj)) := by
  induction l with
  | nil => rfl
  | cons e rest ih => simp [mc_wire]

theorem node_keep (node : rpl_node) (x : List (uip_ipaddr_t × rpl_dio)) :
    ({ node with processed_dio := x, mc_memb := node.mc_memb } : rpl_node) =
      { node with processed_dio := x } := rfl

/-- C2, as amended. For every metric list of at most 6 entries of the six
handled types with values that fit their width, that is empty or holds exactly
one Latency entry, and with enough free blocks in the pool of the receiver:
`dio_input`, run on a memory that holds the body written by `dio_output`, calls
`rpl_process_dio` once, with a metric list that has, position by position, the
types and values of the encoded list, and returns every block to the pool. -/
theorem dio_metrics_of_dio_output (c : rpl_private) (of : rpl_of) (sender : rpl_node)
    (dag : rpl_dag) (buffer : Buffer) (l : List rpl_metric_container)
    (node : rpl_node) (srcipaddr : uip_ipaddr_t) (rx : Buffer) (stack : rpl_dio)
    (clock_time : Nat)
    (h_labels : labels_distinct c) (h_types : emitted_types_ok c)
    (h_latency : latency_distinct c)
    (h_list : (dio_output_body c of sender dag buffer).1.mcs = l)
    (h_size : l.length ≤ 6)
    (h_entries : ∀ e ∈ l, mc_supported c e ∧ mc_in_range c e)
    (h_one : dag.mcs = [] ∨ latency_count c l = 1)
    (h_pool : node.mc_memb.used + l.length ≤ node.mc_memb.num)
    (h_rx : delivered (dio_output_body c of sender dag buffer).2.1
      (dio_output_body c of sender dag buffer).2.2 rx) :
    ∃ dio : rpl_dio,
      dio_input c node srcipaddr rx (dio_output_body c of sender dag buffer).2.2 stack
          clock_time =
        .ok { node with processed_dio := node.processed_dio ++ [(srcipaddr, dio)] } ∧
      dio.mcs.map (fun e => (e.type, e.obj)) = l.map (fun e => (e.type, e.obj)) := by
  obtain ⟨t1, t2, t3, t4, t5⟩ := dio_output_body_tail c of sender dag buffer
  have hbase : (dio_output_base dag buffer).1.mcs = dag.mcs := rfl
  obtain ⟨e1, e2, e3, e4, e5, e6⟩ := h_types
  rw [Nat.mod_eq_of_lt e2] at t2
  rw [Nat.mod_eq_of_lt e3] at t4
  by_cases hempty : dag.mcs = []
  · -- no metric container is written
    have hm := dio_output_mc_empty c of sender (dio_output_base dag buffer).1
      (dio_output_base dag buffer).2.1 24 (by rw [hbase]; exact hempty)
    rw [hm] at t1 t2 t3 t4 t5
    simp only [] at t1 t2 t3 t4 t5
    have hl : l = [] := by rw [← h_list, t1]; exact hempty
    subst hl
    have hpos : (dio_output_body c of sender dag buffer).2.2 = 40 ∨
        (dio_output_body c of sender dag buffer).2.2 = 72 := by omega
    generalize (dio_output_body c of sender dag buffer).2.2 = pos at h_rx t4 hpos ⊢
    generalize (dio_output_body c of sender dag buffer).2.1 = tx at h_rx t2 t3 t4
    have hmod : pos % 256 = pos := by omega
    obtain ⟨f, hf⟩ : ∃ f, pos = f + 2 := ⟨pos - 2, by omega⟩
    have r0 : rx 24 = c.RPL_DIO_SUBOPT_DAG_CONF := by rw [h_rx 24 (by omega)]; exact t2
    have r1 : rx (24 + 1) = 14 := by rw [h_rx 25 (by omega)]; exact t3
    have r2 : (rx (24 + 16) = c.RPL_DIO_SUBOPT_PREFIX_INFO ∧ rx (24 + 17) = 30 ∧
        pos = 24 + 48) ∨ pos = 24 + 16 := by
      rcases t4 with ⟨a, b, d⟩ | d
      · left
        exact ⟨by rw [h_rx 40 (by omega)]; exact a, by rw [h_rx 41 (by omega)]; exact b, d⟩
      · right; exact d
    obtain ⟨dio1, hrun, hmcs⟩ := dio_subopts_tail c rx 24 pos f
      (dio_base c rx stack clock_time) node h_labels ⟨e1, e2, e3, e4, e5, e6⟩ r0 r1 r2
    refine ⟨dio1, ?_, ?_⟩
    · unfold dio_input
      simp only [hmod]
      have hfuel : pos + 1 = f + 3 := by omega
      rw [hfuel, hrun]
      have hnil : dio1.mcs = [] := by rw [hmcs]; rfl
      simp only [clear_dio_mc, hnil, List.foldl_nil]
    · rw [hmcs]; rfl
  · -- the metric container comes first
    have hone : latency_count c l = 1 := by
      rcases h_one with h | h
      · exact absurd h hempty
      · exact h
    obtain ⟨m1, m2, m3, m4, b1, m5⟩ := dio_output_mc_nonempty c of sender
      (dio_output_base dag buffer).1 (dio_output_base dag buffer).2.1
      (by rw [hbase]; exact hempty)
    have hl : (of.update_metric_container (dio_output_base dag buffer).1).mcs = l := by
      rw [← h_list, t1, m1]
    rw [hl] at m2 m4 m5
    have hsz := mcs_size_latency c h_latency l (fun e he => (h_entries e he).1)
    rw [hone] at hsz
    rw [Nat.mod_eq_of_lt e1] at m3
    rw [Nat.mod_eq_of_lt (by omega)] at m4
    rw [m2, hsz] at t2 t3 t4 t5
    generalize (dio_output_mc c of sender (dio_output_base dag buffer).1
      (dio_output_base dag buffer).2.1 24).2.1 = mb at m3 m4 m5 t5
    generalize (dio_output_body c of sender dag buffer).2.2 = pos at h_rx t4 ⊢
    generalize (dio_output_body c of sender dag buffer).2.1 = tx at h_rx t2 t3 t4 t5
    have hpos : pos = 38 + (6 * l.length + 2 * 1) + 48 ∨
        pos = 38 + (6 * l.length + 2 * 1) + 16 := by
      rcases t4 with ⟨_, _, d⟩ | d
      · left; exact d
      · right; exact d
    have hmod : pos % 256 = pos := by omega
    obtain ⟨f, hf⟩ : ∃ f, pos = f + 3 := ⟨pos - 3, by omega⟩
    have r0 : rx 24 = c.RPL_DIO_SUBOPT_DAG_METRIC_CONTAINER := by
      rw [h_rx 24 (by omega), t5 24 (by omega)]; exact m3
    have r1 : rx (24 + 1) = 6 * l.length + 12 + 2 := by
      rw [h_rx 25 (by omega), t5 25 (by omega)]; exact m4
    have hlen : subopt_len c rx 24 = 6 * l.length + 16 := by
      unfold subopt_len
      rw [r0, if_neg e4, r1]
      omega
    have hloop := dio_mc_loop_entries c rx (24 + (6 * l.length + 16) - 2) l b1
      (6 * l.length + 16 + 1) (24 + 2 + 4 + 4 + 4)
      { dio_base c rx stack clock_time with
          dio_delay := get32 rx (24 + 2), next_dio_time := get32 rx (24 + 2 + 4),
          next_dio_delay := get32 rx (24 + 2 + 4 + 4) }
      node h_entries (by omega) h_pool
      (by
        intro i h1 h2
        rw [hsz] at h2
        rw [h_rx i (by omega), t5 i (by omega), m5 i])
      (by rw [hsz]; omega) (by rw [hsz]; omega)
    have hstep : dio_subopt c rx 24 (subopt_len c rx 24) (dio_base c rx stack clock_time) node =
        .ok (.finished,
          { dio_base c rx stack clock_time with
              dio_delay := get32 rx (24 + 2), next_dio_time := get32 rx (24 + 2 + 4),
              next_dio_delay := get32 rx (24 + 2 + 4 + 4),
              mcs := (dio_base c rx stack clock_time).mcs ++ l.map mc_wire },
          { node with mc_memb := memb_take node.mc_memb l.length }) := by
      rw [hlen, dio_subopt_mc c rx 24 _ _ _ r0, hloop]
    have q0 : rx (24 + (6 * l.length + 16)) = c.RPL_DIO_SUBOPT_DAG_CONF := by
      rw [h_rx _ (by omega)]
      rw [show 24 + (6 * l.length + 16) = 38 + (6 * l.length + 2 * 1) by omega]
      exact t2
    have q1 : rx (24 + (6 * l.length + 16) + 1) = 14 := by
      rw [h_rx _ (by omega)]
      rw [show 24 + (6 * l.length + 16) + 1 = 38 + (6 * l.length + 2 * 1) + 1 by omega]
      exact t3
    have q2 : (rx (24 + (6 * l.length + 16) + 16) = c.RPL_DIO_SUBOPT_PREFIX_INFO ∧
        rx (24 + (6 * l.length + 16) + 17) = 30 ∧ pos = 24 + (6 * l.length + 16) + 48) ∨
        pos = 24 + (6 * l.length + 16) + 16 := by
      rcases t4 with ⟨a, b, d⟩ | d
      · left
        refine ⟨?_, ?_, by omega⟩
        · rw [h_rx _ (by omega)]
          rw [show 24 + (6 * l.length + 16) + 16 = 38 + (6 * l.length + 2 * 1) + 16 by omega]
          exact a
        · rw [h_rx _ (by omega)]
          rw [show 24 + (6 * l.length + 16) + 17 = 38 + (6 * l.length + 2 * 1) + 17 by omega]
          exact b
      · right; omega
    obtain ⟨dio1, hrun, hmcs⟩ := dio_subopts_tail c rx (24 + (6 * l.length + 16)) pos f
      { dio_base c rx stack clock_time with
          dio_delay := get32 rx (24 + 2), next_dio_time := get32 rx (24 + 2 + 4),
          next_dio_delay := get32 rx (24 + 2 + 4 + 4),
          mcs := (dio_base c rx stack clock_time).mcs ++ l.map mc_wire }
      { node with mc_memb := memb_take node.mc_memb l.length }
      h_labels ⟨e1, e2, e3, e4, e5, e6⟩ q0 q1 q2
    have hmcs1 : dio1.mcs = l.map mc_wire := by rw [hmcs]; rfl
    refine ⟨dio1, ?_, ?_⟩
    · unfold dio_input
      simp only [hmod]
      have hfuel : pos + 1 = (f + 3) + 1 := by omega
      rw [hfuel, dio_subopts_next c rx pos (f + 3) 24 _ _ _ _ (by omega) hstep, hlen, hrun]
      simp only []
      rw [clear_take node.mc_memb l dio1 (by rw [hmcs1, List.length_map])]
    · rw [hmcs1, mc_wire_key]

/-- The claim C2 as stated fails on a list of three Latency entries and one ETX
entry, of which only the first three are decoded; on a list of two Latency
entries, after which the scan resumes on the last two bytes of the second
value; and on a list of one ETX entry, after which the scan resumes two bytes
into the DAG configuration. In the last two runs the scan leaves through the
malformed-message `return` and nothing is handed on. -/
theorem dio_metrics_counterexample :
    (∀ e ∈ dag_three_latencies.mcs, mc_supported contiki e ∧ mc_in_range contiki e) ∧
    dag_three_latencies.mcs.map (fun e => (e.type, e.obj)) =
      [(5, 70000), (5, 1), (5, 2), (7, 0)] ∧
    handed_metrics (dio_loopback contiki dag_three_latencies) =
      some [[(5, 70000), (5, 1), (5, 2)]] ∧
    (∀ e ∈ dag_two_latencies.mcs, mc_supported contiki e ∧ mc_in_range contiki e) ∧
    handed_metrics (dio_loopback contiki dag_two_latencies) = some [] ∧
    (∀ e ∈ dag_one_etx.mcs, mc_supported contiki e ∧ mc_in_range contiki e) ∧
    handed_metrics (dio_loopback contiki dag_one_etx) = some [] := by
  decide

theorem dio_metrics_of_dio_output_witness :
    ∃ dio : rpl_dio,
      dio_input contiki node0 sender_addr
          (dio_output_body contiki of_keep node0 dag_one_latency zeros).2.1
          (dio_output_body contiki of_keep node0 dag_one_latency zeros).2.2 dio0 0 =
        .ok { node0 with processed_dio := node0.processed_dio ++ [(sender_addr, dio)] } ∧
      dio.mcs.map (fun e => (e.type, e.obj)) =
        [mc_entry 7 300, mc_entry 5 70000, mc_entry 2 5].map (fun e => (e.type, e.obj)) :=
  dio_metrics_of_dio_output contiki of_keep node0 dag_one_latency zeros
    [mc_entry 7 300, mc_entry 5 70000, mc_entry 2 5] node0 sender_addr
    (dio_output_body contiki of_keep node0 dag_one_latency zeros).2.1 dio0 0
    (by decide) (by decide) (by decide) rfl (by decide) (by decide) (Or.inr (by decide))
    (by decide) (fun _ _ => rfl)

theorem find_index_some {α : Type} (p : α → Bool) (l : List α) :
    ∀ r, find_index p l = some r → ∃ e, l.get? r = some e ∧ p e = true := by
  induction l with
  | nil => intro r h; simp [find_index] at h
  | cons a rest ih =>
    intro r h
    unfold find_index at h
    by_cases ha : p a = true
    · rw [if_pos ha] at h
      cases h
      exact ⟨a, rfl, ha⟩
    · rw [if_neg ha] at h
      cases hr : find_index p rest with
      | none => rw [hr] at h; cases h
      | some k =>
        rw [hr] at h
        cases h
        obtain ⟨e, h1, h2⟩ := ih k hr
        exact ⟨e, by simpa using h1, h2⟩

theorem find_index_set {α : Type} (p : α → Bool) (l : List α) :
    ∀ (r : Nat) (e x : α), l.get? r = some e → p x = p e →
      find_index p (l.set r x) = find_index p l := by
  induction l with
  | nil => intro r e x h; simp at h
  | cons a rest ih =>
    intro r e x h hp
    cases r with
    | zero =>
      simp only [List.get?_cons_zero, Option.some.injEq] at h
      subst h
      simp [find_index, hp]
    | succ k =>
      simp only [List.get?_cons_succ] at h
      simp only [List.set_cons_succ, find_index]
      rw [ih k e x h hp]

theorem find_index_append {α : Type} (p : α → Bool) (l : List α) (x : α)
    (h : find_index p l = none) (hx : p x = true) :
    find_index p (l ++ [x]) = some l.length := by
  induction l with
  | nil => simp [find_index, hx]
  | cons a rest ih =>
    unfold find_index at h
    by_cases ha : p a = true
    · rw [if_pos ha] at h; cases h
    · rw [if_neg ha] at h
      have hr : find_index p rest = none := by
        cases hq : find_index p rest with
        | none => rfl
        | some k => rw [hq] at h; cases h
      have h1 := ih hr
      simp [find_index, ha, h1]

theorem dao_subopts_keeps (c : rpl_private) (buffer : Buffer) (len : Nat) :
    ∀ (fuel i : Nat) (d d1 : dao_msg), dao_subopts c buffer len fuel i d = .ok d1 →
      d1.instance_id = d.instance_id ∧ d1.flags = d.flags ∧ d1.sequence = d.sequence := by
  intro fuel
  induction fuel with
  | zero => intro i d d1 h; simp [dao_subopts] at h
  | succ f ih =>
    intro i d d1 h
    rw [dao_subopts] at h
    by_cases h1 : i < len
    · rw [if_pos h1] at h
      simp only [] at h
      by_cases h2 : buffer i = c.RPL_DIO_SUBOPT_TARGET
      · rw [if_pos h2] at h
        by_cases h3 : (buffer (i + 3) + 7) / 8 > 16
        · rw [if_pos h3] at h; cases h
        · rw [if_neg h3] at h
          have h5 := ih _ _ _ h
          exact h5
      · rw [if_neg h2] at h
        by_cases h4 : buffer i = c.RPL_DIO_SUBOPT_TRANSIT
        · rw [if_pos h4] at h
          have h5 := ih _ _ _ h
          exact h5
        · rw [if_neg h4] at h
          exact ih _ _ _ h
    · rw [if_neg h1] at h
      cases h
      exact ⟨rfl, rfl, rfl⟩

theorem dao_parse_dag (c : rpl_private) (node : rpl_node) (buffer : Buffer) (body_len : Nat)
    (stack : uip_ipaddr_t) (k : Nat) (d : dao_msg)
    (h : dao_parse c node buffer body_len stack = .ok (some (k, d))) :
    ∃ dag, node.dag_table.get? k = some dag ∧ dag.instance_id = buffer 0 ∧
      d.instance_id = buffer 0 ∧ d.flags = buffer 1 ∧ d.sequence = buffer 3 := by
  unfold dao_parse at h
  simp only [] at h
  cases hg : rpl_get_dag node (buffer 0) with
  | none => rw [hg] at h; cases h
  | some k1 =>
    rw [hg] at h
    simp only [] at h
    obtain ⟨dag, h1, h2⟩ := find_index_some _ _ _ hg
    rw [h1] at h
    simp only [] at h
    split at h
    · cases h
    · rename_i d2 hd
      cases h
      obtain ⟨a1, a2, a3⟩ := dao_subopts_keeps _ _ _ _ _ _ _ hd
      refine ⟨dag, h1, ?_, a1, a2, a3⟩
      simpa using h2

theorem dao_input_eq (c : rpl_private) (node : rpl_node) (srcipaddr : uip_ipaddr_t)
    (buffer : Buffer) (body_len : Nat) (stack : uip_ipaddr_t) (k : Nat) (d : dao_msg)
    (dag : rpl_dag)
    (h : dao_parse c node buffer body_len stack = .ok (some (k, d)))
    (hk : node.dag_table.get? k = some dag) :
    dao_input c node srcipaddr buffer body_len stack =
      dao_route c node srcipaddr buffer (body_len % 256) k dag d := by
  unfold dao_input
  rw [h]
  simp only [hk]

/-- C3. A DAO whose lifetime is `ZERO_LIFETIME`, for a prefix whose route entry
is Active (lifetime > 0, no saved lifetime), makes `dao_input` save the old
lifetime in `saved_lifetime` and set the lifetime to `DAO_EXPIRATION_TIMEOUT`;
any further such withdrawal for the same prefix leaves the whole node, and so
both fields of that entry, unchanged. -/
theorem dao_withdrawal_once (c : rpl_private) (node : rpl_node) (srcipaddr : uip_ipaddr_t)
    (buffer : Buffer) (body_len : Nat) (stack : uip_ipaddr_t) (k : Nat) (d : dao_msg)
    (r : Nat) (e : uip_ds6_route)
    (h_parse : dao_parse c node buffer body_len stack = .ok (some (k, d)))
    (h_zero : d.lifetime = c.ZERO_LIFETIME)
    (h_lookup : uip_ds6_route_lookup node.routing_table d.prefix_addr = some r)
    (h_entry : node.routing_table.get? r = some e)
    (h_active : e.lifetime > 0 ∧ e.saved_lifetime = 0) :
    ∃ node1 : rpl_node,
      dao_input c node srcipaddr buffer body_len stack = .ok (node1, buffer) ∧
      node1.routing_table.get? r =
        some { e with saved_lifetime := e.lifetime, lifetime := c.DAO_EXPIRATION_TIMEOUT } ∧
      ∀ (src2 : uip_ipaddr_t) (buffer2 : Buffer) (len2 : Nat) (stack2 : uip_ipaddr_t)
        (k2 : Nat) (d2 : dao_msg),
        dao_parse c node1 buffer2 len2 stack2 = .ok (some (k2, d2)) →
        d2.lifetime = c.ZERO_LIFETIME → d2.prefix_addr = d.prefix_addr →
        dao_input c node1 src2 buffer2 len2 stack2 = .ok (node1, buffer2) := by
  obtain ⟨dag, hk, _⟩ := dao_parse_dag c node buffer body_len stack k d h_parse
  have hlt : r < node.routing_table.length := by
    rcases Nat.lt_or_ge r node.routing_table.length with h | h
    · exact h
    · rw [List.get?_eq_none.mpr h] at h_entry; cases h_entry
  refine ⟨{ node with routing_table := node.routing_table.set r { e with
      saved_lifetime := e.lifetime, lifetime := c.DAO_EXPIRATION_TIMEOUT } }, ?_, ?_, ?_⟩
  · rw [dao_input_eq c node srcipaddr buffer body_len stack k d dag h_parse hk]
    unfold dao_route
    simp only [h_zero, if_true, h_lookup, h_entry, h_active.2]
  · simp [List.getElem?_set, hlt]
  · intro src2 buffer2 len2 stack2 k2 d2 hp2 hz2 hpre
    obtain ⟨dag2, hk2, _⟩ := dao_parse_dag c _ buffer2 len2 stack2 k2 d2 hp2
    rw [dao_input_eq c _ src2 buffer2 len2 stack2 k2 d2 dag2 hp2 hk2]
    have hfind : uip_ds6_route_lookup (node.routing_table.set r
        { e with saved_lifetime := e.lifetime, lifetime := c.DAO_EXPIRATION_TIMEOUT })
        d2.prefix_addr = some r := by
      unfold uip_ds6_route_lookup at h_lookup ⊢
      rw [hpre, find_index_set _ _ r e _ h_entry (by rfl)]
      exact h_lookup
    have hget : (node.routing_table.set r
        { e with saved_lifetime := e.lifetime, lifetime := c.DAO_EXPIRATION_TIMEOUT }).get? r =
        some { e with saved_lifetime := e.lifetime, lifetime := c.DAO_EXPIRATION_TIMEOUT } := by
      simp [List.getElem?_set, hlt]
    have hne : ¬ e.lifetime = 0 := by have := h_active.1; omega
    unfold dao_route
    simp only [hz2, if_true, hfind, hget, hne, if_false]

/-- C4. A DAO whose lifetime is `ZERO_LIFETIME`, for a prefix without a route
entry, leaves the node (route table, DAGs and their parents, messages sent,
counters) and the payload memory as they were. -/
theorem dao_withdrawal_absent (c : rpl_private) (node : rpl_node) (srcipaddr : uip_ipaddr_t)
    (buffer : Buffer) (body_len : Nat) (stack : uip_ipaddr_t) (k : Nat) (d : dao_msg)
    (h_parse : dao_parse c node buffer body_len stack = .ok (some (k, d)))
    (h_zero : d.lifetime = c.ZERO_LIFETIME)
    (h_absent : uip_ds6_route_lookup node.routing_table d.prefix_addr = none) :
    dao_input c node srcipaddr buffer body_len stack = .ok (node, buffer) := by
  obtain ⟨dag, hk, _⟩ := dao_parse_dag c node buffer body_len stack k d h_parse
  rw [dao_input_eq c node srcipaddr buffer body_len stack k d dag h_parse hk]
  unfold dao_route
  simp only [h_zero, if_true, h_absent]

/-- C5. A DAO that is no withdrawal, from a sender that is not multicast and is
a known parent whose normalised rank is below the normalised rank of the DAG,
is rejected: route table, messages sent and counters stay as they were, and
that parent gets rank `INFINITE_RANK` and `updated = 1`. -/
theorem dao_loop_rejected (c : rpl_private) (node : rpl_node) (srcipaddr : uip_ipaddr_t)
    (buffer : Buffer) (body_len : Nat) (stack : uip_ipaddr_t) (k : Nat) (d : dao_msg)
    (dag : rpl_dag) (p : Nat) (par : rpl_parent)
    (h_parse : dao_parse c node buffer body_len stack = .ok (some (k, d)))
    (h_dag : node.dag_table.get? k = some dag)
    (h_lifetime : d.lifetime ≠ c.ZERO_LIFETIME)
    (h_unicast : c.uip_is_addr_mcast srcipaddr = false)
    (h_find : rpl_find_parent dag srcipaddr = some p)
    (h_parent : dag.parents.get? p = some par)
    (h_rank : c.DAG_RANK par.rank dag < c.DAG_RANK dag.rank dag) :
    ∃ (node1 : rpl_node) (dag1 : rpl_dag),
      dao_input c node srcipaddr buffer body_len stack = .ok (node1, buffer) ∧
      node1.routing_table = node.routing_table ∧ node1.sent = node.sent ∧
      node1.rpl_stats = node.rpl_stats ∧
      node1.dag_table.get? k = some dag1 ∧
      dag1.parents.get? p = some { par with rank := c.INFINITE_RANK, updated := 1 } := by
  have hklt : k < node.dag_table.length := by
    rcases Nat.lt_or_ge k node.dag_table.length with h | h
    · exact h
    · rw [List.get?_eq_none.mpr h] at h_dag; cases h_dag
  have hplt : p < dag.parents.length := by
    rcases Nat.lt_or_ge p dag.parents.length with h | h
    · exact h
    · rw [List.get?_eq_none.mpr h] at h_parent; cases h_parent
  refine ⟨{ node with dag_table := node.dag_table.set k { dag with
      parents := dag.parents.set p { par with rank := c.INFINITE_RANK, updated := 1 } } },
    { dag with parents := dag.parents.set p { par with
        rank := c.INFINITE_RANK, updated := 1 } }, ?_, ?_, ?_, ?_, ?_, ?_⟩
  · rw [dao_input_eq c node srcipaddr buffer body_len stack k d dag h_parse h_dag]
    unfold dao_route
    simp only [h_lifetime, if_false, h_unicast, Bool.false_eq_true, if_true, h_find, h_parent,
      h_rank]
  · rfl
  · rfl
  · rfl
  · simp [List.getElem?_set, hklt]
  · simp [List.getElem?_set, hplt]

/-- C6. A DAO that is no withdrawal and has the K flag set, from a sender that
is not multicast, for a DAG without preferred parent, with no loop detected and
a route entry that exists or can be allocated: afterwards the route table
holds an entry for the target prefix with `learned_from` unicast-DAO, and
exactly one message was sent: a 4-byte DAO-ACK to the sender with the body
instance id, 0, sequence number of the DAO, 0. -/
theorem dao_ack_sent (c : rpl_private) (node : rpl_node) (srcipaddr : uip_ipaddr_t)
    (buffer : Buffer) (body_len : Nat) (stack : uip_ipaddr_t) (k : Nat) (d : dao_msg)
    (dag : rpl_dag)
    (h_bytes : ∀ i, buffer i < 256)
    (h_parse : dao_parse c node buffer body_len stack = .ok (some (k, d)))
    (h_dag : node.dag_table.get? k = some dag)
    (h_lifetime : d.lifetime ≠ c.ZERO_LIFETIME)
    (h_ack : d.flags &&& c.RPL_DAO_K_FLAG ≠ 0)
    (h_unicast : c.uip_is_addr_mcast srcipaddr = false)
    (h_root : dag.preferred_parent = none)
    (h_no_loop : ∀ p par, rpl_find_parent dag srcipaddr = some p →
      dag.parents.get? p = some par →
      ¬ c.DAG_RANK par.rank dag < c.DAG_RANK dag.rank dag)
    (h_alloc : uip_ds6_route_lookup node.routing_table d.prefix_addr ≠ none ∨
      node.routing_table.length < c.UIP_DS6_ROUTE_NB) :
    ∃ (node1 : rpl_node) (buffer1 : Buffer) (r : Nat) (e : uip_ds6_route),
      dao_input c node srcipaddr buffer body_len stack = .ok (node1, buffer1) ∧
      uip_ds6_route_lookup node1.routing_table d.prefix_addr = some r ∧
      node1.routing_table.get? r = some e ∧
      e.learned_from = c.RPL_ROUTE_FROM_UNICAST_DAO ∧
      node1.sent = node.sent ++
        [{ dest := srcipaddr, type := c.ICMP6_RPL, code := c.RPL_CODE_DAO_ACK, len := 4,
           body := [d.instance_id, 0, d.sequence, 0] }] := by
  obtain ⟨dag0, hk0, hinst, hdi, _, hds⟩ := dao_parse_dag c node buffer body_len stack k d h_parse
  rw [h_dag] at hk0
  cases hk0
  have hloop : (match rpl_find_parent dag srcipaddr with
      | none => (none : Option (Nat × rpl_parent))
      | some p =>
        match dag.parents.get? p with
        | none => none
        | some par =>
          if c.DAG_RANK par.rank dag < c.DAG_RANK dag.rank dag then some (p, par) else none) =
      none := by
    cases hf : rpl_find_parent dag srcipaddr with
    | none => rfl
    | some p =>
      cases hp : dag.parents.get? p with
      | none => simp only [hp]
      | some par => simp only [hp, if_neg (h_no_loop p par hf hp)]
  have hbody : payload (put (put (put (put buffer 0 dag.instance_id) 1 0) 2 (d.sequence % 256)) 3 0)
      4 = [d.instance_id, 0, d.sequence, 0] := by
    have h0 := h_bytes 0
    have h3 := h_bytes 3
    rw [hinst, hdi, hds]
    simp [payload, List.range_succ, put, Nat.mod_eq_of_lt h0, Nat.mod_eq_of_lt h3]
  rw [dao_input_eq c node srcipaddr buffer body_len stack k d dag h_parse h_dag]
  unfold dao_route
  simp only [h_lifetime, if_false, h_unicast, Bool.false_eq_true, if_true, hloop, h_root, h_ack,
    ne_eq, not_false_eq_true, dao_ack_output, hbody]
  cases hl : uip_ds6_route_lookup node.routing_table d.prefix_addr with
  | some r =>
    obtain ⟨e, he1, he2⟩ := find_index_some _ _ _ hl
    have hrlt : r < node.routing_table.length := by
      rcases Nat.lt_or_ge r node.routing_table.length with h | h
      · exact h
      · rw [List.get?_eq_none.mpr h] at he1; cases he1
    simp only [he1]
    refine ⟨_, _, r,
      { e with lifetime := c.RPL_LIFETIME dag d.lifetime,
               learned_from := c.RPL_ROUTE_FROM_UNICAST_DAO }, rfl, ?_, ?_, rfl, rfl⟩
    · unfold uip_ds6_route_lookup at hl ⊢
      simp only []
      rw [find_index_set _ node.routing_table r e _ he1 (by rfl)]
      exact hl
    · simp [List.getElem?_set, hrlt]
  | none =>
    have hroom : node.routing_table.length < c.UIP_DS6_ROUTE_NB := by
      rcases h_alloc with h | h
      · exact absurd hl h
      · exact h
    simp only [rpl_add_route, hl, hroom, if_true]
    have hget : (node.routing_table ++
        [({ ipaddr := d.prefix_addr, length := d.prefixlen, nexthop := srcipaddr,
            lifetime := c.RPL_LIFETIME dag dag.default_lifetime, saved_lifetime := 0,
            learned_from := c.RPL_ROUTE_FROM_INTERNAL } : uip_ds6_route)]).get?
        node.routing_table.length = some
          { ipaddr := d.prefix_addr, length := d.prefixlen, nexthop := srcipaddr,
            lifetime := c.RPL_LIFETIME dag dag.default_lifetime, saved_lifetime := 0,
            learned_from := c.RPL_ROUTE_FROM_INTERNAL } := by
      simp
    simp only [hget]
    refine ⟨_, _, node.routing_table.length,
      { ipaddr := d.prefix_addr, length := d.prefixlen, nexthop := srcipaddr,
        lifetime := c.RPL_LIFETIME dag d.lifetime, saved_lifetime := 0,
        learned_from := c.RPL_ROUTE_FROM_UNICAST_DAO }, rfl, ?_, ?_, rfl, rfl⟩
    · unfold uip_ds6_route_lookup at hl ⊢
      simp only []
      rw [find_index_set _ (node.routing_table ++ _) _ _ _ hget (by rfl)]
      exact find_index_append _ _ _ hl (by simp)
    · simp [List.getElem?_set]

theorem dao_withdrawal_once_witness :
    ∃ node1 : rpl_node,
      dao_input contiki node_route0 sender_addr (of_bytes (dao_bytes 0 0)) 30 [] =
        .ok (node1, of_bytes (dao_bytes 0 0)) ∧
      node1.routing_table.get? 0 =
        some { route0 with saved_lifetime := route0.lifetime,
                           lifetime := contiki.DAO_EXPIRATION_TIMEOUT } ∧
      ∀ (src2 : uip_ipaddr_t) (buffer2 : Buffer) (len2 : Nat) (stack2 : uip_ipaddr_t)
        (k2 : Nat) (d2 : dao_msg),
        dao_parse contiki node1 buffer2 len2 stack2 = .ok (some (k2, d2)) →
        d2.lifetime = contiki.ZERO_LIFETIME → d2.prefix_addr = (dao_decoded 0 0).prefix_addr →
        dao_input contiki node1 src2 buffer2 len2 stack2 = .ok (node1, buffer2) :=
  dao_withdrawal_once contiki node_route0 sender_addr (of_bytes (dao_bytes 0 0)) 30 [] 0
    (dao_decoded 0 0) 0 route0 rfl (by decide) (by decide) (by decide) (by decide)

theorem dao_withdrawal_absent_witness :
    dao_input contiki node_dag0 sender_addr (of_bytes (dao_bytes 0 0)) 30 [] =
      .ok (node_dag0, of_bytes (dao_bytes 0 0)) :=
  dao_withdrawal_absent contiki node_dag0 sender_addr (of_bytes (dao_bytes 0 0)) 30 [] 0
    (dao_decoded 0 0) rfl (by decide) (by decide)

theorem dao_loop_rejected_witness :
    ∃ (node1 : rpl_node) (dag1 : rpl_dag),
      dao_input contiki node_parent sender_addr (of_bytes (dao_bytes 0 30)) 30 [] =
        .ok (node1, of_bytes (dao_bytes 0 30)) ∧
      node1.routing_table = node_parent.routing_table ∧ node1.sent = node_parent.sent ∧
      node1.rpl_stats = node_parent.rpl_stats ∧
      node1.dag_table.get? 0 = some dag1 ∧
      dag1.parents.get? 0 =
        some { addr := sender_addr, rank := contiki.INFINITE_RANK, updated := 1 } :=
  dao_loop_rejected contiki node_parent sender_addr (of_bytes (dao_bytes 0 30)) 30 [] 0
    (dao_decoded 0 30)
    { dag0 with parents := [{ addr := sender_addr, rank := 256, updated := 0 }] } 0
    { addr := sender_addr, rank := 256, updated := 0 }
    rfl (by decide) (by decide) (by decide) (by decide) (by decide) (by decide)

theorem dao_ack_sent_witness :
    ∃ (node1 : rpl_node) (buffer1 : Buffer) (r : Nat) (e : uip_ds6_route),
      dao_input contiki node_dag0 sender_addr (of_bytes (dao_bytes 0x80 30)) 30 [] =
        .ok (node1, buffer1) ∧
      uip_ds6_route_lookup node1.routing_table target_addr = some r ∧
      node1.routing_table.get? r = some e ∧
      e.learned_from = contiki.RPL_ROUTE_FROM_UNICAST_DAO ∧
      node1.sent = node_dag0.sent ++
        [{ dest := sender_addr, type := contiki.ICMP6_RPL, code := contiki.RPL_CODE_DAO_ACK,
           len := 4, body := [30, 0, 9, 0] }] :=
  dao_ack_sent contiki node_dag0 sender_addr (of_bytes (dao_bytes 0x80 30)) 30 [] 0
    (dao_decoded 0x80 30) dag0
    (by
      intro i
      unfold of_bytes
      by_cases h : i < 30
      · interval_cases i <;> decide
      · rw [List.getD_eq_default _ _ (by simp [dao_bytes, target_addr]; omega)]
        decide)
    rfl (by decide) (by decide) (by decide) (by decide) (by decide)
    (by intro p par h; simp [rpl_find_parent, dag0, find_index] at h)
    (Or.inr (by decide))

theorem subopt_len_pos (c : rpl_private) (buffer : Buffer) (i : Nat) :
    1 ≤ subopt_len c buffer i := by
  unfold subopt_len
  split_ifs <;> omega

theorem dio_mc_loop_frame (c : rpl_private) (buffer : Buffer) (limit : Nat) :
    ∀ (fuel j : Nat) (dio : rpl_dio) (node : rpl_node) (dio1 : rpl_dio) (node1 : rpl_node),
      dio_mc_loop c buffer limit fuel j dio node = .ok (dio1, node1) →
      node1.rpl_stats = node.rpl_stats ∧ node1.processed_dio = node.processed_dio := by
  intro fuel
  induction fuel with
  | zero => intro j dio node dio1 node1 h; simp [dio_mc_loop] at h
  | succ f ih =>
    intro j dio node dio1 node1 h
    rw [dio_mc_loop] at h
    by_cases hj : j < limit
    · rw [if_pos hj] at h
      cases ha : memb_alloc node.mc_memb with
      | none => rw [ha] at h; cases h
      | some pool =>
        rw [ha] at h
        simp only [] at h
        split_ifs at h <;> (have h5 := ih _ _ _ _ _ h; exact h5)
    · rw [if_neg hj] at h
      cases h
      exact ⟨rfl, rfl⟩

theorem dio_subopt_frame (c : rpl_private) (buffer : Buffer) (i len : Nat) (dio dio1 : rpl_dio)
    (node node1 : rpl_node)
    (h : dio_subopt c buffer i len dio node = .ok (.finished, dio1, node1)) :
    node1.rpl_stats = node.rpl_stats ∧ node1.processed_dio = node.processed_dio := by
  unfold dio_subopt at h
  simp only [] at h
  split_ifs at h
  · split at h
    · cases h
    · rename_i d2 n2 hloop
      cases h
      have h5 := dio_mc_loop_frame _ _ _ _ _ _ _ _ _ hloop
      exact h5
  all_goals first | (cases h; exact ⟨rfl, rfl⟩) | cases h

theorem dio_reaches_run (c : rpl_private) (buffer : Buffer) (len : Nat)
    (i : Nat) (dio : rpl_dio) (node : rpl_node) (j : Nat) (dio1 : rpl_dio) (node1 : rpl_node)
    (h : dio_reaches c buffer len i dio node j dio1 node1) :
    i ≤ j ∧ node1.rpl_stats = node.rpl_stats ∧ node1.processed_dio = node.processed_dio ∧
    ∀ fuel, j - i < fuel → ∃ f, dio_subopts c buffer len fuel i dio node =
      dio_subopts c buffer len (f + 1) j dio1 node1 := by
  induction h with
  | here i dio node =>
    refine ⟨Nat.le_refl _, rfl, rfl, ?_⟩
    intro fuel hf
    exact ⟨fuel - 1, by rw [Nat.sub_add_cancel (by omega)]⟩
  | next i dio node dio1 node1 j dio2 node2 hlt hstep _ ih =>
    obtain ⟨h1, h2, h3, h4⟩ := ih
    have hpos := subopt_len_pos c buffer i
    have hfr := dio_subopt_frame c buffer i _ dio dio1 node node1 hstep
    refine ⟨by omega, by rw [h2, hfr.1], by rw [h3, hfr.2], ?_⟩
    intro fuel hf
    obtain ⟨f1, rfl⟩ : ∃ f1, fuel = f1 + 1 := ⟨fuel - 1, by omega⟩
    rw [dio_subopts_next c buffer len f1 i dio dio1 node node1 hlt hstep]
    exact h4 f1 (by omega)

theorem dio_subopt_returns (c : rpl_private) (buffer : Buffer) (i : Nat) (dio : rpl_dio)
    (node : rpl_node) (h_labels : labels_distinct c)
    (h_bad : dio_subopt_malformed c buffer i) :
    ∃ dio1, dio_subopt c buffer i (subopt_len c buffer i) dio node =
      .ok (.returned, dio1, malformed_bump node) := by
  obtain ⟨h1, h2, h3, h4, h5, h6⟩ := h_labels
  unfold dio_subopt malformed_bump
  simp only []
  rcases h_bad with ⟨ht, hb⟩ | ⟨ht, hb⟩ | ⟨ht, hb⟩
  · rw [ht, if_neg (Ne.symm h1), if_pos rfl]
    by_cases h9 : subopt_len c buffer i < 9
    · rw [if_pos h9]
      exact ⟨_, rfl⟩
    · rw [if_neg h9]
      have h128 : 128 < buffer (i + 2) := by
        rcases hb with h | h
        · exact absurd h h9
        · exact h
      rw [if_neg (by omega)]
      exact ⟨_, rfl⟩
  · rw [ht, if_neg (Ne.symm h2), if_neg (Ne.symm h4), if_pos rfl, if_pos hb]
    exact ⟨_, rfl⟩
  · rw [ht, if_neg (Ne.symm h3), if_neg (Ne.symm h5), if_neg (Ne.symm h6), if_pos rfl, if_pos hb]
    exact ⟨_, rfl⟩

theorem dio_input_returns (c : rpl_private) (node : rpl_node) (srcipaddr : uip_ipaddr_t)
    (buffer : Buffer) (body_len : Nat) (stack : rpl_dio) (clock_time : Nat)
    (i : Nat) (dio : rpl_dio) (node1 : rpl_node)
    (h_labels : labels_distinct c)
    (h_reach : dio_reaches c buffer (body_len % 256) 24 (dio_base c buffer stack clock_time) node
      i dio node1)
    (h_in : i < body_len % 256)
    (h_bad : dio_subopt_malformed c buffer i) :
    dio_input c node srcipaddr buffer body_len stack clock_time = .ok (malformed_bump node1) ∧
    node1.rpl_stats = node.rpl_stats ∧ node1.processed_dio = node.processed_dio := by
  obtain ⟨h1, h2, h3, h4⟩ := dio_reaches_run c buffer _ _ _ _ _ _ _ h_reach
  obtain ⟨f, hf⟩ := h4 (body_len % 256 + 1) (by omega)
  obtain ⟨dio1, hret⟩ := dio_subopt_returns c buffer i dio node1 h_labels h_bad
  refine ⟨?_, h2, h3⟩
  unfold dio_input
  simp only []
  rw [hf, dio_subopts_return c buffer _ f i dio dio1 node1 _ h_in hret]

theorem dio_subopts_frame (c : rpl_private) (buffer : Buffer) (len : Nat) :
    ∀ (fuel i : Nat) (dio : rpl_dio) (node : rpl_node) (x : scan_exit) (dio1 : rpl_dio)
      (node1 : rpl_node),
      dio_subopts c buffer len fuel i dio node = .ok (x, dio1, node1) →
      node1.processed_dio = node.processed_dio := by
  intro fuel
  induction fuel with
  | zero => intro i dio node x dio1 node1 h; simp [dio_subopts] at h
  | succ f ih =>
    intro i dio node x dio1 node1 h
    rw [dio_subopts] at h
    by_cases hi : i < len
    · rw [if_pos hi] at h
      simp only [] at h
      cases hs : dio_subopt c buffer i (subopt_len c buffer i) dio node with
      | error e => rw [hs] at h; cases h
      | ok r =>
        obtain ⟨y, d2, n2⟩ := r
        rw [hs] at h
        cases y with
        | finished =>
          simp only [] at h
          have h5 := ih _ _ _ _ _ _ h
          rw [h5]
          exact (dio_subopt_frame c buffer i _ dio d2 node n2 hs).2
        | returned =>
          simp only [] at h
          cases h
          unfold dio_subopt at hs
          simp only [] at hs
          split_ifs at hs
          · split at hs
            · cases hs
            · cases hs
          all_goals first | (cases hs; rfl) | cases hs
    · rw [if_neg hi] at h
      cases h
      rfl

/-- C7. When the suboption scan of `dio_input` gets to a route information
suboption of total length below 9 or with a prefix length above 128, to a DAG
configuration suboption of total length other than 16, or to a prefix
information suboption of total length other than 32, the loop is left at once,
whatever follows in the body, and `dio_input` ends with the malformed-message
counter one above its value on entry. -/
theorem dio_malformed_signalled (c : rpl_private) (node : rpl_node) (srcipaddr : uip_ipaddr_t)
    (buffer : Buffer) (body_len : Nat) (stack : rpl_dio) (clock_time : Nat)
    (i : Nat) (dio : rpl_dio) (node1 : rpl_node)
    (h_labels : labels_distinct c)
    (h_reach : dio_reaches c buffer (body_len % 256) 24 (dio_base c buffer stack clock_time) node
      i dio node1)
    (h_in : i < body_len % 256)
    (h_bad : dio_subopt_malformed c buffer i) :
    (∀ fuel, ∃ dio1, dio_subopts c buffer (body_len % 256) (fuel + 1) i dio node1 =
      .ok (.returned, dio1, malformed_bump node1)) ∧
    ∃ node2, dio_input c node srcipaddr buffer body_len stack clock_time = .ok node2 ∧
      node2.rpl_stats.malformed_msgs = node.rpl_stats.malformed_msgs + 1 := by
  obtain ⟨h1, h2, _⟩ := dio_input_returns c node srcipaddr buffer body_len stack clock_time i dio
    node1 h_labels h_reach h_in h_bad
  obtain ⟨dio1, hret⟩ := dio_subopt_returns c buffer i dio node1 h_labels h_bad
  refine ⟨fun fuel => ⟨dio1, dio_subopts_return c buffer _ fuel i dio dio1 node1 _ h_in hret⟩,
    malformed_bump node1, h1, ?_⟩
  simp [malformed_bump, h2]

theorem dio_malformed_signalled_witness :
    (∀ fuel, ∃ dio1, dio_subopts contiki (of_bytes dio_short_route_info) (29 % 256) (fuel + 1) 24
        (dio_base contiki (of_bytes dio_short_route_info) dio0 0) node0 =
      .ok (.returned, dio1, malformed_bump node0)) ∧
    ∃ node2, dio_input contiki node0 sender_addr (of_bytes dio_short_route_info) 29 dio0 0 =
        .ok node2 ∧
      node2.rpl_stats.malformed_msgs = node0.rpl_stats.malformed_msgs + 1 :=
  dio_malformed_signalled contiki node0 sender_addr (of_bytes dio_short_route_info) 29 dio0 0
    24 (dio_base contiki (of_bytes dio_short_route_info) dio0 0) node0 (by decide)
    (dio_reaches.here _ _ _) (by decide) (by decide)

/-- The claim C8 as stated fails on a body whose only suboption is a route
information suboption of total length 5: `rpl_process_dio` is not called. -/
theorem dio_handed_counterexample :
    dio_subopt_malformed contiki (of_bytes dio_short_route_info) 24 ∧
    handed_count (dio_input contiki node0 sender_addr (of_bytes dio_short_route_info) 29
      dio0 0) = some 0 := by
  decide

/-- C8, as amended. When the suboption scan of `dio_input` gets to a suboption
that breaks its length rule, `dio_input` returns without calling
`rpl_process_dio`: what was decoded so far is dropped. When the scan runs to the
end of the body, `rpl_process_dio` is called exactly once, with the sender and
the decoded message. -/
theorem dio_handed_unless_malformed (c : rpl_private) (node : rpl_node)
    (srcipaddr : uip_ipaddr_t) (buffer : Buffer) (body_len : Nat) (stack : rpl_dio)
    (clock_time : Nat) (h_labels : labels_distinct c) :
    (∀ (i : Nat) (dio : rpl_dio) (node1 : rpl_node),
      dio_reaches c buffer (body_len % 256) 24 (dio_base c buffer stack clock_time) node
        i dio node1 →
      i < body_len % 256 → dio_subopt_malformed c buffer i →
      ∃ node2, dio_input c node srcipaddr buffer body_len stack clock_time = .ok node2 ∧
        node2.processed_dio = node.processed_dio) ∧
    (∀ (dio : rpl_dio) (node1 : rpl_node),
      dio_subopts c buffer (body_len % 256) (body_len % 256 + 1) 24
        (dio_base c buffer stack clock_time) node = .ok (.finished, dio, node1) →
      ∃ node2, dio_input c node srcipaddr buffer body_len stack clock_time = .ok node2 ∧
        node2.processed_dio = node.processed_dio ++ [(srcipaddr, dio)]) := by
  constructor
  · intro i dio node1 h_reach h_in h_bad
    obtain ⟨h1, _, h3⟩ := dio_input_returns c node srcipaddr buffer body_len stack clock_time i
      dio node1 h_labels h_reach h_in h_bad
    exact ⟨malformed_bump node1, h1, by simp [malformed_bump, h3]⟩
  · intro dio node1 hrun
    have hfr := dio_subopts_frame c buffer _ _ _ _ _ _ _ _ hrun
    have hin : dio_input c node srcipaddr buffer body_len stack clock_time =
        .ok { node1 with
                processed_dio := node1.processed_dio ++ [(srcipaddr, dio)]
                mc_memb := clear_dio_mc dio node1.mc_memb } := by
      unfold dio_input
      simp only []
      rw [hrun]
    exact ⟨_, hin, by simp only [hfr]⟩

theorem dio_handed_unless_malformed_witness :
    (∃ node2, dio_input contiki node0 sender_addr (of_bytes dio_short_route_info) 29 dio0 0 =
        .ok node2 ∧ node2.processed_dio = node0.processed_dio) ∧
    labels_distinct contiki :=
  ⟨(dio_handed_unless_malformed contiki node0 sender_addr (of_bytes dio_short_route_info) 29
      dio0 0 (by decide)).1 24 (dio_base contiki (of_bytes dio_short_route_info) dio0 0) node0
      (dio_reaches.here _ _ _) (by decide) (by decide),
    by decide⟩

/-- C9, evaluated on bodies that end inside a suboption header. A DIO body of
25 bytes whose last byte is the type of a DAG configuration suboption, and a DAO
body of 5 bytes whose last byte is the type of a transit suboption: two
payload memories that agree on every byte of the body and differ only past its
end give different results, so `dio_input` and `dao_input` read past the body
length; the suboption that runs past the end is parsed, not rejected. -/
theorem subopt_read_past_body :
    (∀ i, i < 25 → dio_cut_short [14, 0, 8, 12, 10] i = dio_cut_short [0] i) ∧
    handed_count (dio_input contiki node0 sender_addr (dio_cut_short [14, 0, 8, 12, 10]) 25
      dio0 0) = some 1 ∧
    handed_count (dio_input contiki node0 sender_addr (dio_cut_short [0]) 25 dio0 0) = some 0 ∧
    (∀ i, i < 5 → dao_cut_short [4, 0, 0, 0, 30] i = dao_cut_short [4, 0, 0, 0, 0] i) ∧
    (dao_input contiki node_dag0 sender_addr (dao_cut_short [4, 0, 0, 0, 30]) 5
      target_addr).toOption.map (fun r => r.1.routing_table.length) = some 1 ∧
    (dao_input contiki node_dag0 sender_addr (dao_cut_short [4, 0, 0, 0, 0]) 5
      target_addr).toOption.map (fun r => r.1.routing_table.length) = some 0 := by
  decide

/-- C10, evaluated on a DIO whose metric container holds seven entries, received
with all six blocks of the pool free: the seventh `memb_alloc` returns the null
pointer, which `dio_input` writes through. The same happens with a single entry
when no block is free. -/
theorem dio_pool_exhausted :
    fault_of (dio_loopback contiki dag_seven_entries) = some Fault.null_dereference ∧
    fault_of (dio_input contiki { node0 with mc_memb := { num := 6, used := 6 } } sender_addr
      (dio_output_body contiki of_keep node0 dag_one_latency zeros).2.1
      (dio_output_body contiki of_keep node0 dag_one_latency zeros).2.2 dio0 0) =
      some Fault.null_dereference := by
  decide

theorem payload_get (b : Buffer) (n i : Nat) (h : i < n) : (payload b n).get? i = some (b i) := by
  simp [payload, List.getElem?_range h]

theorem payload_length (b : Buffer) (n : Nat) : (payload b n).length = n := by
  simp [payload]

theorem dao_output_body_pos (c : rpl_private) (dao_ack : Bool) (dag : rpl_dag)
    (sequence : Nat) (addr : uip_ipaddr_t) (lifetime : Nat) (buffer : Buffer) :
    (dao_output_body c dao_ack dag sequence addr lifetime buffer).2 = 30 := rfl

theorem dao_output_body_head (c : rpl_private) (dao_ack : Bool) (dag : rpl_dag)
    (sequence : Nat) (addr : uip_ipaddr_t) (lifetime : Nat) (buffer : Buffer) :
    (dao_output_body c dao_ack dag sequence addr lifetime buffer).1 0 = dag.instance_id % 256 ∧
    (dao_output_body c dao_ack dag sequence addr lifetime buffer).1 1 =
      (if dao_ack then c.RPL_DAO_K_FLAG else 0) % 256 ∧
    (dao_output_body c dao_ack dag sequence addr lifetime buffer).1 3 = sequence % 256 := by
  unfold dao_output_body
  simp [put, memcpy_to, and_ff]

theorem dao_output_cases (c : rpl_private) (u : uip_ds6_private) (dao_ack : Bool)
    (addr_list : List uip_ds6_addr) (node : rpl_node) (n : Option (Nat × Nat))
    (lifetime : Nat) (buffer : Buffer) :
    (∃ msg : icmp6_msg,
      (dao_output c u dao_ack addr_list node n lifetime buffer).1.sent = node.sent ++ [msg] ∧
      msg.code = c.RPL_CODE_DAO ∧
      (dao_output c u dao_ack addr_list node n lifetime buffer).1.dao_sequence =
        (node.dao_sequence + 1) % 256 ∧
      msg.body.get? 3 = some ((node.dao_sequence + 1) % 256)) ∨
    dao_output c u dao_ack addr_list node n lifetime buffer = (node, buffer) := by
  unfold dao_output
  cases get_global_addr u addr_list with
  | none => right; rfl
  | some addr =>
    cases dao_output_target c node n with
    | none => right; rfl
    | some t =>
      obtain ⟨dag, dest⟩ := t
      left
      refine ⟨_, rfl, rfl, rfl, ?_⟩
      simp only []
      rw [dao_output_body_pos, payload_get _ _ _ (by omega),
        (dao_output_body_head _ _ _ _ _ _ _).2.2]
      simp

theorem dao_output_none (c : rpl_private) (u : uip_ds6_private) (dao_ack : Bool)
    (addr_list : List uip_ds6_addr) (node : rpl_node) (n : Option (Nat × Nat))
    (lifetime : Nat) (buffer : Buffer)
    (h : get_global_addr u addr_list = none ∨ dao_output_target c node n = none) :
    dao_output c u dao_ack addr_list node n lifetime buffer = (node, buffer) := by
  unfold dao_output
  rcases h with h | h
  · rw [h]
  · rw [h]
    cases get_global_addr u addr_list <;> rfl

theorem dao_output_some (c : rpl_private) (u : uip_ds6_private) (dao_ack : Bool)
    (addr_list : List uip_ds6_addr) (node : rpl_node) (n : Option (Nat × Nat))
    (lifetime : Nat) (buffer : Buffer) (addr : uip_ipaddr_t) (dag : rpl_dag)
    (dest : uip_ipaddr_t) (h1 : get_global_addr u addr_list = some addr)
    (h2 : dao_output_target c node n = some (dag, dest)) :
    dao_output c u dao_ack addr_list node n lifetime buffer =
      ({ node with
          dao_sequence := (node.dao_sequence + 1) % 256
          sent := node.sent ++
            [{ dest := dest, type := c.ICMP6_RPL, code := c.RPL_CODE_DAO, len := 30,
               body := payload (dao_output_body c dao_ack dag ((node.dao_sequence + 1) % 256)
                 addr lifetime buffer).1 30 }] },
       (dao_output_body c dao_ack dag ((node.dao_sequence + 1) % 256) addr lifetime
         buffer).1) := by
  unfold dao_output
  simp only [h1, h2]
  rfl

theorem dao_target_none (c : rpl_private) (node : rpl_node)
    (h : rpl_get_dag_any node = none) : dao_output_target c node none = none := by
  unfold dao_output_target
  simp only [h]

/-- C19. A `dao_output` call that finds no global address, or no DAG to send
for (with the null parent: no joined DAG), sends nothing and leaves the node,
the DAO sequence counter included, and the payload memory as they were. Every
other call sends exactly one DAO: the counter goes up by exactly 1 modulo 256,
byte 3 of the body holds the new counter value, and nothing else of the node
changes. Hence two DAOs sent one after the other carry sequence numbers that
differ by 1 modulo 256. -/
theorem dao_output_sequence (c : rpl_private) (u : uip_ds6_private) (dao_ack : Bool)
    (addr_list : List uip_ds6_addr) (node : rpl_node) (n : Option (Nat × Nat))
    (lifetime : Nat) (buffer : Buffer) :
    (get_global_addr u addr_list = none →
      dao_output c u dao_ack addr_list node n lifetime buffer = (node, buffer)) ∧
    (dao_output_target c node n = none →
      dao_output c u dao_ack addr_list node n lifetime buffer = (node, buffer)) ∧
    (n = none → rpl_get_dag_any node = none →
      dao_output c u dao_ack addr_list node n lifetime buffer = (node, buffer)) ∧
    (∀ (addr : uip_ipaddr_t) (dag : rpl_dag) (dest : uip_ipaddr_t),
      get_global_addr u addr_list = some addr →
      dao_output_target c node n = some (dag, dest) →
      (dao_output c u dao_ack addr_list node n lifetime buffer).1 =
        { node with
            dao_sequence := (node.dao_sequence + 1) % 256
            sent := node.sent ++
              [{ dest := dest, type := c.ICMP6_RPL, code := c.RPL_CODE_DAO, len := 30,
                 body := payload (dao_output c u dao_ack addr_list node n lifetime buffer).2
                   30 }] } ∧
      (dao_output c u dao_ack addr_list node n lifetime buffer).2 3 =
        (node.dao_sequence + 1) % 256 ∧
      (payload (dao_output c u dao_ack addr_list node n lifetime buffer).2 30).get? 3 =
        some ((node.dao_sequence + 1) % 256)) ∧
    ∀ (ack2 : Bool) (list2 : List uip_ds6_addr) (n2 : Option (Nat × Nat)) (lifetime2 : Nat)
      (msg1 msg2 : icmp6_msg),
      (dao_output c u dao_ack addr_list node n lifetime buffer).1.sent = node.sent ++ [msg1] →
      (dao_output c u ack2 list2 (dao_output c u dao_ack addr_list node n lifetime buffer).1 n2
          lifetime2 (dao_output c u dao_ack addr_list node n lifetime buffer).2).1.sent =
        (dao_output c u dao_ack addr_list node n lifetime buffer).1.sent ++ [msg2] →
      ∃ s, msg1.body.get? 3 = some s ∧ msg2.body.get? 3 = some ((s + 1) % 256) := by
  refine ⟨fun h => dao_output_none _ _ _ _ _ _ _ _ (Or.inl h),
    fun h => dao_output_none _ _ _ _ _ _ _ _ (Or.inr h), ?_, ?_, ?_⟩
  · intro hn hd
    subst hn
    exact dao_output_none _ _ _ _ _ _ _ _ (Or.inr (dao_target_none c node hd))
  · intro addr dag dest h1 h2
    rw [dao_output_some c u dao_ack addr_list node n lifetime buffer addr dag dest h1 h2]
    have h3 := (dao_output_body_head c dao_ack dag ((node.dao_sequence + 1) % 256) addr
      lifetime buffer).2.2
    rw [Nat.mod_mod] at h3
    refine ⟨rfl, h3, ?_⟩
    simp only []
    rw [payload_get _ _ _ (by omega), h3]
  · intro ack2 list2 n2 lifetime2 msg1 msg2 h1 h2
    rcases dao_output_cases c u dao_ack addr_list node n lifetime buffer with
      ⟨m1, a1, _, a3, a4⟩ | hno
    · rcases dao_output_cases c u ack2 list2
        (dao_output c u dao_ack addr_list node n lifetime buffer).1 n2 lifetime2
        (dao_output c u dao_ack addr_list node n lifetime buffer).2 with
        ⟨m2, b1, _, _, b4⟩ | hno2
      · have e1 : m1 = msg1 := by
          rw [a1] at h1
          simpa using h1
        have e2 : m2 = msg2 := by
          rw [b1] at h2
          simpa using h2
        subst e1 e2
        refine ⟨_, a4, ?_⟩
        rw [b4, a3]
      · rw [hno2] at h2
        have := congrArg List.length h2
        simp at this
    · rw [hno] at h1
      have := congrArg List.length h1
      simp at this

theorem dao_output_sequence_witness :
    get_global_addr contiki_ds6 addr_list0 = some target_addr ∧
    dao_output_target contiki { node_dag0 with dao_sequence := 255 } none =
      some (dag0, contiki.linklocal_rplnodes_mcast) ∧
    (dao_output contiki contiki_ds6 true addr_list0 { node_dag0 with dao_sequence := 255 } none
      30 zeros).1.dao_sequence = 0 ∧
    (dao_output contiki contiki_ds6 true addr_list0 node_dag0 none 30 zeros).1.dao_sequence =
      1 ∧
    (dao_output contiki contiki_ds6 true addr_list0 node_dag0 none 30 zeros).1.sent.map
      (fun m => (m.dest, m.code, m.len, m.body.get? 3)) =
      [(contiki.linklocal_rplnodes_mcast, contiki.RPL_CODE_DAO, 30, some 1)] ∧
    (dao_output contiki contiki_ds6 true addr_list0
      (dao_output contiki contiki_ds6 true addr_list0 node_dag0 none 30 zeros).1 none 30
      (dao_output contiki contiki_ds6 true addr_list0 node_dag0 none 30 zeros).2).1.sent.map
      (fun m => m.body.get? 3) = [some 1, some 2] ∧
    (dao_output contiki contiki_ds6 true [] node_dag0 none 30 zeros).1.sent = [] ∧
    (dao_output contiki contiki_ds6 true addr_list0 node0 none 30 zeros).1.sent = [] ∧
    ((dao_output contiki contiki_ds6 true addr_list0 { node_dag0 with dao_sequence := 255 }
        none 30 zeros).1 =
      { ({ node_dag0 with dao_sequence := 255 } : rpl_node) with
          dao_sequence := (255 + 1) % 256
          sent := node_dag0.sent ++
            [{ dest := contiki.linklocal_rplnodes_mcast, type := contiki.ICMP6_RPL,
               code := contiki.RPL_CODE_DAO, len := 30,
               body := payload (dao_output contiki contiki_ds6 true addr_list0
                 { node_dag0 with dao_sequence := 255 } none 30 zeros).2 30 }] } ∧
      (dao_output contiki contiki_ds6 true addr_list0 { node_dag0 with dao_sequence := 255 }
        none 30 zeros).2 3 = (255 + 1) % 256 ∧
      (payload (dao_output contiki contiki_ds6 true addr_list0
        { node_dag0 with dao_sequence := 255 } none 30 zeros).2 30).get? 3 =
        some ((255 + 1) % 256)) :=
  ⟨rfl, rfl, by decide, by decide, by decide, by decide, by decide, by decide,
    (dao_output_sequence contiki contiki_ds6 true addr_list0
      { node_dag0 with dao_sequence := 255 } none 30 zeros).2.2.2.1 target_addr dag0
      contiki.linklocal_rplnodes_mcast rfl rfl⟩

theorem memcpy_from_all (dst : List Nat) (b : Buffer) (p : Nat) (src : List Nat)
    (hl : src.length = 16) (h : ∀ k, k < 16 → b (p + k) = src.getD k 0) :
    memcpy_from dst b p 16 = src := by
  unfold memcpy_from
  simp only [Nat.sub_self, List.take_zero, List.append_nil]
  apply List.ext_getElem
  · simp [hl]
  · intro k hk1 hk2
    simp only [List.length_map, List.length_range] at hk1
    simp only [List.getElem_map, List.getElem_range]
    rw [h k hk1, List.getD_eq_getElem _ _ hk2]

theorem dao_output_body_bytes (c : rpl_private) (dao_ack : Bool) (dag : rpl_dag)
    (sequence : Nat) (addr : uip_ipaddr_t) (lifetime : Nat) (buffer : Buffer) :
    (dao_output_body c dao_ack dag sequence addr lifetime buffer).1 4 =
      c.RPL_DIO_SUBOPT_TARGET % 256 ∧
    (dao_output_body c dao_ack dag sequence addr lifetime buffer).1 5 = 18 ∧
    (dao_output_body c dao_ack dag sequence addr lifetime buffer).1 7 = 128 ∧
    (dao_output_body c dao_ack dag sequence addr lifetime buffer).1 24 =
      c.RPL_DIO_SUBOPT_TRANSIT % 256 ∧
    (dao_output_body c dao_ack dag sequence addr lifetime buffer).1 25 = 4 ∧
    (dao_output_body c dao_ack dag sequence addr lifetime buffer).1 29 = lifetime % 256 ∧
    ∀ k, k < 16 →
      (dao_output_body c dao_ack dag sequence addr lifetime buffer).1 (8 + k) =
        addr.getD k 0 % 256 := by
  unfold dao_output_body
  refine ⟨by simp [put, memcpy_to], by simp [put, memcpy_to], by simp [put, memcpy_to],
    by simp [put, memcpy_to], by simp [put, memcpy_to], by simp [put, memcpy_to], ?_⟩
  intro k hk
  have h0 : ¬ 8 + k = 29 := by omega
  have h1 : ¬ 8 + k = 28 := by omega
  have h2 : ¬ 8 + k = 27 := by omega
  have h3 : ¬ 8 + k = 26 := by omega
  have h4 : ¬ 8 + k = 25 := by omega
  have h5 : ¬ 8 + k = 24 := by omega
  have h6 : 8 ≤ 8 + k ∧ 8 + k < 8 + 16 := by omega
  simp [put, memcpy_to, h0, h1, h2, h3, h4, h5, h6]

theorem dao_subopts_end (c : rpl_private) (b : Buffer) (len fuel i : Nat) (d : dao_msg)
    (h : len ≤ i) : dao_subopts c b len (fuel + 1) i d = .ok d := by
  rw [dao_subopts, if_neg (by omega)]

theorem dao_subopts_target (c : rpl_private) (b : Buffer) (len fuel i : Nat) (d : dao_msg)
    (h : i < len) (ht : b i = c.RPL_DIO_SUBOPT_TARGET) (hp : (b (i + 3) + 7) / 8 ≤ 16) :
    dao_subopts c b len (fuel + 1) i d =
      dao_subopts c b len fuel (i + subopt_len c b i)
        { d with prefixlen := b (i + 3)
                 prefix_addr := memcpy_from (List.replicate 16 0) b (i + 4)
                   ((b (i + 3) + 7) / 8) } := by
  rw [dao_subopts, if_pos h]
  simp only [ht, if_true]
  rw [if_neg (by omega)]

theorem dao_subopts_transit (c : rpl_private) (b : Buffer) (len fuel i : Nat) (d : dao_msg)
    (h : i < len) (hn : b i ≠ c.RPL_DIO_SUBOPT_TARGET) (ht : b i = c.RPL_DIO_SUBOPT_TRANSIT) :
    dao_subopts c b len (fuel + 1) i d =
      dao_subopts c b len fuel (i + subopt_len c b i) { d with lifetime := b (i + 5) } := by
  rw [dao_subopts, if_pos h]
  simp only []
  rw [if_neg hn, if_pos ht]

/-- C14. For every node with a global address of 16 bytes and a DAG to send
for, and every lifetime below 256, `dao_output` sends a body of exactly 30
bytes: the 4-byte header, a Target suboption of 20 bytes and a Transit
suboption of 6 bytes; the parse of `dao_input` on a receiver that runs the
instance gives back the instance id, the sequence byte, prefix length 128, the
global address as target prefix, and the lifetime. -/
theorem dao_parse_of_dao_output (c : rpl_private) (u : uip_ds6_private) (dao_ack : Bool)
    (addr_list : List uip_ds6_addr) (sender : rpl_node) (n : Option (Nat × Nat))
    (lifetime : Nat) (buffer : Buffer) (addr : uip_ipaddr_t) (dag : rpl_dag)
    (dest : uip_ipaddr_t) (node : rpl_node) (rx : Buffer) (stack : uip_ipaddr_t) (k : Nat)
    (h_types : dao_types_ok c)
    (h_addr : get_global_addr u addr_list = some addr)
    (h_len : addr.length = 16) (h_bytes : ∀ x ∈ addr, x < 256)
    (h_dag : dao_output_target c sender n = some (dag, dest))
    (h_instance : dag.instance_id < 256) (h_lifetime : lifetime < 256)
    (h_get : rpl_get_dag node dag.instance_id = some k)
    (h_rx : delivered (dao_output c u dao_ack addr_list sender n lifetime buffer).2 30 rx) :
    ∃ msg : icmp6_msg,
      (dao_output c u dao_ack addr_list sender n lifetime buffer).1.sent =
        sender.sent ++ [msg] ∧
      msg.len = 30 ∧ msg.body.length = 30 ∧
      msg.body.get? 4 = some c.RPL_DIO_SUBOPT_TARGET ∧ msg.body.get? 5 = some 18 ∧
      msg.body.get? 24 = some c.RPL_DIO_SUBOPT_TRANSIT ∧ msg.body.get? 25 = some 4 ∧
      dao_parse c node rx 30 stack = .ok (some (k,
        { instance_id := dag.instance_id
          flags := (if dao_ack then c.RPL_DAO_K_FLAG else 0) % 256
          sequence := (sender.dao_sequence + 1) % 256
          prefixlen := 128
          prefix_addr := addr
          lifetime := lifetime })) := by
  obtain ⟨t1, t2, t3, t4, t5, t6⟩ := h_types
  have hout : dao_output c u dao_ack addr_list sender n lifetime buffer =
      ({ sender with
          dao_sequence := (sender.dao_sequence + 1) % 256
          sent := sender.sent ++
            [{ dest := dest, type := c.ICMP6_RPL, code := c.RPL_CODE_DAO, len := 30,
               body := payload (dao_output_body c dao_ack dag
                 ((sender.dao_sequence + 1) % 256) addr lifetime buffer).1 30 }] },
        (dao_output_body c dao_ack dag ((sender.dao_sequence + 1) % 256) addr lifetime
          buffer).1) := by
    unfold dao_output
    simp only [h_addr, h_dag]
    rfl
  rw [hout] at h_rx ⊢
  simp only [] at h_rx
  generalize hseq : (sender.dao_sequence + 1) % 256 = seq at h_rx ⊢
  have hseq_lt : seq < 256 := by rw [← hseq]; exact Nat.mod_lt _ (by norm_num)
  obtain ⟨b0, b1, b3⟩ := dao_output_body_head c dao_ack dag seq addr lifetime buffer
  obtain ⟨b4, b5, b7, b24, b25, b29, baddr⟩ :=
    dao_output_body_bytes c dao_ack dag seq addr lifetime buffer
  rw [Nat.mod_eq_of_lt h_instance] at b0
  rw [Nat.mod_eq_of_lt hseq_lt] at b3
  rw [Nat.mod_eq_of_lt t1] at b4
  rw [Nat.mod_eq_of_lt t2] at b24
  rw [Nat.mod_eq_of_lt h_lifetime] at b29
  generalize (dao_output_body c dao_ack dag seq addr lifetime buffer).1 = tx at *
  have r0 : rx 0 = dag.instance_id := by rw [h_rx 0 (by omega)]; exact b0
  have r1 : rx 1 = (if dao_ack then c.RPL_DAO_K_FLAG else 0) % 256 := by
    rw [h_rx 1 (by omega)]; exact b1
  have r3 : rx 3 = seq := by rw [h_rx 3 (by omega)]; exact b3
  have r4 : rx 4 = c.RPL_DIO_SUBOPT_TARGET := by rw [h_rx 4 (by omega)]; exact b4
  have r5 : rx (4 + 1) = 18 := by rw [h_rx 5 (by omega)]; exact b5
  have r7 : rx (4 + 3) = 128 := by rw [h_rx 7 (by omega)]; exact b7
  have r24 : rx 24 = c.RPL_DIO_SUBOPT_TRANSIT := by rw [h_rx 24 (by omega)]; exact b24
  have r25 : rx (24 + 1) = 4 := by rw [h_rx 25 (by omega)]; exact b25
  have r29 : rx (24 + 5) = lifetime := by rw [h_rx 29 (by omega)]; exact b29
  have raddr : memcpy_from (List.replicate 16 0) rx (4 + 4) 16 = addr := by
    apply memcpy_from_all _ _ _ _ h_len
    intro j hj
    have hx : addr.getD j 0 < 256 := by
      rw [List.getD_eq_getElem _ _ (by omega)]
      exact h_bytes _ (List.getElem_mem _)
    rw [h_rx (4 + 4 + j) (by omega), show 4 + 4 + j = 8 + j by omega, baddr j hj,
      Nat.mod_eq_of_lt hx]
  have hflag : ¬ ((if dao_ack then c.RPL_DAO_K_FLAG else 0) % 256 &&& c.RPL_DAO_D_FLAG ≠ 0) := by
    cases dao_ack
    · simp
    · simpa using t6
  have l4 : subopt_len c rx 4 = 20 := by
    unfold subopt_len
    rw [r4, if_neg t3, r5]
  have l24 : subopt_len c rx 24 = 6 := by
    unfold subopt_len
    rw [r24, if_neg t4, r25]
  obtain ⟨dag_rx, hk, _⟩ := find_index_some _ _ _ h_get
  refine ⟨_, rfl, rfl, payload_length _ _, ?_, ?_, ?_, ?_, ?_⟩
  · simp only []; rw [payload_get _ _ _ (by omega), b4]
  · simp only []; rw [payload_get _ _ _ (by omega), b5]
  · simp only []; rw [payload_get _ _ _ (by omega), b24]
  · simp only []; rw [payload_get _ _ _ (by omega), b25]
  · unfold dao_parse
    simp only [r0, h_get, hk, r1, r3, hflag, if_false]
    have e30 : 30 % 256 = 30 := rfl
    rw [e30, dao_subopts_target c rx 30 30 4 _ (by omega) r4 (by rw [r7]), l4, r7]
    rw [dao_subopts_transit c rx 30 29 (4 + 20) _ (by omega) (by rw [r24]; exact t5) r24, l24,
      r29, dao_subopts_end _ _ _ _ _ _ (by omega)]
    simp only [raddr]

theorem dao_parse_of_dao_output_witness :
    dao_types_ok contiki ∧
    get_global_addr contiki_ds6 addr_list0 = some target_addr ∧
    dao_output_target contiki node_dag0 none = some (dag0, contiki.linklocal_rplnodes_mcast) ∧
    rpl_get_dag node_dag0 dag0.instance_id = some 0 ∧
    ∃ msg : icmp6_msg,
      (dao_output contiki contiki_ds6 true addr_list0 node_dag0 none 30 zeros).1.sent =
        node_dag0.sent ++ [msg] ∧
      msg.len = 30 ∧ msg.body.length = 30 ∧
      msg.body.get? 4 = some contiki.RPL_DIO_SUBOPT_TARGET ∧ msg.body.get? 5 = some 18 ∧
      msg.body.get? 24 = some contiki.RPL_DIO_SUBOPT_TRANSIT ∧ msg.body.get? 25 = some 4 ∧
      dao_parse contiki node_dag0
          (dao_output contiki contiki_ds6 true addr_list0 node_dag0 none 30 zeros).2 30 [] =
        .ok (some (0,
          { instance_id := dag0.instance_id
            flags := (if true = true then contiki.RPL_DAO_K_FLAG else 0) % 256
            sequence := (node_dag0.dao_sequence + 1) % 256
            prefixlen := 128
            prefix_addr := target_addr
            lifetime := 30 })) :=
  ⟨by decide, rfl, rfl, rfl,
    dao_parse_of_dao_output contiki contiki_ds6 true addr_list0 node_dag0 none 30 zeros
      target_addr dag0 contiki.linklocal_rplnodes_mcast node_dag0
      (dao_output contiki contiki_ds6 true addr_list0 node_dag0 none 30 zeros).2 [] 0
      (by decide) rfl rfl (by decide) rfl (by decide) (by decide) rfl (fun _ _ => rfl)⟩

theorem dio_output_mc_offset (c : rpl_private) (of : rpl_of) (node : rpl_node)
    (dag : rpl_dag) (b : Buffer) :
    (dio_output_mc c of node (dio_output_base dag b).1 (dio_output_base dag b).2.1 24).2.2 =
      dio_conf_offset c dag (dio_output_body c of node dag b).1 := by
  have hb : (dio_output_base dag b).1.mcs = dag.mcs := rfl
  have hr : (dio_output_body c of node dag b).1 =
      (dio_output_mc c of node (dio_output_base dag b).1 (dio_output_base dag b).2.1 24).1 := rfl
  unfold dio_conf_offset
  by_cases h : dag.mcs = []
  · rw [if_pos h, dio_output_mc_empty _ _ _ _ _ _ (by rw [hb]; exact h)]
  · rw [if_neg h, hr]
    obtain ⟨h1, h2, _⟩ := dio_output_mc_nonempty c of node (dio_output_base dag b).1
      (dio_output_base dag b).2.1 (by rw [hb]; exact h)
    rw [h2, h1]
    omega

theorem dio_output_body_layout (c : rpl_private) (of : rpl_of) (node : rpl_node) (dag : rpl_dag)
    (uc_addr : Option uip_ipaddr_t) (b : Buffer) :
    (∀ i, i < 24 →
      (dio_output_body c of node dag b).2.1 i = (dio_output_base dag b).2.1 i) ∧
    (dag.mcs ≠ [] →
      (dio_output_body c of node dag b).2.1 24 =
        c.RPL_DIO_SUBOPT_DAG_METRIC_CONTAINER % 256 ∧
      (dio_output_body c of node dag b).2.1 25 =
        (6 * (dio_output_body c of node dag b).1.mcs.length + 12 + 2) % 256) ∧
    (dag.mcs = [] → dio_conf_offset c dag (dio_output_body c of node dag b).1 = 24) ∧
    (dio_output_body c of node dag b).2.1
        (dio_conf_offset c dag (dio_output_body c of node dag b).1) =
      c.RPL_DIO_SUBOPT_DAG_CONF % 256 ∧
    (dio_output_body c of node dag b).2.1
        (dio_conf_offset c dag (dio_output_body c of node dag b).1 + 1) = 14 ∧
    ((dio_output_body c of node dag b).1.prefix_info.length > 0 →
      (dio_output_body c of node dag b).2.1
          (dio_conf_offset c dag (dio_output_body c of node dag b).1 + 16) =
        c.RPL_DIO_SUBOPT_PREFIX_INFO % 256 ∧
      (dio_output_body c of node dag b).2.1
          (dio_conf_offset c dag (dio_output_body c of node dag b).1 + 17) = 30 ∧
      (dio_output_body c of node dag b).2.2 =
        dio_conf_offset c dag (dio_output_body c of node dag b).1 + 16 + 32) ∧
    (¬ (dio_output_body c of node dag b).1.prefix_info.length > 0 →
      (dio_output_body c of node dag b).2.2 =
        dio_conf_offset c dag (dio_output_body c of node dag b).1 + 16) ∧
    (dag.mcs = [] →
      (dio_output_body c of node dag b).1.prefix_info = dag.prefix_info ∧
      (dio_output_body c of node dag b).2.2 = if dag.prefix_info.length > 0 then 72 else 40) ∧
    ∃ msg : icmp6_msg,
      (dio_output c of node dag uc_addr b).1.sent = node.sent ++ [msg] ∧
      msg.len = (dio_output_body c of node dag b).2.2 ∧
      msg.body = payload (dio_output_body c of node dag b).2.1
        (dio_output_body c of node dag b).2.2 := by
  have hM := dio_output_mc_offset c of node dag b
  have hb : (dio_output_base dag b).1.mcs = dag.mcs := rfl
  have hbody : dio_output_body c of node dag b =
      ((dio_output_mc c of node (dio_output_base dag b).1 (dio_output_base dag b).2.1 24).1,
       (dio_output_prefix_info c
         (dio_output_mc c of node (dio_output_base dag b).1 (dio_output_base dag b).2.1 24).1
         (dio_output_conf c
           (dio_output_mc c of node (dio_output_base dag b).1 (dio_output_base dag b).2.1 24).1
           (dio_output_mc c of node (dio_output_base dag b).1 (dio_output_base dag b).2.1
             24).2.1
           (dio_output_mc c of node (dio_output_base dag b).1 (dio_output_base dag b).2.1
             24).2.2).1
         ((dio_output_mc c of node (dio_output_base dag b).1 (dio_output_base dag b).2.1
             24).2.2 + 16))) := rfl
  have hr1 : (dio_output_body c of node dag b).1 =
      (dio_output_mc c of node (dio_output_base dag b).1 (dio_output_base dag b).2.1 24).1 := rfl
  rw [← hr1] at hbody
  rw [hM] at hbody
  generalize dio_conf_offset c dag (dio_output_body c of node dag b).1 = P at hM hbody ⊢
  have hP : 24 ≤ P := by
    rw [← hM]; exact dio_output_mc_pos _ _ _ _ _ _
  generalize hd1 : (dio_output_body c of node dag b).1 = dag1 at hbody hr1 ⊢
  generalize hm : (dio_output_mc c of node (dio_output_base dag b).1 (dio_output_base dag b).2.1
      24).2.1 = mb at hbody
  have hbuf : (dio_output_body c of node dag b).2.1 =
      (dio_output_prefix_info c dag1 (dio_output_conf c dag1 mb P).1 (P + 16)).1 := by
    rw [hbody]
  have hpos : (dio_output_body c of node dag b).2.2 =
      (dio_output_prefix_info c dag1 (dio_output_conf c dag1 mb P).1 (P + 16)).2 := by
    rw [hbody]
  obtain ⟨k1, k2⟩ := dio_output_conf_bytes c dag1 mb P
  have low : ∀ i, i < P → (dio_output_body c of node dag b).2.1 i = mb i := by
    intro i hi
    rw [hbuf, dio_output_prefix_info_out _ _ _ _ _ (by omega),
      dio_output_conf_out _ _ _ _ _ hi]
  refine ⟨fun i hi => dio_output_body_base c of node dag b i hi, ?_, ?_, ?_, ?_, ?_, ?_, ?_,
    ⟨_, rfl, rfl, rfl⟩⟩
  · intro h
    obtain ⟨h1, h2, h3, h4, _⟩ := dio_output_mc_nonempty c of node (dio_output_base dag b).1
      (dio_output_base dag b).2.1 (by rw [hb]; exact h)
    have hP38 : 38 ≤ P := by rw [← hM, h2]; omega
    rw [low 24 (by omega), low 25 (by omega), ← hm, h3, h4, hr1, h1]
    exact ⟨rfl, rfl⟩
  · intro h
    rw [← hM, dio_output_mc_empty _ _ _ _ _ _ (by rw [hb]; exact h)]
  · rw [hbuf, dio_output_prefix_info_out _ _ _ _ _ (by omega)]; exact k1
  · rw [hbuf, dio_output_prefix_info_out _ _ _ _ _ (by omega)]; exact k2
  · intro h
    obtain ⟨p1, p2, p3⟩ := dio_output_prefix_info_bytes c dag1
      (dio_output_conf c dag1 mb P).1 (P + 16) h
    rw [hbuf, hpos]
    exact ⟨p2, p3, p1⟩
  · intro h
    rw [hpos]
    unfold dio_output_prefix_info
    rw [if_neg h]
  · intro h
    have hd : dag1.prefix_info = dag.prefix_info := by
      rw [hr1, dio_output_mc_empty _ _ _ _ _ _ (by rw [hb]; exact h)]
      rfl
    have hP24 : P = 24 := by
      rw [← hM, dio_output_mc_empty _ _ _ _ _ _ (by rw [hb]; exact h)]
    refine ⟨hd, ?_⟩
    rw [hpos, hP24]
    unfold dio_output_prefix_info
    rw [hd]
    by_cases hp : dag.prefix_info.length > 0
    · rw [if_pos hp, if_pos hp]
    · rw [if_neg hp, if_neg hp]

theorem dio_output_base_bytes (dag : rpl_dag) (b : Buffer) :
    (dio_output_base dag b).2.1 0 = dag.instance_id % 256 ∧
    (dio_output_base dag b).2.1 1 = dag.version % 256 ∧
    (dio_output_base dag b).2.1 2 = (dag.rank >>> 8) % 256 ∧
    (dio_output_base dag b).2.1 3 = dag.rank % 256 ∧
    (dio_output_base dag b).2.1 4 = (dag.mop <<< RPL_DIO_MOP_SHIFT) % 256 ∧
    (dio_output_base dag b).2.1 5 = (dag.dtsn_out + 1) % 256 ∧
    (dio_output_base dag b).2.1 6 = 0 ∧
    (dio_output_base dag b).2.1 7 = 0 ∧
    ∀ k, k < 16 → (dio_output_base dag b).2.1 (8 + k) = dag.dag_id.getD k 0 % 256 := by
  unfold dio_output_base
  refine ⟨?_, ?_, ?_, ?_, ?_, ?_, ?_, ?_, ?_⟩
  · by_cases hg : dag.grounded = 0 <;> simp [put, memcpy_to, hg]
  · by_cases hg : dag.grounded = 0 <;> simp [put, memcpy_to, hg]
  · by_cases hg : dag.grounded = 0 <;> simp [put, memcpy_to, hg]
  · by_cases hg : dag.grounded = 0 <;> simp [put, memcpy_to, hg, and_ff]
  · by_cases hg : dag.grounded = 0 <;> simp [put, memcpy_to, hg]
  · by_cases hg : dag.grounded = 0 <;> simp [put, memcpy_to, hg]
  · by_cases hg : dag.grounded = 0 <;> simp [put, memcpy_to, hg]
  · by_cases hg : dag.grounded = 0 <;> simp [put, memcpy_to, hg]
  · intro k hk
    have h1 : 8 ≤ 8 + k ∧ 8 + k < 8 + 16 := by omega
    by_cases hg : dag.grounded = 0 <;> simp [put, memcpy_to, hg, h1]

theorem dio_output_conf_body (c : rpl_private) (dag : rpl_dag) (b : Buffer) (p : Nat) :
    (dio_output_conf c dag b p).1 (p + 2) = 0 ∧
    (dio_output_conf c dag b p).1 (p + 3) = dag.dio_intdoubl % 256 ∧
    (dio_output_conf c dag b p).1 (p + 4) = dag.dio_intmin % 256 ∧
    (dio_output_conf c dag b p).1 (p + 5) = dag.dio_redundancy % 256 ∧
    (dio_output_conf c dag b p).1 (p + 6) = (dag.max_rankinc >>> 8) % 256 ∧
    (dio_output_conf c dag b p).1 (p + 7) = dag.max_rankinc % 256 ∧
    (dio_output_conf c dag b p).1 (p + 8) = (dag.min_hoprankinc >>> 8) % 256 ∧
    (dio_output_conf c dag b p).1 (p + 9) = dag.min_hoprankinc % 256 ∧
    (dio_output_conf c dag b p).1 (p + 10) = (dag.ocp >>> 8) % 256 ∧
    (dio_output_conf c dag b p).1 (p + 11) = dag.ocp % 256 ∧
    (dio_output_conf c dag b p).1 (p + 12) = 0 ∧
    (dio_output_conf c dag b p).1 (p + 13) = dag.default_lifetime % 256 ∧
    (dio_output_conf c dag b p).1 (p + 14) = (dag.lifetime_unit >>> 8) % 256 ∧
    (dio_output_conf c dag b p).1 (p + 15) = dag.lifetime_unit % 256 := by
  unfold dio_output_conf
  simp [put, and_ff]

theorem dio_output_prefix_info_body (c : rpl_private) (dag : rpl_dag) (b : Buffer) (p : Nat)
    (h : dag.prefix_info.length > 0) :
    (dio_output_prefix_info c dag b p).1 (p + 2) = dag.prefix_info.length % 256 ∧
    (dio_output_prefix_info c dag b p).1 (p + 3) = dag.prefix_info.flags % 256 ∧
    (dio_output_prefix_info c dag b p).1 (p + 4) = (dag.prefix_info.lifetime >>> 24) % 256 ∧
    (dio_output_prefix_info c dag b p).1 (p + 5) = (dag.prefix_info.lifetime >>> 16) % 256 ∧
    (dio_output_prefix_info c dag b p).1 (p + 6) = (dag.prefix_info.lifetime >>> 8) % 256 ∧
    (dio_output_prefix_info c dag b p).1 (p + 7) = dag.prefix_info.lifetime % 256 ∧
    (dio_output_prefix_info c dag b p).1 (p + 8) = (dag.prefix_info.lifetime >>> 24) % 256 ∧
    (dio_output_prefix_info c dag b p).1 (p + 9) = (dag.prefix_info.lifetime >>> 16) % 256 ∧
    (dio_output_prefix_info c dag b p).1 (p + 10) = (dag.prefix_info.lifetime >>> 8) % 256 ∧
    (dio_output_prefix_info c dag b p).1 (p + 11) = dag.prefix_info.lifetime % 256 ∧
    (∀ k, k < 4 → (dio_output_prefix_info c dag b p).1 (p + 12 + k) = 0) ∧
    ∀ k, k < 16 → (dio_output_prefix_info c dag b p).1 (p + 16 + k) =
      dag.prefix_info.prefix_addr.getD k 0 % 256 := by
  have hm : ∀ x : Nat, x % 65536 % 256 = x % 256 := fun x =>
    Nat.mod_mod_of_dvd _ (by norm_num)
  unfold dio_output_prefix_info
  rw [if_pos h]
  simp only []
  refine ⟨?_, ?_, ?_, ?_, ?_, ?_, ?_, ?_, ?_, ?_, ?_, ?_⟩
  · simp [memcpy_to, memset0, set32, put]
  · simp [memcpy_to, memset0, set32, put]
  · simp [memcpy_to, memset0, set32, put]
  · simp [memcpy_to, memset0, set32, put, and_ffff, hm]
  · simp [memcpy_to, memset0, set32, put, and_ff]
  · simp [memcpy_to, memset0, set32, put, and_ff]
  · simp [memcpy_to, memset0, set32, put]
  · simp [memcpy_to, memset0, set32, put, and_ffff, hm]
  · simp [memcpy_to, memset0, set32, put, and_ff]
  · simp [memcpy_to, memset0, set32, put, and_ff]
  · intro k hk
    have a1 : ¬ (p + 16 ≤ p + 12 + k ∧ p + 12 + k < p + 16 + 16) := by omega
    have a2 : p + 12 ≤ p + 12 + k ∧ p + 12 + k < p + 12 + 4 := by omega
    simp only [memcpy_to, memset0, a1, a2, and_self, if_true, if_false]
  · intro k hk
    have a1 : p + 16 ≤ p + 16 + k ∧ p + 16 + k < p + 16 + 16 := by omega
    simp only [memcpy_to, a1, and_self, if_true, Nat.add_sub_cancel_left]

theorem dio_output_body_parts (c : rpl_private) (of : rpl_of) (node : rpl_node) (dag : rpl_dag)
    (b : Buffer) :
    ∃ mb : Buffer,
      (dio_output_body c of node dag b).2.1 =
        (dio_output_prefix_info c (dio_output_body c of node dag b).1
          (dio_output_conf c (dio_output_body c of node dag b).1 mb
            (dio_conf_offset c dag (dio_output_body c of node dag b).1)).1
          (dio_conf_offset c dag (dio_output_body c of node dag b).1 + 16)).1 := by
  refine ⟨(dio_output_mc c of node (dio_output_base dag b).1 (dio_output_base dag b).2.1
    24).2.1, ?_⟩
  rw [← dio_output_mc_offset c of node dag b]
  rfl

theorem bytes_at_16 (b : Buffer) (p : Nat) :
    bytes_at b p 16 = [b p, b (p + 1), b (p + 2), b (p + 3), b (p + 4), b (p + 5), b (p + 6),
      b (p + 7), b (p + 8), b (p + 9), b (p + 10), b (p + 11), b (p + 12), b (p + 13),
      b (p + 14), b (p + 15)] := rfl

theorem bytes_at_8 (b : Buffer) (p : Nat) :
    bytes_at b p 8 = [b p, b (p + 1), b (p + 2), b (p + 3), b (p + 4), b (p + 5), b (p + 6),
      b (p + 7)] := rfl

theorem bytes_at_congr (b : Buffer) (p n : Nat) (f : Nat → Nat)
    (h : ∀ k, k < n → b (p + k) = f k) : bytes_at b p n = (List.range n).map f := by
  unfold bytes_at
  apply List.map_congr_left
  intro k hk
  exact h k (List.mem_range.mp hk)

/-- C16. For every DAG state the body written by `dio_output` is: the 24 bytes
of the base object (instance id, version, rank high byte first, the byte
`mop << 3`, the incremented DTSN, two zero bytes, the 16 bytes of the DAG id);
a metric-container suboption exactly when the metric list is not empty, with
length byte `(6 * n + 12 + 2) % 256` for the `n` entries of the list; then
always a DAG configuration suboption with length byte 14 and the 14 bytes of
its body, 16 bytes in all; then a prefix information suboption with length byte
30 and the 30 bytes of its body, 32 bytes in all, exactly when
`prefix_info.length > 0`; the body ends there. With an empty metric list the
body length is 40 without a prefix and 72 with one. The message handed to the
send primitive has that length. -/
theorem dio_output_layout (c : rpl_private) (of : rpl_of) (node : rpl_node) (dag : rpl_dag)
    (uc_addr : Option uip_ipaddr_t) (b : Buffer) :
    bytes_at (dio_output_body c of node dag b).2.1 0 8 =
      [dag.instance_id % 256, dag.version % 256, (dag.rank >>> 8) % 256, dag.rank % 256,
       (dag.mop <<< RPL_DIO_MOP_SHIFT) % 256, (dag.dtsn_out + 1) % 256, 0, 0] ∧
    bytes_at (dio_output_body c of node dag b).2.1 8 16 =
      (List.range 16).map (fun k => dag.dag_id.getD k 0 % 256) ∧
    (dag.mcs ≠ [] →
      (dio_output_body c of node dag b).2.1 24 =
        c.RPL_DIO_SUBOPT_DAG_METRIC_CONTAINER % 256 ∧
      (dio_output_body c of node dag b).2.1 25 =
        (6 * (dio_output_body c of node dag b).1.mcs.length + 12 + 2) % 256) ∧
    (dag.mcs = [] → dio_conf_offset c dag (dio_output_body c of node dag b).1 = 24) ∧
    (dio_output_body c of node dag b).2.1
        (dio_conf_offset c dag (dio_output_body c of node dag b).1) =
      c.RPL_DIO_SUBOPT_DAG_CONF % 256 ∧
    (dio_output_body c of node dag b).2.1
        (dio_conf_offset c dag (dio_output_body c of node dag b).1 + 1) = 14 ∧
    ((dio_output_body c of node dag b).1.prefix_info.length > 0 →
      (dio_output_body c of node dag b).2.1
          (dio_conf_offset c dag (dio_output_body c of node dag b).1 + 16) =
        c.RPL_DIO_SUBOPT_PREFIX_INFO % 256 ∧
      (dio_output_body c of node dag b).2.1
          (dio_conf_offset c dag (dio_output_body c of node dag b).1 + 17) = 30 ∧
      (dio_output_body c of node dag b).2.2 =
        dio_conf_offset c dag (dio_output_body c of node dag b).1 + 16 + 32) ∧
    (¬ (dio_output_body c of node dag b).1.prefix_info.length > 0 →
      (dio_output_body c of node dag b).2.2 =
        dio_conf_offset c dag (dio_output_body c of node dag b).1 + 16) ∧
    (dag.mcs = [] →
      (dio_output_body c of node dag b).1.prefix_info = dag.prefix_info ∧
      (dio_output_body c of node dag b).2.2 = if dag.prefix_info.length > 0 then 72 else 40) ∧
    (∃ msg : icmp6_msg,
      (dio_output c of node dag uc_addr b).1.sent = node.sent ++ [msg] ∧
      msg.len = (dio_output_body c of node dag b).2.2 ∧
      msg.body = payload (dio_output_body c of node dag b).2.1
        (dio_output_body c of node dag b).2.2) ∧
    (dag.mcs ≠ [] →
      dio_conf_offset c dag (dio_output_body c of node dag b).1 =
        24 + (2 + 12 + mcs_size c (dio_output_body c of node dag b).1.mcs)) ∧
    bytes_at (dio_output_body c of node dag b).2.1
        (dio_conf_offset c dag (dio_output_body c of node dag b).1) 16 =
      [c.RPL_DIO_SUBOPT_DAG_CONF % 256, 14, 0,
       (dio_output_body c of node dag b).1.dio_intdoubl % 256,
       (dio_output_body c of node dag b).1.dio_intmin % 256,
       (dio_output_body c of node dag b).1.dio_redundancy % 256,
       ((dio_output_body c of node dag b).1.max_rankinc >>> 8) % 256,
       (dio_output_body c of node dag b).1.max_rankinc % 256,
       ((dio_output_body c of node dag b).1.min_hoprankinc >>> 8) % 256,
       (dio_output_body c of node dag b).1.min_hoprankinc % 256,
       ((dio_output_body c of node dag b).1.ocp >>> 8) % 256,
       (dio_output_body c of node dag b).1.ocp % 256, 0,
       (dio_output_body c of node dag b).1.default_lifetime % 256,
       ((dio_output_body c of node dag b).1.lifetime_unit >>> 8) % 256,
       (dio_output_body c of node dag b).1.lifetime_unit % 256] ∧
    ((dio_output_body c of node dag b).1.prefix_info.length > 0 →
      bytes_at (dio_output_body c of node dag b).2.1
          (dio_conf_offset c dag (dio_output_body c of node dag b).1 + 16) 16 =
        [c.RPL_DIO_SUBOPT_PREFIX_INFO % 256, 30,
         (dio_output_body c of node dag b).1.prefix_info.length % 256,
         (dio_output_body c of node dag b).1.prefix_info.flags % 256,
         ((dio_output_body c of node dag b).1.prefix_info.lifetime >>> 24) % 256,
         ((dio_output_body c of node dag b).1.prefix_info.lifetime >>> 16) % 256,
         ((dio_output_body c of node dag b).1.prefix_info.lifetime >>> 8) % 256,
         (dio_output_body c of node dag b).1.prefix_info.lifetime % 256,
         ((dio_output_body c of node dag b).1.prefix_info.lifetime >>> 24) % 256,
         ((dio_output_body c of node dag b).1.prefix_info.lifetime >>> 16) % 256,
         ((dio_output_body c of node dag b).1.prefix_info.lifetime >>> 8) % 256,
         (dio_output_body c of node dag b).1.prefix_info.lifetime % 256, 0, 0, 0, 0] ∧
      bytes_at (dio_output_body c of node dag b).2.1
          (dio_conf_offset c dag (dio_output_body c of node dag b).1 + 32) 16 =
        (List.range 16).map
          (fun k => (dio_output_body c of node dag b).1.prefix_info.prefix_addr.getD k 0 % 256)) := by
  obtain ⟨_, c2, c3, c4, c5, c6, c7, c8, c9⟩ := dio_output_body_layout c of node dag uc_addr b
  obtain ⟨mb, hbuf⟩ := dio_output_body_parts c of node dag b
  obtain ⟨b0, b1, b2, b3, b4, b5, b6, b7, bid⟩ := dio_output_base_bytes dag b
  have hbase := fun i hi => dio_output_body_base c of node dag b i hi
  have hoff : dag.mcs ≠ [] → dio_conf_offset c dag (dio_output_body c of node dag b).1 =
      24 + (2 + 12 + mcs_size c (dio_output_body c of node dag b).1.mcs) := by
    intro h
    unfold dio_conf_offset
    rw [if_neg h]
  refine ⟨?_, ?_, c2, c3, c4, c5, c6, c7, c8, c9, hoff, ?_, ?_⟩
  · rw [bytes_at_8]
    simp only [Nat.zero_add]
    rw [hbase 0 (by omega), hbase 1 (by omega), hbase 2 (by omega), hbase 3 (by omega),
      hbase 4 (by omega), hbase 5 (by omega), hbase 6 (by omega), hbase 7 (by omega),
      b0, b1, b2, b3, b4, b5, b6, b7]
  · apply bytes_at_congr
    intro k hk
    rw [hbase (8 + k) (by omega), bid k hk]
  · generalize dio_conf_offset c dag (dio_output_body c of node dag b).1 = P at *
    generalize (dio_output_body c of node dag b).1 = dag1 at *
    obtain ⟨k2, k3, k4, k5, k6, k7, k8, k9, k10, k11, k12, k13, k14, k15⟩ :=
      dio_output_conf_body c dag1 mb P
    have low : ∀ i, i < P + 16 → (dio_output_body c of node dag b).2.1 i =
        (dio_output_conf c dag1 mb P).1 i := by
      intro i hi
      rw [hbuf, dio_output_prefix_info_out _ _ _ _ _ hi]
    rw [bytes_at_16, c4, c5, low _ (by omega), low _ (by omega), low _ (by omega),
      low _ (by omega), low _ (by omega), low _ (by omega), low _ (by omega), low _ (by omega),
      low _ (by omega), low _ (by omega), low _ (by omega), low _ (by omega), low _ (by omega),
      low _ (by omega), k2, k3, k4, k5, k6, k7, k8, k9, k10, k11, k12, k13, k14, k15]
  · intro hp
    obtain ⟨p16, p17, _⟩ := c6 hp
    generalize dio_conf_offset c dag (dio_output_body c of node dag b).1 = P at *
    generalize (dio_output_body c of node dag b).1 = dag1 at *
    obtain ⟨q2, q3, q4, q5, q6, q7, q8, q9, q10, q11, qz, qa⟩ :=
      dio_output_prefix_info_body c dag1 (dio_output_conf c dag1 mb P).1 (P + 16) hp
    rw [← hbuf] at q2 q3 q4 q5 q6 q7 q8 q9 q10 q11 qz qa
    have z0 := qz 0 (by omega)
    have z1 := qz 1 (by omega)
    have z2 := qz 2 (by omega)
    have z3 := qz 3 (by omega)
    refine ⟨?_, ?_⟩
    · rw [bytes_at_16, p16, show P + 16 + 1 = P + 17 from rfl, p17, q2, q3, q4, q5, q6, q7, q8,
        q9, q10, q11]
      rw [show P + 16 + 12 = P + 16 + 12 + 0 from rfl, z0,
        show P + 16 + 13 = P + 16 + 12 + 1 from rfl, z1,
        show P + 16 + 14 = P + 16 + 12 + 2 from rfl, z2,
        show P + 16 + 15 = P + 16 + 12 + 3 from rfl, z3]
    · apply bytes_at_congr
      intro k hk
      rw [show P + 32 + k = P + 16 + 16 + k from rfl, qa k hk]

theorem dio_output_layout_witness :
    (dio_output_body contiki of_keep node0 dag_prefixed zeros).2.2 = 72 ∧
    payload (dio_output_body contiki of_keep node0 dag_prefixed zeros).2.1 72 =
      [30, 1, 2, 0, 16, 8, 0, 0] ++ dag_prefixed.dag_id ++
      [4, 14, 0, 8, 12, 10, 3, 0, 1, 0, 0, 1, 0, 255, 255, 255] ++
      [8, 30, 64, 0x40, 0, 1, 81, 128, 0, 1, 81, 128, 0, 0, 0, 0] ++
      dag_prefixed.prefix_info.prefix_addr ∧
    bytes_at (dio_output_body contiki of_keep node0 dag_prefixed zeros).2.1 0 8 =
      [dag_prefixed.instance_id % 256, dag_prefixed.version % 256,
       (dag_prefixed.rank >>> 8) % 256, dag_prefixed.rank % 256,
       (dag_prefixed.mop <<< RPL_DIO_MOP_SHIFT) % 256, (dag_prefixed.dtsn_out + 1) % 256, 0, 0] :=
  ⟨by decide, by decide, (dio_output_layout contiki of_keep node0 dag_prefixed none zeros).1⟩

theorem tlv_scan_step (c : rpl_private) (b : Buffer) (len fuel i : Nat) (h : i < len) :
    tlv_scan c b len (fuel + 1) i =
      (i :: (tlv_scan c b len fuel (i + subopt_len c b i)).1,
       (tlv_scan c b len fuel (i + subopt_len c b i)).2) := by
  rw [tlv_scan, if_pos h]

theorem tlv_scan_end (c : rpl_private) (b : Buffer) (len fuel i : Nat) (h : len ≤ i) :
    tlv_scan c b len fuel i = ([], i) := by
  cases fuel with
  | zero => rfl
  | succ f => rw [tlv_scan, if_neg (by omega)]

/-- The claim C15 as stated fails on a DAG whose metric list holds one ETX
entry: the metric-container suboption carries the length byte 20 while 18 bytes
are written after it, so the scan from offset 24 steps to 46, past the header
of the DAG configuration suboption at 44, and stops at 61, not at the body
length 60. -/
theorem dio_output_scan_counterexample :
    (dio_output_body contiki of_keep node0 dag_one_etx zeros).2.2 = 60 ∧
    (dio_output_body contiki of_keep node0 dag_one_etx zeros).2.1 25 = 20 ∧
    dio_conf_offset contiki dag_one_etx
      (dio_output_body contiki of_keep node0 dag_one_etx zeros).1 = 24 + 2 + 18 ∧
    tlv_scan contiki (dio_output_body contiki of_keep node0 dag_one_etx zeros).2.1 60 61 24 =
      ([24, 46, 47], 61) := by
  decide

/-- C15 (amended). When the metric list is empty, or holds at most 40 entries
whose encodings take `6 * n + 2` bytes in all (6 bytes for an entry with a
16-bit value, 8 for a Latency entry: with the six handled types, exactly one
Latency entry), every suboption written by `dio_output` carries a length byte
equal to the number of bytes written after it: a scan of the body from offset
24 that advances by the total length of each suboption visits exactly the
headers of the emitted suboptions (metric container if the list is not empty,
DAG configuration, prefix information if a prefix is configured) and stops at
the body length. -/
theorem dio_output_scan (c : rpl_private) (of : rpl_of) (node : rpl_node) (dag : rpl_dag)
    (b : Buffer) (h_types : emitted_types_ok c)
    (h_n : (dio_output_body c of node dag b).1.mcs.length ≤ 40)
    (h_one : dag.mcs = [] ∨
      mcs_size c (dio_output_body c of node dag b).1.mcs =
        6 * (dio_output_body c of node dag b).1.mcs.length + 2) :
    (dag.mcs ≠ [] →
      (dio_output_body c of node dag b).2.1 25 =
        12 + mcs_size c (dio_output_body c of node dag b).1.mcs) ∧
    tlv_scan c (dio_output_body c of node dag b).2.1 (dio_output_body c of node dag b).2.2
        ((dio_output_body c of node dag b).2.2 + 1) 24 =
      ((if dag.mcs = [] then [] else [24]) ++
        [dio_conf_offset c dag (dio_output_body c of node dag b).1] ++
        (if (dio_output_body c of node dag b).1.prefix_info.length > 0
          then [dio_conf_offset c dag (dio_output_body c of node dag b).1 + 16] else []),
       (dio_output_body c of node dag b).2.2) := by
  obtain ⟨t1, t2, t3, t4, t5, t6⟩ := h_types
  obtain ⟨_, hmc, hP0, hc0, hc1, hpi, hnpi, _, _⟩ :=
    dio_output_body_layout c of node dag none b
  have hoff : dag.mcs ≠ [] → dio_conf_offset c dag (dio_output_body c of node dag b).1 =
      24 + (2 + 12 + mcs_size c (dio_output_body c of node dag b).1.mcs) := by
    intro h
    unfold dio_conf_offset
    rw [if_neg h]
  have h25 : dag.mcs ≠ [] → (dio_output_body c of node dag b).2.1 25 =
      12 + mcs_size c (dio_output_body c of node dag b).1.mcs := by
    intro h
    have h1 : mcs_size c (dio_output_body c of node dag b).1.mcs =
        6 * (dio_output_body c of node dag b).1.mcs.length + 2 := by
      cases h_one with
      | inl h0 => exact absurd h0 h
      | inr h1 => exact h1
    rw [(hmc h).2, h1, Nat.mod_eq_of_lt (by omega)]
    omega
  have hlen24 : dag.mcs ≠ [] → 24 + subopt_len c (dio_output_body c of node dag b).2.1 24 =
      dio_conf_offset c dag (dio_output_body c of node dag b).1 := by
    intro h
    unfold subopt_len
    rw [(hmc h).1, Nat.mod_eq_of_lt t1, if_neg t4, h25 h, hoff h]
    omega
  rw [Nat.mod_eq_of_lt t2] at hc0
  have hP24 : 24 ≤ dio_conf_offset c dag (dio_output_body c of node dag b).1 := by
    unfold dio_conf_offset
    split_ifs <;> omega
  generalize dio_conf_offset c dag (dio_output_body c of node dag b).1 = P at *
  have hlenP : P + subopt_len c (dio_output_body c of node dag b).2.1 P = P + 16 := by
    unfold subopt_len
    rw [hc0, if_neg t5, hc1]
  generalize (dio_output_body c of node dag b).1 = dag1 at *
  generalize (dio_output_body c of node dag b).2.1 = tx at *
  generalize (dio_output_body c of node dag b).2.2 = n at *
  refine ⟨h25, ?_⟩
  have tail : ∀ f, tlv_scan c tx n (f + 2) P =
      (P :: (if dag1.prefix_info.length > 0 then [P + 16] else []), n) := by
    intro f
    by_cases hp : dag1.prefix_info.length > 0
    · obtain ⟨p0, p1, p2⟩ := hpi hp
      rw [Nat.mod_eq_of_lt t3] at p0
      have hlenQ : P + 16 + subopt_len c tx (P + 16) = n := by
        unfold subopt_len
        rw [p0, if_neg t6, show P + 16 + 1 = P + 17 by omega, p1, p2]
      rw [tlv_scan_step _ _ _ _ _ (by omega), hlenP, if_pos hp,
        tlv_scan_step _ _ _ _ _ (by omega), hlenQ, tlv_scan_end _ _ _ _ _ (le_refl _)]
    · have hn := hnpi hp
      rw [tlv_scan_step _ _ _ _ _ (by omega), hlenP, if_neg hp,
        tlv_scan_end _ _ _ _ _ (by omega), hn]
  have hn40 : P + 16 ≤ n := by
    by_cases hp : dag1.prefix_info.length > 0
    · have := (hpi hp).2.2; omega
    · have := hnpi hp; omega
  by_cases hm : dag.mcs = []
  · have hP := hP0 hm
    rw [if_pos hm, show n + 1 = (n - 1) + 2 by omega]
    subst hP
    rw [tail]
    rfl
  · have hl := hlen24 hm
    have hP38 : 38 ≤ P := by have := hoff hm; omega
    rw [if_neg hm, show n + 1 = (n - 2) + 2 + 1 by omega,
      tlv_scan_step _ _ _ _ _ (by omega), hl, tail]
    rfl

theorem dio_output_scan_witness :
    emitted_types_ok contiki ∧
    latency_count contiki (dio_output_body contiki of_keep node0 dag_one_latency zeros).1.mcs
      = 1 ∧
    mcs_size contiki (dio_output_body contiki of_keep node0 dag_one_latency zeros).1.mcs =
      6 * (dio_output_body contiki of_keep node0 dag_one_latency zeros).1.mcs.length + 2 ∧
    (dio_output_body contiki of_keep node0 dag_one_latency zeros).2.2 = 74 ∧
    (dio_output_body contiki of_keep node0 dag_one_latency zeros).2.1 25 = 32 ∧
    dio_conf_offset contiki dag_one_latency
      (dio_output_body contiki of_keep node0 dag_one_latency zeros).1 = 58 ∧
    ((dag_one_latency.mcs ≠ [] →
      (dio_output_body contiki of_keep node0 dag_one_latency zeros).2.1 25 =
        12 + mcs_size contiki (dio_output_body contiki of_keep node0 dag_one_latency zeros).1.mcs) ∧
    tlv_scan contiki (dio_output_body contiki of_keep node0 dag_one_latency zeros).2.1
        (dio_output_body contiki of_keep node0 dag_one_latency zeros).2.2
        ((dio_output_body contiki of_keep node0 dag_one_latency zeros).2.2 + 1) 24 =
      ((if dag_one_latency.mcs = [] then [] else [24]) ++
        [dio_conf_offset contiki dag_one_latency
          (dio_output_body contiki of_keep node0 dag_one_latency zeros).1] ++
        (if (dio_output_body contiki of_keep node0 dag_one_latency zeros).1.prefix_info.length > 0
          then [dio_conf_offset contiki dag_one_latency
            (dio_output_body contiki of_keep node0 dag_one_latency zeros).1 + 16] else []),
       (dio_output_body contiki of_keep node0 dag_one_latency zeros).2.2)) :=
  ⟨by decide, by decide, by decide, by decide, by decide, by decide,
    dio_output_scan contiki of_keep node0 dag_one_latency zeros (by decide) (by decide)
      (Or.inr (by decide))⟩

theorem dio_subopt_skip (c : rpl_private) (b : Buffer) (i len : Nat) (dio : rpl_dio)
    (node : rpl_node)
    (h1 : b i ≠ c.RPL_DIO_SUBOPT_DAG_METRIC_CONTAINER)
    (h2 : b i ≠ c.RPL_DIO_SUBOPT_ROUTE_INFO)
    (h3 : b i ≠ c.RPL_DIO_SUBOPT_DAG_CONF)
    (h4 : b i ≠ c.RPL_DIO_SUBOPT_PREFIX_INFO) :
    dio_subopt c b i len dio node = .ok (.finished, dio, node) := by
  unfold dio_subopt
  simp only []
  rw [if_neg h1, if_neg h2, if_neg h3, if_neg h4]

/-- C17, evaluated on a DIO whose metric-container suboption holds one Latency
entry and is followed by a route information suboption of total length 2, with
all six blocks of the pool free: `dio_input` allocates one block, leaves through
the malformed `return` and never frees it, so one block fewer is free
afterwards. The same DIO without the route information suboption runs to the
end, where `clear_dio_mc` returns the block. -/
theorem dio_pool_leak :
    node0.mc_memb.used = 0 ∧
    pool_used (dio_input contiki node0 sender_addr (of_bytes (dio_one_metric [3, 0])) 48
      dio0 0) = some 1 ∧
    handed_count (dio_input contiki node0 sender_addr (of_bytes (dio_one_metric [3, 0])) 48
      dio0 0) = some 0 ∧
    pool_used (dio_input contiki node0 sender_addr (of_bytes (dio_one_metric [])) 46
      dio0 0) = some 0 ∧
    handed_count (dio_input contiki node0 sender_addr (of_bytes (dio_one_metric [])) 46
      dio0 0) = some 1 := by
  decide

/-- C18, evaluated on a DIO of 46 body bytes: a metric-container suboption of
total length 6 at offset 24, then a DAG configuration suboption at offset 30.
The metric-container branch reads its three timing fields from offsets 26 to 37
whatever the length byte says, so inserting a pad byte, or an unknown suboption
of type 9 and total length 3, at offset 30 changes `next_dio_time` and
`next_dio_delay` of the DIO handed to `rpl_process_dio`. The inserted suboption
itself is skipped by its total length with the locals unchanged. -/
theorem dio_insert_changes_dio :
    (handed_dio (dio_input contiki node0 sender_addr (of_bytes (dio_short_metric [])) 46
      dio0 0)).map (fun d => (d.next_dio_time, d.next_dio_delay)) =
        some (68026376, 201981955) ∧
    (handed_dio (dio_input contiki node0 sender_addr (of_bytes (dio_short_metric [0])) 47
      dio0 0)).map (fun d => (d.next_dio_time, d.next_dio_delay)) =
        some (265728, 135006720) ∧
    (handed_dio (dio_input contiki node0 sender_addr (of_bytes (dio_short_metric [9, 1, 0])) 49
      dio0 0)).map (fun d => (d.next_dio_time, d.next_dio_delay)) =
        some (151060484, 234883084) ∧
    ∀ (c : rpl_private) (b : Buffer) (len fuel i : Nat) (dio : rpl_dio) (node : rpl_node),
      i < len →
      b i ≠ c.RPL_DIO_SUBOPT_DAG_METRIC_CONTAINER → b i ≠ c.RPL_DIO_SUBOPT_ROUTE_INFO →
      b i ≠ c.RPL_DIO_SUBOPT_DAG_CONF → b i ≠ c.RPL_DIO_SUBOPT_PREFIX_INFO →
      dio_subopts c b len (fuel + 1) i dio node =
        dio_subopts c b len fuel (i + subopt_len c b i) dio node := by
  refine ⟨by decide, by decide, by decide, ?_⟩
  intro c b len fuel i dio node hi h1 h2 h3 h4
  exact dio_subopts_next c b len fuel i dio dio node node hi
    (dio_subopt_skip c b i _ dio node h1 h2 h3 h4)

theorem uip_rpl_input_len (c : rpl_private) (of : rpl_of) (pkt : uip_packet) (st st1 : uip_state)
    (h : uip_rpl_input c of pkt st = .ok st1) : st1.uip_len = 0 := by
  unfold uip_rpl_input at h
  simp only [] at h
  split at h
  · cases h
  · cases h
    rfl

theorem uip_rpl_input_unknown (c : rpl_private) (of : rpl_of) (pkt : uip_packet)
    (st : uip_state) (h1 : pkt.icode ≠ c.RPL_CODE_DIO_MSG) (h2 : pkt.icode ≠ c.RPL_CODE_DIS)
    (h3 : pkt.icode ≠ c.RPL_CODE_DAO) (h4 : pkt.icode ≠ c.RPL_CODE_DAO_ACK) :
    uip_rpl_input c of pkt st = .ok { st with uip_len := 0 } := by
  unfold uip_rpl_input
  simp only [if_neg h1, if_neg h2, if_neg h3, if_neg h4]

theorem uip_rpl_input_dio (c : rpl_private) (of : rpl_of) (pkt : uip_packet)
    (st : uip_state) (node : rpl_node) (h1 : pkt.icode = c.RPL_CODE_DIO_MSG)
    (h : dio_input c st.node pkt.srcipaddr st.buffer
      (buffer_length st.uip_len pkt.uip_l2_l3_icmp_hdr_len)
      pkt.stack_dio pkt.clock_time = .ok node) :
    uip_rpl_input c of pkt st = .ok { st with node := node, uip_len := 0 } := by
  unfold uip_rpl_input
  simp only [if_pos h1, h]

theorem uip_rpl_input_dao (c : rpl_private) (of : rpl_of) (pkt : uip_packet)
    (st : uip_state) (r : rpl_node × Buffer) (h1 : pkt.icode ≠ c.RPL_CODE_DIO_MSG)
    (h2 : pkt.icode ≠ c.RPL_CODE_DIS) (h3 : pkt.icode = c.RPL_CODE_DAO)
    (h : dao_input c st.node pkt.srcipaddr st.buffer
      (buffer_length st.uip_len pkt.uip_l2_l3_icmp_hdr_len)
      pkt.stack_addr = .ok r) :
    uip_rpl_input c of pkt st = .ok { st with node := r.1, buffer := r.2, uip_len := 0 } := by
  unfold uip_rpl_input
  simp only [if_neg h1, if_neg h2, if_pos h3, h]

theorem uip_rpl_input_other (c : rpl_private) (of : rpl_of) (pkt : uip_packet)
    (st : uip_state) (h1 : pkt.icode ≠ c.RPL_CODE_DIO_MSG) (h3 : pkt.icode ≠ c.RPL_CODE_DAO) :
    ∃ st1, uip_rpl_input c of pkt st = .ok st1 ∧ st1.uip_len = 0 := by
  unfold uip_rpl_input
  simp only [if_neg h1, if_neg h3]
  by_cases h2 : pkt.icode = c.RPL_CODE_DIS
  · simp only [if_pos h2]
    exact ⟨_, rfl, rfl⟩
  · simp only [if_neg h2]
    by_cases h4 : pkt.icode = c.RPL_CODE_DAO_ACK
    · simp only [if_pos h4]
      exact ⟨_, rfl, rfl⟩
    · simp only [if_neg h4]
      exact ⟨_, rfl, rfl⟩

theorem buffer_length_lt (uip_len hdr_len : Nat) : buffer_length uip_len hdr_len < 256 := by
  unfold buffer_length
  omega

theorem buffer_length_of_le (uip_len hdr_len : Nat) (h : hdr_len ≤ uip_len) :
    buffer_length uip_len hdr_len = (uip_len - hdr_len) % 256 := by
  unfold buffer_length
  omega

/-- C11, evaluated on a DIO whose metric container holds seven entries, received
with all six blocks of the pool free: `dio_input` writes through the null
pointer that the seventh `memb_alloc` returns, so the run of `uip_rpl_input`
ends inside the handler and never gets to `uip_len = 0`. Every run that comes
back from its handler ends with `uip_len = 0`: messages with a code other than
DIO and DAO always do, a DIO or DAO does when its handler returns; and for a
code that is none of the four, nothing but `uip_len` changes. The body length a
handler works with is what the `uint8_t buffer_length` holds, the difference
`uip_len - uip_l2_l3_icmp_hdr_len` modulo 256: a packet of 40 bytes with 48
bytes of headers is scanned over 248 bytes, and the run still ends with
`uip_len = 0`. -/
theorem uip_rpl_input_fault :
    fault_of (uip_rpl_input contiki of_keep (packet0 contiki.RPL_CODE_DIO_MSG)
      (state0 node0 (dio_output_body contiki of_keep node0 dag_seven_entries zeros).2.1 98)) =
      some Fault.null_dereference ∧
    (∀ (c : rpl_private) (of : rpl_of) (pkt : uip_packet) (st st1 : uip_state),
      uip_rpl_input c of pkt st = .ok st1 → st1.uip_len = 0) ∧
    (∀ (c : rpl_private) (of : rpl_of) (pkt : uip_packet) (st : uip_state),
      pkt.icode ≠ c.RPL_CODE_DIO_MSG → pkt.icode ≠ c.RPL_CODE_DAO →
      ∃ st1, uip_rpl_input c of pkt st = .ok st1 ∧ st1.uip_len = 0) ∧
    (∀ (c : rpl_private) (of : rpl_of) (pkt : uip_packet) (st : uip_state) (node : rpl_node),
      pkt.icode = c.RPL_CODE_DIO_MSG →
      dio_input c st.node pkt.srcipaddr st.buffer
        (buffer_length st.uip_len pkt.uip_l2_l3_icmp_hdr_len) pkt.stack_dio pkt.clock_time =
        .ok node →
      uip_rpl_input c of pkt st = .ok { st with node := node, uip_len := 0 }) ∧
    (∀ (c : rpl_private) (of : rpl_of) (pkt : uip_packet) (st : uip_state)
        (r : rpl_node × Buffer),
      pkt.icode ≠ c.RPL_CODE_DIO_MSG → pkt.icode ≠ c.RPL_CODE_DIS →
      pkt.icode = c.RPL_CODE_DAO →
      dao_input c st.node pkt.srcipaddr st.buffer
        (buffer_length st.uip_len pkt.uip_l2_l3_icmp_hdr_len) pkt.stack_addr = .ok r →
      uip_rpl_input c of pkt st = .ok { st with node := r.1, buffer := r.2, uip_len := 0 }) ∧
    (∀ (c : rpl_private) (of : rpl_of) (pkt : uip_packet) (st : uip_state),
      pkt.icode ≠ c.RPL_CODE_DIO_MSG → pkt.icode ≠ c.RPL_CODE_DIS →
      pkt.icode ≠ c.RPL_CODE_DAO → pkt.icode ≠ c.RPL_CODE_DAO_ACK →
      uip_rpl_input c of pkt st = .ok { st with uip_len := 0 }) ∧
    (∀ uip_len hdr_len : Nat, buffer_length uip_len hdr_len < 256 ∧
      (hdr_len ≤ uip_len → buffer_length uip_len hdr_len = (uip_len - hdr_len) % 256)) ∧
    buffer_length 40 48 = 248 ∧
    handed_conf (uip_rpl_input contiki of_keep (packet0 contiki.RPL_CODE_DIO_MSG)
      { node := node0, buffer := of_bytes dio_conf_345, uip_len := 40,
        dio_timer_resets := [] }) = some [(3, 4, 5)] ∧
    (uip_rpl_input contiki of_keep (packet0 contiki.RPL_CODE_DIO_MSG)
      { node := node0, buffer := of_bytes dio_conf_345, uip_len := 40,
        dio_timer_resets := [] }).toOption.map (fun st => st.uip_len) = some 0 :=
  ⟨by decide, uip_rpl_input_len, uip_rpl_input_other, uip_rpl_input_dio, uip_rpl_input_dao,
    uip_rpl_input_unknown,
    fun u h => ⟨buffer_length_lt u h, buffer_length_of_le u h⟩, by decide, by decide,
    by decide⟩

theorem dao_route_tail (c : rpl_private) (node : rpl_node) (srcipaddr : uip_ipaddr_t)
    (buffer : Buffer) (bl k : Nat) (dag : rpl_dag) (d : dao_msg)
    (h_lifetime : d.lifetime ≠ c.ZERO_LIFETIME)
    (h_no_loop : dao_no_loop c dag srcipaddr)
    (h_alloc : uip_ds6_route_lookup node.routing_table d.prefix_addr ≠ none ∨
      node.routing_table.length < c.UIP_DS6_ROUTE_NB) :
    ∃ (table : List uip_ds6_route) (r : Nat) (e0 : uip_ds6_route),
      table.get? r = some e0 ∧
      uip_ds6_route_lookup
        (table.set r { e0 with lifetime := c.RPL_LIFETIME dag d.lifetime,
                               learned_from := dao_learned_from c srcipaddr })
        d.prefix_addr = some r ∧
      (uip_ds6_route_lookup node.routing_table d.prefix_addr = none →
        e0.nexthop = srcipaddr) ∧
      (∀ r0, uip_ds6_route_lookup node.routing_table d.prefix_addr = some r0 →
        r = r0 ∧ table = node.routing_table) ∧
      dao_route c node srcipaddr buffer bl k dag d =
        if dao_learned_from c srcipaddr = c.RPL_ROUTE_FROM_UNICAST_DAO then
          match dag.preferred_parent with
          | some pp =>
            match dag.parents.get? pp with
            | none => .error .null_dereference
            | some par =>
              .ok ({ node with
                      routing_table :=
                        table.set r { e0 with lifetime := c.RPL_LIFETIME dag d.lifetime,
                                              learned_from := dao_learned_from c srcipaddr }
                      sent := node.sent ++
                        [{ dest := par.addr, type := c.ICMP6_RPL, code := c.RPL_CODE_DAO,
                           len := bl, body := payload buffer bl }] }, buffer)
          | none =>
            if d.flags &&& c.RPL_DAO_K_FLAG ≠ 0 then
              .ok (dao_ack_output c
                { node with
                    routing_table :=
                      table.set r { e0 with lifetime := c.RPL_LIFETIME dag d.lifetime,
                                            learned_from := dao_learned_from c srcipaddr } }
                dag srcipaddr (d.sequence % 256) buffer)
            else
              .ok ({ node with
                      routing_table :=
                        table.set r { e0 with lifetime := c.RPL_LIFETIME dag d.lifetime,
                                              learned_from := dao_learned_from c srcipaddr } },
                   buffer)
        else
          .ok ({ node with
                  routing_table :=
                    table.set r { e0 with lifetime := c.RPL_LIFETIME dag d.lifetime,
                                          learned_from := dao_learned_from c srcipaddr } },
               buffer) := by
  have hloop : (if dao_learned_from c srcipaddr = c.RPL_ROUTE_FROM_UNICAST_DAO then
      match rpl_find_parent dag srcipaddr with
      | none => (none : Option (Nat × rpl_parent))
      | some p =>
        match dag.parents.get? p with
        | none => none
        | some par =>
          if c.DAG_RANK par.rank dag < c.DAG_RANK dag.rank dag then some (p, par) else none
      else none) = none := by
    by_cases hlf : dao_learned_from c srcipaddr = c.RPL_ROUTE_FROM_UNICAST_DAO
    · rw [if_pos hlf]
      cases hf : rpl_find_parent dag srcipaddr with
      | none => rfl
      | some p =>
        cases hp : dag.parents.get? p with
        | none => simp only [hp]
        | some par => simp only [hp, if_neg (h_no_loop hlf p par hf hp)]
    · rw [if_neg hlf]
  unfold dao_route
  simp only [h_lifetime, if_false]
  unfold dao_learned_from at hloop ⊢
  erw [hloop]
  simp only []
  cases hl : uip_ds6_route_lookup node.routing_table d.prefix_addr with
  | some r =>
    obtain ⟨e, he1, he2⟩ := find_index_some _ _ _ hl
    have hrlt : r < node.routing_table.length := by
      rcases Nat.lt_or_ge r node.routing_table.length with h | h
      · exact h
      · rw [List.get?_eq_none.mpr h] at he1; cases he1
    simp only [he1]
    refine ⟨node.routing_table, r, e, he1, ?_, ?_, ?_, rfl⟩
    · unfold uip_ds6_route_lookup at hl ⊢
      rw [find_index_set _ node.routing_table r e _ he1 (by rfl)]
      exact hl
    · intro h; cases h
    · intro r0 h; cases h; exact ⟨rfl, rfl⟩
  | none =>
    have hroom : node.routing_table.length < c.UIP_DS6_ROUTE_NB := by
      rcases h_alloc with h | h
      · exact absurd hl h
      · exact h
    simp only [rpl_add_route, hl, hroom, if_true]
    have hget : (node.routing_table ++
        [({ ipaddr := d.prefix_addr, length := d.prefixlen, nexthop := srcipaddr,
            lifetime := c.RPL_LIFETIME dag dag.default_lifetime, saved_lifetime := 0,
            learned_from := c.RPL_ROUTE_FROM_INTERNAL } : uip_ds6_route)]).get?
        node.routing_table.length = some
          { ipaddr := d.prefix_addr, length := d.prefixlen, nexthop := srcipaddr,
            lifetime := c.RPL_LIFETIME dag dag.default_lifetime, saved_lifetime := 0,
            learned_from := c.RPL_ROUTE_FROM_INTERNAL } := by
      simp
    simp only [hget]
    refine ⟨_, node.routing_table.length, _, hget, ?_, ?_, ?_, rfl⟩
    · unfold uip_ds6_route_lookup at hl ⊢
      rw [find_index_set _ (node.routing_table ++ _) _ _ _ hget (by rfl)]
      exact find_index_append _ _ _ hl (by simp)
    · intro _; rfl
    · intro r0 h; cases h
theorem get_set_self {α : Type} (l : List α) (r : Nat) (e0 e : α) (h : l.get? r = some e0) :
    (l.set r e).get? r = some e := by
  have hrlt : r < l.length := by
    rcases Nat.lt_or_ge r l.length with h1 | h1
    · exact h1
    · rw [List.get?_eq_none.mpr h1] at h; cases h
  simp [List.getElem?_set, hrlt]

/-- C12 (amended). A DAO that is no withdrawal, on which the loop check does
not fire, for a target prefix whose route entry exists or can be allocated:
after `dao_input` the entry for the target prefix has `lifetime =
RPL_LIFETIME(dag, advertised lifetime)` and `learned_from` as computed from the
sender address. Its next hop is the address of the DAO sender when the entry
was allocated by this DAO; an entry that existed before keeps the next hop it
had. -/
theorem dao_route_upsert (c : rpl_private) (node : rpl_node) (srcipaddr : uip_ipaddr_t)
    (buffer : Buffer) (body_len : Nat) (stack : uip_ipaddr_t) (k : Nat) (d : dao_msg)
    (dag : rpl_dag)
    (h_parse : dao_parse c node buffer body_len stack = .ok (some (k, d)))
    (h_dag : node.dag_table.get? k = some dag)
    (h_lifetime : d.lifetime ≠ c.ZERO_LIFETIME)
    (h_no_loop : dao_no_loop c dag srcipaddr)
    (h_alloc : uip_ds6_route_lookup node.routing_table d.prefix_addr ≠ none ∨
      node.routing_table.length < c.UIP_DS6_ROUTE_NB)
    (h_pref : ∀ pp, dag.preferred_parent = some pp → dag.parents.get? pp ≠ none) :
    ∃ (node1 : rpl_node) (buffer1 : Buffer) (r : Nat) (e : uip_ds6_route),
      dao_input c node srcipaddr buffer body_len stack = .ok (node1, buffer1) ∧
      uip_ds6_route_lookup node1.routing_table d.prefix_addr = some r ∧
      node1.routing_table.get? r = some e ∧
      e.lifetime = c.RPL_LIFETIME dag d.lifetime ∧
      e.learned_from = dao_learned_from c srcipaddr ∧
      (uip_ds6_route_lookup node.routing_table d.prefix_addr = none →
        e.nexthop = srcipaddr) ∧
      (∀ r0 e0, uip_ds6_route_lookup node.routing_table d.prefix_addr = some r0 →
        node.routing_table.get? r0 = some e0 → r = r0 ∧ e.nexthop = e0.nexthop) := by
  obtain ⟨table, r, e0, hget, hlook, hnew, hold, heq⟩ :=
    dao_route_tail c node srcipaddr buffer (body_len % 256) k dag d h_lifetime h_no_loop h_alloc
  rw [dao_input_eq c node srcipaddr buffer body_len stack k d dag h_parse h_dag, heq]
  have hself := get_set_self table r e0
    { e0 with lifetime := c.RPL_LIFETIME dag d.lifetime,
              learned_from := dao_learned_from c srcipaddr } hget
  have hkeep : ∀ r0 e1, uip_ds6_route_lookup node.routing_table d.prefix_addr = some r0 →
      node.routing_table.get? r0 = some e1 → r = r0 ∧ e0.nexthop = e1.nexthop := by
    intro r0 e1 h1 h2
    obtain ⟨hr, ht⟩ := hold r0 h1
    subst hr
    rw [ht, h2] at hget
    cases hget
    exact ⟨rfl, rfl⟩
  by_cases hlf : dao_learned_from c srcipaddr = c.RPL_ROUTE_FROM_UNICAST_DAO
  · rw [if_pos hlf]
    cases hp : dag.preferred_parent with
    | some pp =>
      simp only []
      cases hpar : dag.parents.get? pp with
      | none => exact absurd hpar (h_pref pp hp)
      | some par =>
        simp only []
        exact ⟨_, _, r, _, rfl, hlook, hself, rfl, rfl, hnew, hkeep⟩
    | none =>
      simp only []
      by_cases hk : d.flags &&& c.RPL_DAO_K_FLAG ≠ 0
      · rw [if_pos hk]
        exact ⟨_, _, r, _, rfl, hlook, hself, rfl, rfl, hnew, hkeep⟩
      · rw [if_neg hk]
        exact ⟨_, _, r, _, rfl, hlook, hself, rfl, rfl, hnew, hkeep⟩
  · rw [if_neg hlf]
    exact ⟨_, _, r, _, rfl, hlook, hself, rfl, rfl, hnew, hkeep⟩

/-- C13 (amended). A unicast DAO that is no withdrawal, on which the loop check
does not fire and whose route entry exists or can be allocated, received by a
node whose DAG has a preferred parent: `dao_input` sends exactly one message,
to the address of the preferred parent, with code DAO, and no DAO-ACK. The
length handed to the send primitive is the `uint8_t buffer_length`, the
received body length modulo 256: it equals the received body length for every
body of at most 255 bytes. The payload memory is left as received. -/
theorem dao_forwarded (c : rpl_private) (node : rpl_node) (srcipaddr : uip_ipaddr_t)
    (buffer : Buffer) (body_len : Nat) (stack : uip_ipaddr_t) (k : Nat) (d : dao_msg)
    (dag : rpl_dag) (pp : Nat) (par : rpl_parent)
    (h_parse : dao_parse c node buffer body_len stack = .ok (some (k, d)))
    (h_dag : node.dag_table.get? k = some dag)
    (h_lifetime : d.lifetime ≠ c.ZERO_LIFETIME)
    (h_unicast : c.uip_is_addr_mcast srcipaddr = false)
    (h_pref : dag.preferred_parent = some pp)
    (h_par : dag.parents.get? pp = some par)
    (h_no_loop : dao_no_loop c dag srcipaddr)
    (h_alloc : uip_ds6_route_lookup node.routing_table d.prefix_addr ≠ none ∨
      node.routing_table.length < c.UIP_DS6_ROUTE_NB) :
    ∃ (node1 : rpl_node) (r : Nat) (e : uip_ds6_route),
      dao_input c node srcipaddr buffer body_len stack = .ok (node1, buffer) ∧
      uip_ds6_route_lookup node1.routing_table d.prefix_addr = some r ∧
      node1.routing_table.get? r = some e ∧
      e.learned_from = c.RPL_ROUTE_FROM_UNICAST_DAO ∧
      node1.sent = node.sent ++
        [{ dest := par.addr, type := c.ICMP6_RPL, code := c.RPL_CODE_DAO,
           len := body_len % 256, body := payload buffer (body_len % 256) }] ∧
      (body_len ≤ 255 →
        node1.sent = node.sent ++
          [{ dest := par.addr, type := c.ICMP6_RPL, code := c.RPL_CODE_DAO,
             len := body_len, body := payload buffer body_len }]) := by
  obtain ⟨table, r, e0, hget, hlook, hnew, hold, heq⟩ :=
    dao_route_tail c node srcipaddr buffer (body_len % 256) k dag d h_lifetime h_no_loop h_alloc
  have hlf : dao_learned_from c srcipaddr = c.RPL_ROUTE_FROM_UNICAST_DAO := by
    unfold dao_learned_from
    simp [h_unicast]
  rw [dao_input_eq c node srcipaddr buffer body_len stack k d dag h_parse h_dag, heq,
    if_pos hlf]
  simp only [h_pref, h_par]
  have hself := get_set_self table r e0
    { e0 with lifetime := c.RPL_LIFETIME dag d.lifetime,
              learned_from := dao_learned_from c srcipaddr } hget
  refine ⟨_, r, _, rfl, hlook, hself, hlf, rfl, ?_⟩
  intro hle
  rw [Nat.mod_eq_of_lt (by omega)]

/-- The claim C12 as stated fails on an entry that exists: the node holds a
route to `2001:db8::1/128` through `fe80::1`, and a DAO for that prefix arrives
from `fe80::2`. The entry gets the new lifetime and `learned_from`, and keeps
`fe80::1` as next hop. -/
theorem dao_route_upsert_counterexample :
    (dao_input contiki node_route_parent sender_addr (of_bytes (dao_bytes 0 30)) 30
        []).toOption.map
      (fun r => r.1.routing_table.map
        (fun e => (e.ipaddr, e.nexthop, e.lifetime, e.learned_from))) =
      some [(target_addr, parent_addr, 65535 * 30, contiki.RPL_ROUTE_FROM_UNICAST_DAO)] ∧
    parent_addr ≠ sender_addr := by
  decide

theorem dao_route_upsert_witness :
    ∃ (node1 : rpl_node) (buffer1 : Buffer) (r : Nat) (e : uip_ds6_route),
      dao_input contiki node_dag0 sender_addr (of_bytes (dao_bytes 0 30)) 30 [] =
        .ok (node1, buffer1) ∧
      uip_ds6_route_lookup node1.routing_table target_addr = some r ∧
      node1.routing_table.get? r = some e ∧
      e.lifetime = contiki.RPL_LIFETIME dag0 30 ∧
      e.learned_from = dao_learned_from contiki sender_addr ∧
      (uip_ds6_route_lookup node_dag0.routing_table target_addr = none →
        e.nexthop = sender_addr) ∧
      (∀ r0 e0, uip_ds6_route_lookup node_dag0.routing_table target_addr = some r0 →
        node_dag0.routing_table.get? r0 = some e0 → r = r0 ∧ e.nexthop = e0.nexthop) :=
  dao_route_upsert contiki node_dag0 sender_addr (of_bytes (dao_bytes 0 30)) 30 [] 0
    (dao_decoded 0 30) dag0 rfl (by decide) (by decide)
    (by
      intro _ p par h
      have h0 : rpl_find_parent dag0 sender_addr = none := by decide
      rw [h0] at h
      cases h)
    (Or.inr (by decide))
    (by intro pp h; cases h)

/-- The claim C13 as stated fails on a body longer than 255 bytes: a DAO of 300
body bytes (the 30 bytes of a DAO followed by pad bytes) is forwarded to the
preferred parent `fe80::1` with length 44, which is 300 modulo 256. -/
theorem dao_forwarded_counterexample :
    sent_one (dao_input contiki node_preferred sender_addr (of_bytes (dao_bytes 0x80 30)) 300
      []) = some (parent_addr, contiki.RPL_CODE_DAO, 44) ∧
    (dao_input contiki node_preferred sender_addr (of_bytes (dao_bytes 0x80 30)) 300
      []).toOption.map (fun r => r.1.routing_table.map (fun e => (e.ipaddr, e.nexthop))) =
      some [(target_addr, sender_addr)] := by
  decide

theorem dao_forwarded_witness :
    ∃ (node1 : rpl_node) (r : Nat) (e : uip_ds6_route),
      dao_input contiki node_preferred sender_addr (of_bytes (dao_bytes 0x80 30)) 30 [] =
        .ok (node1, of_bytes (dao_bytes 0x80 30)) ∧
      uip_ds6_route_lookup node1.routing_table target_addr = some r ∧
      node1.routing_table.get? r = some e ∧
      e.learned_from = contiki.RPL_ROUTE_FROM_UNICAST_DAO ∧
      node1.sent = node_preferred.sent ++
        [{ dest := parent_addr, type := contiki.ICMP6_RPL, code := contiki.RPL_CODE_DAO,
           len := 30 % 256, body := payload (of_bytes (dao_bytes 0x80 30)) (30 % 256) }] ∧
      (30 ≤ 255 →
        node1.sent = node_preferred.sent ++
          [{ dest := parent_addr, type := contiki.ICMP6_RPL, code := contiki.RPL_CODE_DAO,
             len := 30, body := payload (of_bytes (dao_bytes 0x80 30)) 30 }]) :=
  dao_forwarded contiki node_preferred sender_addr (of_bytes (dao_bytes 0x80 30)) 30 [] 0
    (dao_decoded 0x80 30)
    { dag0 with parents := [{ addr := parent_addr, rank := 256, updated := 0 }]
                preferred_parent := some 0 }
    0 { addr := parent_addr, rank := 256, updated := 0 }
    rfl (by decide) (by decide) (by decide) rfl rfl
    (by
      intro _ p par h
      have h0 : rpl_find_parent
          { dag0 with parents := [{ addr := parent_addr, rank := 256, updated := 0 }]
                      preferred_parent := some 0 } sender_addr = none := by decide
      rw [h0] at h
      cases h)
    (Or.inr (by decide))

theorem dio_mc_loop_step (c : rpl_private) (b : Buffer) (limit fuel j : Nat) (dio : rpl_dio)
    (node : rpl_node) (pool : memb) (hj : j < limit)
    (halloc : memb_alloc node.mc_memb = some pool) :
    ∃ (j1 : Nat) (dio1 : rpl_dio), j + 4 ≤ j1 ∧
      dio_mc_loop c b limit (fuel + 1) j dio node =
        dio_mc_loop c b limit fuel j1 dio1 { node with mc_memb := pool } := by
  rw [dio_mc_loop, if_pos hj]
  simp only [halloc]
  split_ifs
  · exact ⟨j + 4 + 2, _, by omega, rfl⟩
  · exact ⟨j + 4 + 2, _, by omega, rfl⟩
  · exact ⟨j + 4 + 2, _, by omega, rfl⟩
  · exact ⟨j + 4 + 2, _, by omega, rfl⟩
  · exact ⟨j + 4 + 2, _, by omega, rfl⟩
  · exact ⟨j + 4 + 4, _, by omega, rfl⟩
  · exact ⟨j + 4, _, by omega, rfl⟩

theorem dio_mc_loop_fuel (c : rpl_private) (b : Buffer) (limit : Nat) :
    ∀ (fuel j : Nat) (dio : rpl_dio) (node : rpl_node), limit ≤ j + 4 * fuel →
      fault_of (dio_mc_loop c b limit (fuel + 1) j dio node) ≠ some Fault.out_of_fuel := by
  intro fuel
  induction fuel with
  | zero =>
    intro j dio node h
    rw [dio_mc_loop, if_neg (by omega)]
    simp [fault_of]
  | succ f ih =>
    intro j dio node h
    by_cases hj : j < limit
    · cases ha : memb_alloc node.mc_memb with
      | none =>
        rw [dio_mc_loop, if_pos hj]
        simp [ha, fault_of]
      | some pool =>
        obtain ⟨j1, dio1, h1, h2⟩ := dio_mc_loop_step c b limit (f + 1) j dio node pool hj ha
        rw [h2]
        exact ih j1 dio1 _ (by omega)
    · rw [dio_mc_loop, if_neg hj]
      simp [fault_of]

theorem dio_subopt_fuel (c : rpl_private) (b : Buffer) (i len : Nat) (dio : rpl_dio)
    (node : rpl_node) :
    fault_of (dio_subopt c b i len dio node) ≠ some Fault.out_of_fuel := by
  unfold dio_subopt
  simp only []
  split_ifs
  · have h := dio_mc_loop_fuel c b (i + len - 2) len (i + 2 + 4 + 4 + 4)
      { dio with dio_delay := get32 b (i + 2), next_dio_time := get32 b (i + 2 + 4),
                 next_dio_delay := get32 b (i + 2 + 4 + 4) } node (by omega)
    revert h
    cases dio_mc_loop c b (i + len - 2) (len + 1) (i + 2 + 4 + 4 + 4)
      { dio with dio_delay := get32 b (i + 2), next_dio_time := get32 b (i + 2 + 4),
                 next_dio_delay := get32 b (i + 2 + 4 + 4) } node with
    | error e => intro h; simpa [fault_of] using h
    | ok r => intro _; simp [fault_of]
  all_goals simp [fault_of]

theorem dio_subopts_fuel (c : rpl_private) (b : Buffer) (len : Nat) :
    ∀ (fuel i : Nat) (dio : rpl_dio) (node : rpl_node), len ≤ i + fuel →
      fault_of (dio_subopts c b len (fuel + 1) i dio node) ≠ some Fault.out_of_fuel := by
  intro fuel
  induction fuel with
  | zero =>
    intro i dio node h
    rw [dio_subopts, if_neg (by omega)]
    simp [fault_of]
  | succ f ih =>
    intro i dio node h
    rw [dio_subopts]
    by_cases hi : i < len
    · rw [if_pos hi]
      simp only []
      have hs := dio_subopt_fuel c b i (subopt_len c b i) dio node
      have hpos := subopt_len_pos c b i
      revert hs
      cases dio_subopt c b i (subopt_len c b i) dio node with
      | error e => intro hs; simpa [fault_of] using hs
      | ok r =>
        intro _
        obtain ⟨x, dio1, node1⟩ := r
        cases x with
        | returned => simp [fault_of]
        | finished =>
          simp only []
          exact ih _ _ _ (by omega)
    · rw [if_neg hi]
      simp [fault_of]

theorem dao_subopts_fuel (c : rpl_private) (b : Buffer) (len : Nat) :
    ∀ (fuel i : Nat) (d : dao_msg), len ≤ i + fuel →
      fault_of (dao_subopts c b len (fuel + 1) i d) ≠ some Fault.out_of_fuel := by
  intro fuel
  induction fuel with
  | zero =>
    intro i d h
    rw [dao_subopts, if_neg (by omega)]
    simp [fault_of]
  | succ f ih =>
    intro i d h
    rw [dao_subopts]
    have hpos := subopt_len_pos c b i
    by_cases hi : i < len
    · rw [if_pos hi]
      simp only []
      split_ifs
      · simp [fault_of]
      · exact ih _ _ (by omega)
      · exact ih _ _ (by omega)
      · exact ih _ _ (by omega)
    · rw [if_neg hi]
      simp [fault_of]

theorem dio_input_fuel (c : rpl_private) (node : rpl_node) (srcipaddr : uip_ipaddr_t)
    (b : Buffer) (body_len : Nat) (stack : rpl_dio) (clock_time : Nat) :
    fault_of (dio_input c node srcipaddr b body_len stack clock_time) ≠
      some Fault.out_of_fuel := by
  unfold dio_input
  simp only []
  have h := dio_subopts_fuel c b (body_len % 256) (body_len % 256) 24
    (dio_base c b stack clock_time) node (by omega)
  revert h
  cases dio_subopts c b (body_len % 256) (body_len % 256 + 1) 24
    (dio_base c b stack clock_time) node with
  | error e => intro h; simpa [fault_of] using h
  | ok r =>
    intro _
    obtain ⟨x, dio1, node1⟩ := r
    cases x <;> simp [fault_of]

theorem dao_parse_fuel (c : rpl_private) (node : rpl_node) (b : Buffer) (body_len : Nat)
    (stack : uip_ipaddr_t) :
    fault_of (dao_parse c node b body_len stack) ≠ some Fault.out_of_fuel := by
  unfold dao_parse
  simp only []
  cases rpl_get_dag node (b 0) with
  | none => simp [fault_of]
  | some k =>
    simp only []
    cases node.dag_table.get? k with
    | none => simp [fault_of]
    | some dag =>
      simp only []
      have h := dao_subopts_fuel c b (body_len % 256) (body_len % 256)
        (if b 1 &&& c.RPL_DAO_D_FLAG ≠ 0 then 4 + 16 else 4)
        { instance_id := b 0, flags := b 1, sequence := b 3, prefixlen := 0,
          prefix_addr := stack, lifetime := dag.default_lifetime } (by omega)
      revert h
      cases dao_subopts c b (body_len % 256) (body_len % 256 + 1)
        (if b 1 &&& c.RPL_DAO_D_FLAG ≠ 0 then 4 + 16 else 4)
        { instance_id := b 0, flags := b 1, sequence := b 3, prefixlen := 0,
          prefix_addr := stack, lifetime := dag.default_lifetime } with
      | error e => intro h; simpa [fault_of] using h
      | ok r => intro _; simp [fault_of]

theorem dao_route_fuel (c : rpl_private) (node : rpl_node) (srcipaddr : uip_ipaddr_t)
    (b : Buffer) (bl k : Nat) (dag : rpl_dag) (d : dao_msg) :
    fault_of (dao_route c node srcipaddr b bl k dag d) ≠ some Fault.out_of_fuel := by
  unfold dao_route
  simp only []
  repeat' split
  all_goals simp [fault_of]

theorem dao_input_fuel (c : rpl_private) (node : rpl_node) (srcipaddr : uip_ipaddr_t)
    (b : Buffer) (body_len : Nat) (stack : uip_ipaddr_t) :
    fault_of (dao_input c node srcipaddr b body_len stack) ≠ some Fault.out_of_fuel := by
  unfold dao_input
  have h := dao_parse_fuel c node b body_len stack
  revert h
  cases dao_parse c node b body_len stack with
  | error e => intro h; simpa [fault_of] using h
  | ok r =>
    intro _
    cases r with
    | none => simp [fault_of]
    | some x =>
      obtain ⟨k, d⟩ := x
      simp only []
      cases node.dag_table.get? k with
      | none => simp [fault_of]
      | some dag => exact dao_route_fuel _ _ _ _ _ _ _ _

theorem tlv_scan_length (c : rpl_private) (b : Buffer) (len : Nat) :
    ∀ (fuel i : Nat), (tlv_scan c b len fuel i).1.length ≤ len - i := by
  intro fuel
  induction fuel with
  | zero => intro i; simp [tlv_scan]
  | succ f ih =>
    intro i
    rw [tlv_scan]
    have hpos := subopt_len_pos c b i
    by_cases hi : i < len
    · rw [if_pos hi]
      have h := ih (i + subopt_len c b i)
      simp only [List.length_cons]
      omega
    · rw [if_neg hi]
      simp

theorem tlv_scan_complete (c : rpl_private) (b : Buffer) (len : Nat) :
    ∀ (fuel i : Nat), len ≤ i + fuel → len ≤ (tlv_scan c b len fuel i).2 := by
  intro fuel
  induction fuel with
  | zero => intro i h; simp [tlv_scan]; omega
  | succ f ih =>
    intro i h
    rw [tlv_scan]
    have hpos := subopt_len_pos c b i
    by_cases hi : i < len
    · rw [if_pos hi]
      exact ih (i + subopt_len c b i) (by omega)
    · rw [if_neg hi]
      simp only []
      omega

/-- C20. For every byte buffer and every body length, the suboption scans of
`dio_input` and `dao_input` and the metric-entry loop of `dio_input` terminate:
a scan step advances the cursor by a total length of at least 1, a metric-entry
step by at least 4 bytes, so a scan from `i` up to `len` needs no more than
`len - i + 1` rounds and a metric loop from `j` up to `limit` no more than
`(limit - j) / 4 + 1`; within the rounds they are given, neither `dio_input` nor
`dao_input` ever stops for lack of rounds; and the sequence of suboptions a
scan visits has at most `len - i` members. -/
theorem scan_loops_terminate (c : rpl_private) (b : Buffer) :
    (∀ i, 1 ≤ subopt_len c b i) ∧
    (∀ (limit fuel j : Nat) (dio : rpl_dio) (node : rpl_node) (pool : memb),
      j < limit → memb_alloc node.mc_memb = some pool →
      ∃ (j1 : Nat) (dio1 : rpl_dio), j + 4 ≤ j1 ∧
        dio_mc_loop c b limit (fuel + 1) j dio node =
          dio_mc_loop c b limit fuel j1 dio1 { node with mc_memb := pool }) ∧
    (∀ (limit fuel j : Nat) (dio : rpl_dio) (node : rpl_node), limit ≤ j + 4 * fuel →
      fault_of (dio_mc_loop c b limit (fuel + 1) j dio node) ≠ some Fault.out_of_fuel) ∧
    (∀ (len fuel i : Nat) (dio : rpl_dio) (node : rpl_node), len ≤ i + fuel →
      fault_of (dio_subopts c b len (fuel + 1) i dio node) ≠ some Fault.out_of_fuel) ∧
    (∀ (len fuel i : Nat) (d : dao_msg), len ≤ i + fuel →
      fault_of (dao_subopts c b len (fuel + 1) i d) ≠ some Fault.out_of_fuel) ∧
    (∀ (node : rpl_node) (srcipaddr : uip_ipaddr_t) (body_len : Nat) (stack : rpl_dio)
        (clock_time : Nat),
      fault_of (dio_input c node srcipaddr b body_len stack clock_time) ≠
        some Fault.out_of_fuel) ∧
    (∀ (node : rpl_node) (srcipaddr : uip_ipaddr_t) (body_len : Nat) (stack : uip_ipaddr_t),
      fault_of (dao_input c node srcipaddr b body_len stack) ≠ some Fault.out_of_fuel) ∧
    (∀ (len fuel i : Nat), (tlv_scan c b len fuel i).1.length ≤ len - i) ∧
    (∀ (len fuel i : Nat), len ≤ i + fuel → len ≤ (tlv_scan c b len fuel i).2) :=
  ⟨subopt_len_pos c b, fun limit fuel j dio node pool => dio_mc_loop_step c b limit fuel j dio node pool,
    dio_mc_loop_fuel c b, dio_subopts_fuel c b, dao_subopts_fuel c b,
    fun node srcipaddr body_len stack clock_time =>
      dio_input_fuel c node srcipaddr b body_len stack clock_time,
    fun node srcipaddr body_len stack => dao_input_fuel c node srcipaddr b body_len stack,
    tlv_scan_length c b, tlv_scan_complete c b⟩


theorem set32_bytes (b : Buffer) (p v : Nat) (hv : v < 4294967296) :
    set32 b p v p = v >>> 24 ∧ set32 b p v (p + 1) = (v >>> 16) % 256 ∧
    set32 b p v (p + 2) = (v >>> 8) % 256 ∧ set32 b p v (p + 3) = v % 256 := by
  have h24 : v >>> 24 < 256 := by
    rw [Nat.shiftRight_eq_div_pow]
    omega
  have hm : (v >>> 16) % 65536 % 256 = (v >>> 16) % 256 :=
    Nat.mod_mod_of_dvd _ (by norm_num)
  unfold set32
  simp [put, and_ff, and_ffff, Nat.mod_eq_of_lt h24, hm]

theorem set16_bytes (b : Buffer) (p w : Nat) (hw : w < 65536) :
    set16 b p w p = w >>> 8 ∧ set16 b p w (p + 1) = w % 256 := by
  have h8 : w >>> 8 < 256 := by
    rw [Nat.shiftRight_eq_div_pow]
    omega
  unfold set16
  simp [put, and_ff, Nat.mod_eq_of_lt h8]

/-- C22. For every 32-bit value `v` and every 16-bit value `w`, at every
position of every buffer: `set32` stores the bytes `v >> 24`, `(v >> 16) mod
256`, `(v >> 8) mod 256`, `v mod 256` in this order (the mask `0xffff` of the
second store is cut to a byte by the store itself), `set16` stores `w >> 8`
and `w mod 256`, neither writes any other byte, and `get32` after `set32` and
`get16` after `set16` at the same position give back `v` and `w`. -/
theorem set_get_big_endian (b : Buffer) (p v w : Nat) (hv : v < 2 ^ 32) (hw : w < 2 ^ 16) :
    set32 b p v p = v >>> 24 ∧ set32 b p v (p + 1) = (v >>> 16) % 256 ∧
    set32 b p v (p + 2) = (v >>> 8) % 256 ∧ set32 b p v (p + 3) = v % 256 ∧
    set16 b p w p = w >>> 8 ∧ set16 b p w (p + 1) = w % 256 ∧
    (∀ i, i < p ∨ p + 4 ≤ i → set32 b p v i = b i) ∧
    (∀ i, i < p ∨ p + 2 ≤ i → set16 b p w i = b i) ∧
    get32 (set32 b p v) p = v ∧ get16 (set16 b p w) p = w := by
  have hv1 : v < 4294967296 := by norm_num at hv; exact hv
  have hw1 : w < 65536 := by norm_num at hw; exact hw
  obtain ⟨a0, a1, a2, a3⟩ := set32_bytes b p v hv1
  obtain ⟨c0, c1⟩ := set16_bytes b p w hw1
  exact ⟨a0, a1, a2, a3, c0, c1, fun i h => set32_out b p v i h, fun i h => set16_out b p w i h,
    get32_set32 b p v hv1, get16_set16 b p w hw1⟩

theorem set_get_big_endian_witness :
    0xabcd1234 < 2 ^ 32 ∧ 0xbeef < 2 ^ 16 ∧
    (0xabcd1234 >>> 16) &&& 0xffff = 0xabcd ∧
    set32 zeros 7 0xabcd1234 7 = 0xabcd1234 >>> 24 ∧
    set32 zeros 7 0xabcd1234 (7 + 1) = (0xabcd1234 >>> 16) % 256 ∧
    set32 zeros 7 0xabcd1234 (7 + 2) = (0xabcd1234 >>> 8) % 256 ∧
    set32 zeros 7 0xabcd1234 (7 + 3) = 0xabcd1234 % 256 ∧
    set16 zeros 7 0xbeef 7 = 0xbeef >>> 8 ∧ set16 zeros 7 0xbeef (7 + 1) = 0xbeef % 256 ∧
    (∀ i, i < 7 ∨ 7 + 4 ≤ i → set32 zeros 7 0xabcd1234 i = zeros i) ∧
    (∀ i, i < 7 ∨ 7 + 2 ≤ i → set16 zeros 7 0xbeef i = zeros i) ∧
    get32 (set32 zeros 7 0xabcd1234) 7 = 0xabcd1234 ∧
    get16 (set16 zeros 7 0xbeef) 7 = 0xbeef :=
  ⟨by decide, by decide, by decide,
    set_get_big_endian zeros 7 0xabcd1234 0xbeef (by decide) (by decide)⟩

theorem mc_packed_eq (e : rpl_metric_container) (ha : e.aggr < 4) (hp : e.prec < 16) :
    mc_packed e = (e.flags % 2) * 128 + e.aggr * 16 + e.prec ∧
    (e.flags &&& 1) <<< 7 ||| e.aggr <<< 4 ||| e.prec = mc_packed e := by
  have h1 : e.aggr <<< 4 ||| e.prec = e.aggr * 16 + e.prec := by
    rw [shl_or_eq_add _ _ 4 (by norm_num; exact hp)]
    norm_num
  have h2 : e.flags &&& 1 = e.flags % 2 := Nat.and_one_is_mod e.flags
  have h3 : (e.flags % 2) <<< 7 = (e.flags % 2) * 128 := by
    rw [Nat.shiftLeft_eq]
  have h4 : (e.flags % 2) * 128 < 256 := by omega
  have h5 : (e.flags % 2) <<< 7 ||| (e.aggr * 16 + e.prec) =
      (e.flags % 2) * 128 + (e.aggr * 16 + e.prec) := by
    rw [shl_or_eq_add _ _ 7 (by norm_num; omega)]
    norm_num
  have h6 : mc_packed e = (e.flags % 2) * 128 + e.aggr * 16 + e.prec := by
    unfold mc_packed
    rw [h1, h2, h3, Nat.mod_eq_of_lt h4, ← h3, h5, Nat.mod_eq_of_lt (by omega)]
    omega
  refine ⟨h6, ?_⟩
  rw [h6, Nat.lor_assoc, h1, h2, h5]
  omega

theorem mc_wire_header (e : rpl_metric_container) (hf : e.flags < 256) (ha : e.aggr < 4)
    (hp : e.prec < 16) :
    (((e.flags >>> 1) % 256) <<< 1) % 256 ||| (mc_packed e >>> 7) = e.flags ∧
    (mc_packed e >>> 4) &&& 0x3 = e.aggr ∧ mc_packed e &&& 0xf = e.prec := by
  obtain ⟨h6, _⟩ := mc_packed_eq e ha hp
  have s7 : mc_packed e >>> 7 = e.flags % 2 := by
    rw [Nat.shiftRight_eq_div_pow, h6]
    omega
  have s4 : mc_packed e >>> 4 = (e.flags % 2) * 8 + e.aggr := by
    rw [Nat.shiftRight_eq_div_pow, h6]
    omega
  have s1 : e.flags >>> 1 = e.flags / 2 := by
    rw [Nat.shiftRight_eq_div_pow]
  refine ⟨?_, ?_, ?_⟩
  · rw [s7, s1, Nat.mod_eq_of_lt (by omega), Nat.shiftLeft_eq, Nat.mod_eq_of_lt (by omega),
      ← Nat.shiftLeft_eq, shl_or_eq_add _ _ 1 (by norm_num; omega)]
    omega
  · rw [s4, show (0x3 : Nat) = 2 ^ 2 - 1 by norm_num, Nat.and_pow_two_sub_one_eq_mod]
    omega
  · rw [h6, show (0xf : Nat) = 2 ^ 4 - 1 by norm_num, Nat.and_pow_two_sub_one_eq_mod]
    omega

theorem get_set_other {α : Type} (l : List α) (r i : Nat) (e : α) (h : i ≠ r) :
    (l.set r e).get? i = l.get? i := by
  simp [List.getElem?_set, Ne.symm h]

/-- C24. When the route table holds an entry for the target prefix, a DAO that
is no withdrawal and on which the loop check does not fire leaves a route table
that differs from the old one only in the `lifetime` and `learned_from` fields
of that entry: prefix, prefix length, next hop and `saved_lifetime` of the
entry are as before (a saved lifetime other than 0 stays other than 0), the
table has the same length, and every other entry is as before. -/
theorem dao_route_frame (c : rpl_private) (node : rpl_node) (srcipaddr : uip_ipaddr_t)
    (buffer : Buffer) (body_len : Nat) (stack : uip_ipaddr_t) (k : Nat) (d : dao_msg)
    (dag : rpl_dag) (r0 : Nat) (e0 : uip_ds6_route)
    (h_parse : dao_parse c node buffer body_len stack = .ok (some (k, d)))
    (h_dag : node.dag_table.get? k = some dag)
    (h_lifetime : d.lifetime ≠ c.ZERO_LIFETIME)
    (h_no_loop : dao_no_loop c dag srcipaddr)
    (h_found : uip_ds6_route_lookup node.routing_table d.prefix_addr = some r0)
    (h_entry : node.routing_table.get? r0 = some e0)
    (h_pref : ∀ pp, dag.preferred_parent = some pp → dag.parents.get? pp ≠ none) :
    ∃ (node1 : rpl_node) (buffer1 : Buffer) (e1 : uip_ds6_route),
      dao_input c node srcipaddr buffer body_len stack = .ok (node1, buffer1) ∧
      node1.routing_table = node.routing_table.set r0
        { e0 with lifetime := c.RPL_LIFETIME dag d.lifetime,
                  learned_from := dao_learned_from c srcipaddr } ∧
      node1.routing_table.length = node.routing_table.length ∧
      node1.routing_table.get? r0 = some e1 ∧
      e1.lifetime = c.RPL_LIFETIME dag d.lifetime ∧
      e1.learned_from = dao_learned_from c srcipaddr ∧
      e1.ipaddr = e0.ipaddr ∧ e1.length = e0.length ∧ e1.nexthop = e0.nexthop ∧
      e1.saved_lifetime = e0.saved_lifetime ∧
      (e0.saved_lifetime ≠ 0 → e1.saved_lifetime ≠ 0) ∧
      (∀ i, i ≠ r0 → node1.routing_table.get? i = node.routing_table.get? i) := by
  obtain ⟨table, r, e, hget, _, _, hold, heq⟩ :=
    dao_route_tail c node srcipaddr buffer (body_len % 256) k dag d h_lifetime h_no_loop
      (Or.inl (by rw [h_found]; simp))
  obtain ⟨hr, ht⟩ := hold r0 h_found
  subst hr
  subst ht
  rw [h_entry] at hget
  cases hget
  rw [dao_input_eq c node srcipaddr buffer body_len stack k d dag h_parse h_dag, heq]
  have hself := get_set_self node.routing_table r e0
    { e0 with lifetime := c.RPL_LIFETIME dag d.lifetime,
              learned_from := dao_learned_from c srcipaddr } h_entry
  have hother : ∀ i, i ≠ r →
      (node.routing_table.set r
        { e0 with lifetime := c.RPL_LIFETIME dag d.lifetime,
                  learned_from := dao_learned_from c srcipaddr }).get? i =
      node.routing_table.get? i := fun i hi => get_set_other _ _ _ _ hi
  have hlen : (node.routing_table.set r
        { e0 with lifetime := c.RPL_LIFETIME dag d.lifetime,
                  learned_from := dao_learned_from c srcipaddr }).length =
      node.routing_table.length := List.length_set _ _ _
  by_cases hlf : dao_learned_from c srcipaddr = c.RPL_ROUTE_FROM_UNICAST_DAO
  · rw [if_pos hlf]
    cases hp : dag.preferred_parent with
    | some pp =>
      simp only []
      cases hpar : dag.parents.get? pp with
      | none => exact absurd hpar (h_pref pp hp)
      | some par =>
        simp only []
        exact ⟨_, _, _, rfl, rfl, hlen, hself, rfl, rfl, rfl, rfl, rfl, rfl, fun h => h, hother⟩
    | none =>
      simp only []
      by_cases hk : d.flags &&& c.RPL_DAO_K_FLAG ≠ 0
      · rw [if_pos hk]
        exact ⟨_, _, _, rfl, rfl, hlen, hself, rfl, rfl, rfl, rfl, rfl, rfl, fun h => h, hother⟩
      · rw [if_neg hk]
        exact ⟨_, _, _, rfl, rfl, hlen, hself, rfl, rfl, rfl, rfl, rfl, rfl, fun h => h, hother⟩
  · rw [if_neg hlf]
    exact ⟨_, _, _, rfl, rfl, hlen, hself, rfl, rfl, rfl, rfl, rfl, rfl, fun h => h, hother⟩

theorem dao_route_frame_witness :
    (∃ e0 : uip_ds6_route, node_route_pending.routing_table.get? 1 = some e0 ∧
      e0.saved_lifetime ≠ 0) ∧
    ∃ (node1 : rpl_node) (buffer1 : Buffer) (e1 : uip_ds6_route),
      dao_input contiki node_route_pending sender_addr (of_bytes (dao_bytes 0 30)) 30 [] =
        .ok (node1, buffer1) ∧
      node1.routing_table = node_route_pending.routing_table.set 1
        { ({ route0 with lifetime := 60, saved_lifetime := 1000 } : uip_ds6_route) with
            lifetime := contiki.RPL_LIFETIME dag0 30,
            learned_from := dao_learned_from contiki sender_addr } ∧
      node1.routing_table.length = node_route_pending.routing_table.length ∧
      node1.routing_table.get? 1 = some e1 ∧
      e1.lifetime = contiki.RPL_LIFETIME dag0 30 ∧
      e1.learned_from = dao_learned_from contiki sender_addr ∧
      e1.ipaddr = route0.ipaddr ∧ e1.length = route0.length ∧ e1.nexthop = route0.nexthop ∧
      e1.saved_lifetime = 1000 ∧
      ((1000 : Nat) ≠ 0 → e1.saved_lifetime ≠ 0) ∧
      (∀ i, i ≠ 1 → node1.routing_table.get? i = node_route_pending.routing_table.get? i) :=
  ⟨⟨_, rfl, by decide⟩,
    dao_route_frame contiki node_route_pending sender_addr (of_bytes (dao_bytes 0 30)) 30 [] 0
      (dao_decoded 0 30) dag0 1 { route0 with lifetime := 60, saved_lifetime := 1000 }
      rfl (by decide) (by decide)
      (by
        intro _ p par h
        have h0 : rpl_find_parent dag0 sender_addr = none := by decide
        rw [h0] at h
        cases h)
      (by decide) (by decide) (by intro pp h; cases h)⟩

theorem pair16 (x : Nat) (hx : x < 65536) :
    (((x >>> 8) % 256) <<< 8 ||| ((x &&& 0xff) % 256)) % 2 ^ 16 = x := by
  have h8 : x >>> 8 = x / 256 := by rw [Nat.shiftRight_eq_div_pow]
  rw [and_ff, h8, Nat.mod_mod, be16 _ _ (Nat.mod_lt _ (by norm_num)),
    Nat.mod_eq_of_lt (show x / 256 < 256 by omega)]
  omega

theorem dio_output_conf_fields (c : rpl_private) (dag : rpl_dag) (b : Buffer) (p : Nat)
    (h : dag_conf_in_range dag) (dio : rpl_dio) :
    dag_conf_agree (dio_conf_read (dio_output_conf c dag b p).1 p dio) dag := by
  obtain ⟨h1, h2, h3, h4, h5, h6, h7, h8⟩ := h
  have e1 := pair16 _ h4
  have e2 := pair16 _ h5
  have e3 := pair16 _ h6
  have e4 := pair16 _ h8
  unfold dag_conf_agree dio_conf_read dio_output_conf
  simp only [put]
  refine ⟨?_, ?_, ?_, ?_, ?_, ?_, ?_, ?_⟩
  · simp [Nat.mod_eq_of_lt h1]
  · simp [Nat.mod_eq_of_lt h2]
  · simp [Nat.mod_eq_of_lt h3]
  · simpa using e1
  · simpa using e2
  · simpa using e3
  · simp [Nat.mod_eq_of_lt h7]
  · simpa using e4

theorem dio_conf_read_congr (b1 b2 : Buffer) (p : Nat) (dio : rpl_dio)
    (h : ∀ i, p ≤ i → i < p + 16 → b1 i = b2 i) :
    dio_conf_read b1 p dio = dio_conf_read b2 p dio := by
  unfold dio_conf_read
  rw [h (p + 3) (by omega) (by omega), h (p + 4) (by omega) (by omega),
    h (p + 5) (by omega) (by omega), h (p + 6) (by omega) (by omega),
    h (p + 7) (by omega) (by omega), h (p + 8) (by omega) (by omega),
    h (p + 9) (by omega) (by omega), h (p + 10) (by omega) (by omega),
    h (p + 11) (by omega) (by omega), h (p + 13) (by omega) (by omega),
    h (p + 14) (by omega) (by omega), h (p + 15) (by omega) (by omega)]

theorem dio_prefix_info_read_congr (b1 b2 : Buffer) (p : Nat) (dio : rpl_dio)
    (h : ∀ i, p ≤ i → i < p + 32 → b1 i = b2 i) :
    dio_prefix_info_read b1 p dio = dio_prefix_info_read b2 p dio := by
  unfold dio_prefix_info_read
  have hg : get32 b1 (p + 8) = get32 b2 (p + 8) :=
    get32_congr _ _ _ (h _ (by omega) (by omega)) (h _ (by omega) (by omega))
      (h _ (by omega) (by omega)) (h _ (by omega) (by omega))
  have hm : memcpy_from dio.prefix_info.prefix_addr b1 (p + 16) 16 =
      memcpy_from dio.prefix_info.prefix_addr b2 (p + 16) 16 := by
    unfold memcpy_from
    congr 1
    apply List.map_congr_left
    intro k hk
    rw [List.mem_range] at hk
    exact h _ (by omega) (by omega)
  rw [h (p + 2) (by omega) (by omega), h (p + 3) (by omega) (by omega), hg, hm]

theorem dio_output_prefix_info_fields (c : rpl_private) (dag : rpl_dag) (b : Buffer) (p : Nat)
    (hr : prefix_in_range dag.prefix_info) (hl : dag.prefix_info.length > 0) (dio : rpl_dio) :
    (dio_prefix_info_read (dio_output_prefix_info c dag b p).1 p dio).prefix_info =
      dag.prefix_info := by
  obtain ⟨h1, h2, h3, h4, h5⟩ := hr
  unfold dio_output_prefix_info
  rw [if_pos hl]
  simp only []
  generalize hB : set32 (put (put (put (put b p c.RPL_DIO_SUBOPT_PREFIX_INFO) (p + 1) 30)
    (p + 2) dag.prefix_info.length) (p + 3) dag.prefix_info.flags) (p + 4)
    dag.prefix_info.lifetime = B
  have low : ∀ i, i < p + 12 →
      memcpy_to (memset0 (set32 B (p + 8) dag.prefix_info.lifetime) (p + 12) 4) (p + 16)
        dag.prefix_info.prefix_addr 16 i = set32 B (p + 8) dag.prefix_info.lifetime i := by
    intro i hi
    have a1 : ¬ (p + 16 ≤ i ∧ i < p + 16 + 16) := by omega
    have a2 : ¬ (p + 12 ≤ i ∧ i < p + 12 + 4) := by omega
    simp only [memcpy_to, memset0, a1, a2, if_false]
  have g : get32 (memcpy_to (memset0 (set32 B (p + 8) dag.prefix_info.lifetime) (p + 12) 4)
      (p + 16) dag.prefix_info.prefix_addr 16) (p + 8) = dag.prefix_info.lifetime := by
    rw [get32_congr _ (set32 B (p + 8) dag.prefix_info.lifetime) _ (low _ (by omega))
      (low _ (by omega)) (low _ (by omega)) (low _ (by omega)), get32_set32 _ _ _ h3]
  have b2 : memcpy_to (memset0 (set32 B (p + 8) dag.prefix_info.lifetime) (p + 12) 4) (p + 16)
      dag.prefix_info.prefix_addr 16 (p + 2) = dag.prefix_info.length := by
    rw [low _ (by omega), set32_out _ _ _ _ (by omega), ← hB, set32_out _ _ _ _ (by omega)]
    simp [put, Nat.mod_eq_of_lt h1]
  have b3 : memcpy_to (memset0 (set32 B (p + 8) dag.prefix_info.lifetime) (p + 12) 4) (p + 16)
      dag.prefix_info.prefix_addr 16 (p + 3) = dag.prefix_info.flags := by
    rw [low _ (by omega), set32_out _ _ _ _ (by omega), ← hB, set32_out _ _ _ _ (by omega)]
    simp [put, Nat.mod_eq_of_lt h2]
  have m : memcpy_from dio.prefix_info.prefix_addr
      (memcpy_to (memset0 (set32 B (p + 8) dag.prefix_info.lifetime) (p + 12) 4) (p + 16)
        dag.prefix_info.prefix_addr 16) (p + 16) 16 = dag.prefix_info.prefix_addr := by
    apply memcpy_from_all _ _ _ _ h4
    intro k hk
    have hx : dag.prefix_info.prefix_addr.getD k 0 < 256 := by
      rw [List.getD_eq_getElem _ _ (by omega)]
      exact h5 _ (List.getElem_mem _)
    have a1 : p + 16 ≤ p + 16 + k ∧ p + 16 + k < p + 16 + 16 := by omega
    simp only [memcpy_to, a1, and_self, if_true, Nat.add_sub_cancel_left]
    exact Nat.mod_eq_of_lt hx
  unfold dio_prefix_info_read
  simp only [g, b2, b3, m]

/-- C23. For every DAG state with an empty metric list whose configuration
fields fit their C types: `dio_input`, run on a memory that holds the body
written by `dio_output`, runs to the end without a malformed-message signal
(nothing but the log of handed DIOs changes) and hands `rpl_process_dio` one
DIO whose DAG configuration (interval doublings, interval minimum, redundancy,
maximum rank increase, minimum hop rank increase, objective code point,
default lifetime, lifetime unit) equals that of the DAG and, when
`prefix_info.length > 0`, whose prefix information (length, flags, lifetime,
16-byte prefix) equals that of the DAG. -/
theorem dio_conf_of_dio_output (c : rpl_private) (of : rpl_of) (sender : rpl_node)
    (dag : rpl_dag) (buffer : Buffer) (node : rpl_node) (srcipaddr : uip_ipaddr_t)
    (rx : Buffer) (stack : rpl_dio) (clock_time : Nat)
    (h_types : emitted_types_ok c) (h_labels : labels_distinct c)
    (h_empty : dag.mcs = [])
    (h_conf : dag_conf_in_range dag)
    (h_pinfo : dag.prefix_info.length > 0 → prefix_in_range dag.prefix_info)
    (h_rx : delivered (dio_output_body c of sender dag buffer).2.1
      (dio_output_body c of sender dag buffer).2.2 rx) :
    ∃ dio : rpl_dio,
      dio_input c node srcipaddr rx (dio_output_body c of sender dag buffer).2.2 stack
          clock_time =
        .ok { node with processed_dio := node.processed_dio ++ [(srcipaddr, dio)] } ∧
      dag_conf_agree dio dag ∧
      (dag.prefix_info.length > 0 → dio.prefix_info = dag.prefix_info) := by
  obtain ⟨t1, t2, t3, t4, t5, t6⟩ := h_types
  have hb : (dio_output_base dag buffer).1.mcs = [] := h_empty
  have hmc := dio_output_mc_empty c of sender (dio_output_base dag buffer).1
    (dio_output_base dag buffer).2.1 24 hb
  have hbody : dio_output_body c of sender dag buffer =
      ((dio_output_base dag buffer).1,
       dio_output_prefix_info c (dio_output_base dag buffer).1
        (dio_output_conf c (dio_output_base dag buffer).1 (dio_output_base dag buffer).2.1
          24).1 40) := by
    unfold dio_output_body
    simp only []
    rw [show (dio_output_base dag buffer).2.2 = 24 from rfl, hmc]
    rfl
  rw [hbody] at h_rx ⊢
  simp only [] at h_rx ⊢
  have hpi : (dio_output_base dag buffer).1.prefix_info = dag.prefix_info := rfl
  have hcf : ∀ dio, dag_conf_agree dio (dio_output_base dag buffer).1 → dag_conf_agree dio dag :=
    fun _ h => h
  have hcr : dag_conf_in_range (dio_output_base dag buffer).1 := h_conf
  generalize (dio_output_base dag buffer).1 = dag1 at *
  generalize (dio_output_base dag buffer).2.1 = b1 at *
  obtain ⟨k0, k1⟩ := dio_output_conf_bytes c dag1 b1 24
  rw [Nat.mod_eq_of_lt t2] at k0
  have hagree := fun dio => hcf _ (dio_output_conf_fields c dag1 b1 24 hcr dio)
  generalize hK : (dio_output_conf c dag1 b1 24).1 = K at *
  have hlow : ∀ i, i < 40 → (dio_output_prefix_info c dag1 K 40).1 i = K i :=
    fun i hi => dio_output_prefix_info_out c dag1 K 40 i hi
  by_cases hp : dag.prefix_info.length > 0
  · have hp1 : dag1.prefix_info.length > 0 := by rw [hpi]; exact hp
    obtain ⟨p0, p1, p2⟩ := dio_output_prefix_info_bytes c dag1 K 40 hp1
    rw [Nat.mod_eq_of_lt t3] at p1
    have hfields := fun dio => dio_output_prefix_info_fields c dag1 K 40
      (by rw [hpi]; exact h_pinfo hp) hp1 dio
    rw [p0] at h_rx ⊢
    generalize (dio_output_prefix_info c dag1 K 40).1 = T at *
    have r24 : rx 24 = c.RPL_DIO_SUBOPT_DAG_CONF := by
      rw [h_rx 24 (by omega), hlow 24 (by omega)]; exact k0
    have r25 : rx (24 + 1) = 14 := by
      rw [h_rx 25 (by omega), hlow 25 (by omega)]; exact k1
    have r40 : rx (24 + 16) = c.RPL_DIO_SUBOPT_PREFIX_INFO := by
      rw [h_rx 40 (by omega)]; exact p1
    have r41 : rx (24 + 16 + 1) = 30 := by
      rw [h_rx 41 (by omega)]; exact p2
    have hc := dio_subopt_conf c rx 24 (dio_base c rx stack clock_time) node h_labels
      ⟨t1, t2, t3, t4, t5, t6⟩ r24 r25
    have hq := dio_subopt_prefix_info c rx (24 + 16)
      (dio_conf_read rx 24 (dio_base c rx stack clock_time)) node h_labels
      ⟨t1, t2, t3, t4, t5, t6⟩ r40 r41
    have e1 : dio_conf_read rx 24 (dio_base c rx stack clock_time) =
        dio_conf_read K 24 (dio_base c rx stack clock_time) :=
      dio_conf_read_congr _ _ _ _ (fun i h1 h2 => by rw [h_rx i (by omega), hlow i (by omega)])
    have e2 : dio_prefix_info_read rx 40 (dio_conf_read rx 24 (dio_base c rx stack clock_time)) =
        dio_prefix_info_read T 40 (dio_conf_read rx 24 (dio_base c rx stack clock_time)) :=
      dio_prefix_info_read_congr _ _ _ _ (fun i h1 h2 => by rw [h_rx i (by omega)])
    refine ⟨dio_prefix_info_read rx 40 (dio_conf_read rx 24 (dio_base c rx stack clock_time)),
      ?_, ?_, ?_⟩
    · unfold dio_input
      simp only []
      rw [show (40 + 32) % 256 + 1 = 70 + 3 from rfl, show (40 + 32) % 256 = 72 from rfl,
        dio_subopts_next c rx 72 (70 + 2) 24 _ _ node node (by omega)
          (by rw [hc.1]; exact hc.2), hc.1,
        dio_subopts_next c rx 72 (70 + 1) (24 + 16) _ _ node node (by omega)
          (by rw [hq.1]; exact hq.2), hq.1,
        dio_subopts_end _ _ _ _ _ _ _ (by omega)]
      rfl
    · have h := hagree (dio_base c rx stack clock_time)
      rw [← e1] at h
      exact h
    · intro _
      rw [e2, hfields, hpi]
  · have hp1 : ¬ dag1.prefix_info.length > 0 := by rw [hpi]; exact hp
    have hT : dio_output_prefix_info c dag1 K 40 = (K, 40) := by
      unfold dio_output_prefix_info
      rw [if_neg hp1]
    rw [hT] at h_rx ⊢
    simp only [] at h_rx ⊢
    have r24 : rx 24 = c.RPL_DIO_SUBOPT_DAG_CONF := by
      rw [h_rx 24 (by omega)]; exact k0
    have r25 : rx (24 + 1) = 14 := by
      rw [h_rx 25 (by omega)]; exact k1
    have hc := dio_subopt_conf c rx 24 (dio_base c rx stack clock_time) node h_labels
      ⟨t1, t2, t3, t4, t5, t6⟩ r24 r25
    have e1 : dio_conf_read rx 24 (dio_base c rx stack clock_time) =
        dio_conf_read K 24 (dio_base c rx stack clock_time) :=
      dio_conf_read_congr _ _ _ _ (fun i h1 h2 => by rw [h_rx i (by omega)])
    refine ⟨dio_conf_read rx 24 (dio_base c rx stack clock_time), ?_, ?_, ?_⟩
    · unfold dio_input
      simp only []
      rw [show 40 % 256 + 1 = 39 + 2 from rfl, show 40 % 256 = 40 from rfl,
        dio_subopts_next c rx 40 (39 + 1) 24 _ _ node node (by omega)
          (by rw [hc.1]; exact hc.2), hc.1,
        dio_subopts_end _ _ _ _ _ _ _ (by omega)]
      rfl
    · have h := hagree (dio_base c rx stack clock_time)
      rw [← e1] at h
      exact h
    · intro h
      exact absurd h hp

theorem dio_conf_of_dio_output_witness :
    dag_prefixed.mcs = [] ∧ dag_prefixed.prefix_info.length > 0 ∧
    dag_conf_in_range dag_prefixed ∧ prefix_in_range dag_prefixed.prefix_info ∧
    (dio_output_body contiki of_keep node0 dag_prefixed zeros).2.2 = 72 ∧
    ∃ dio : rpl_dio,
      dio_input contiki node0 sender_addr
          (dio_output_body contiki of_keep node0 dag_prefixed zeros).2.1
          (dio_output_body contiki of_keep node0 dag_prefixed zeros).2.2 dio0 0 =
        .ok { node0 with processed_dio := node0.processed_dio ++ [(sender_addr, dio)] } ∧
      dag_conf_agree dio dag_prefixed ∧
      (dag_prefixed.prefix_info.length > 0 →
        dio.prefix_info = dag_prefixed.prefix_info) :=
  ⟨rfl, by decide, by decide, by decide, by decide,
    dio_conf_of_dio_output contiki of_keep node0 dag_prefixed zeros node0 sender_addr
      (dio_output_body contiki of_keep node0 dag_prefixed zeros).2.1 dio0 0
      (by decide) (by decide) rfl (by decide) (fun _ => by decide) (fun _ _ => rfl)⟩

end RplIcmp6
